import Mathlib

/-!
# hc16dis: the HC16 disassembler

A shallow embedding of `hc16dis.c`: the operand and operand-list objects, the
`mode` enumeration, the four-page opcode table, the bounds-checked byte fetch
`getb`, the operand printer `print_operand` and the decode loop `disass`.

Conventions of the embedding.
* The input buffer `in` is a function from byte index to byte value together
  with `size`; indices at or past `size` are memory beyond the buffer.  Every
  read of `in` is recorded in the state, so that the set of indices read can be
  spoken about.
* `size_t` values are natural numbers reduced modulo `2 ^ 64` wherever the
  source does arithmetic on them; `int` counters stay far from overflow and are
  plain natural numbers.
* `return -1`, `return 0`, `exit(6)` and a dereference of a null table pointer
  are the ways an execution of `disass` can end.
-/

namespace Hc16

/-! ## Data model -/

/-- The struct `operand_s`: a named operand field of `bits` bits with its
sign-extend and zero-extend flags (omitted initializers are zero). -/
structure operand where
  name : String
  bits : Nat
  sext : Nat
  zext : Nat
deriving DecidableEq

def op_b : operand := ⟨"b", 4, 0, 0⟩
def op_ff : operand := ⟨"ff", 8, 0, 0⟩
def op_gggg : operand := ⟨"gggg", 16, 1, 0⟩
def op_zg : operand := ⟨"zg", 4, 1, 0⟩
def op_hh : operand := ⟨"hh", 8, 0, 0⟩
def op_ii : operand := ⟨"ii", 8, 1, 0⟩
def op_jj : operand := ⟨"jj", 8, 0, 0⟩
def op_kk : operand := ⟨"kk", 8, 0, 0⟩
def op_ll : operand := ⟨"ll", 8, 0, 0⟩
def op_mm : operand := ⟨"mm", 8, 0, 0⟩
def op_mmmm : operand := ⟨"mmmm", 16, 0, 0⟩
def op_rr : operand := ⟨"rr", 8, 0, 0⟩
def op_rrrr : operand := ⟨"rrrr", 16, 1, 0⟩
def op_xo : operand := ⟨"xo", 8, 0, 0⟩
def op_yo : operand := ⟨"yo", 8, 0, 0⟩
def op_z : operand := ⟨"z", 4, 0, 1⟩

/-- The sixteen operand objects of the program.  The source tells them apart by
address; their records are pairwise different, so equality of records is
equality of addresses. -/
def all_operand_objects : List operand :=
  [op_b, op_ff, op_gggg, op_zg, op_hh, op_ii, op_jj, op_kk, op_ll, op_mm,
   op_mmmm, op_rr, op_rrrr, op_xo, op_yo, op_z]

/-- The struct `operands_s`: `elements` holds the pointers that the initializer
lists; the remaining slots of the four-slot array are null. -/
structure operands where
  name : String
  num : Nat
  elements : List operand
deriving DecidableEq

def ff : operands := ⟨"ff", 1, [op_ff]⟩
def ii : operands := ⟨"ii", 1, [op_ii]⟩
def rr : operands := ⟨"rr", 1, [op_rr]⟩
def gggg : operands := ⟨"gggg", 1, [op_gggg]⟩
def rrrr : operands := ⟨"rrrr", 1, [op_rrrr]⟩

def ggggmmmm : operands := ⟨"gggg mmmm", 2, [op_gggg, op_mmmm]⟩
def hhll : operands := ⟨"hhll", 2, [op_hh, op_ll]⟩
def jjkk : operands := ⟨"jjkk", 2, [op_jj, op_kk]⟩
def mmff : operands := ⟨"mm ff", 2, [op_mm, op_ff]⟩
def mmgggg : operands := ⟨"mm gggg", 2, [op_mm, op_gggg]⟩
def xoyo : operands := ⟨"xoyo", 2, [op_xo, op_yo]⟩
def zggggg : operands := ⟨"zg gggg", 2, [op_zg, op_gggg]⟩

def ffhhll : operands := ⟨"ff hhll", 3, [op_ff, op_hh, op_ll]⟩
def hhllmmmm : operands := ⟨"hhll mmmm", 3, [op_hh, op_ll, op_mmmm]⟩
def mmffrr : operands := ⟨"mm ff rr", 3, [op_mm, op_ff, op_rr]⟩
def mmggggrrrr : operands := ⟨"mm gggg rrrr", 3, [op_mm, op_gggg, op_rrrr]⟩
def mmhhll : operands := ⟨"mm hhll", 3, [op_mm, op_hh, op_ll]⟩

def mmhhllrr : operands := ⟨"mm hhll rr", 4, [op_mm, op_hh, op_ll, op_rr]⟩
def mmhhllrrrr : operands := ⟨"mm hhll rrrr", 4, [op_mm, op_hh, op_ll, op_rrrr]⟩
def zbhhll : operands := ⟨"z b hhll", 4, [op_z, op_b, op_hh, op_ll]⟩

/-- The twenty operand lists of the program. -/
def all_operand_lists : List operands :=
  [ff, ii, rr, gggg, rrrr, ggggmmmm, hhll, jjkk, mmff, mmgggg, xoyo, zggggg,
   ffhhll, hhllmmmm, mmffrr, mmggggrrrr, mmhhll, mmhhllrr, mmhhllrrrr, zbhhll]

/-- The enumeration `mode`, one constructor per distinct value (the upper-case
and alias enumerators of the source name the same values). -/
inductive mode where
  | PAGE0 | PAGE1 | PAGE2 | PAGE3
  | ind8x | ind8y | ind8z
  | ind16x | ind16y | ind16z
  | ixp2ext | ext2ixp
  | inh | rel8 | rel16 | imm8 | imm16
  | ind20x | ind20y | ind20z
  | ext | ext20 | ex | ey | ez | ext2ext
deriving DecidableEq

/-- Numeric value of an enumerator of `mode`. -/
def mode.toNat : mode → Nat
  | .PAGE0 => 0 | .PAGE1 => 1 | .PAGE2 => 2 | .PAGE3 => 3
  | .ind8x => 4 | .ind8y => 5 | .ind8z => 6
  | .ind16x => 7 | .ind16y => 8 | .ind16z => 9
  | .ixp2ext => 10 | .ext2ixp => 11
  | .inh => 12 | .rel8 => 13 | .rel16 => 14 | .imm8 => 15 | .imm16 => 16
  | .ind20x => 17 | .ind20y => 18 | .ind20z => 19
  | .ext => 20 | .ext20 => 21 | .ex => 22 | .ey => 23 | .ez => 24 | .ext2ext => 25

/-- The array `modenames`, indexed by the value of the mode. -/
def modenames : List (Option String) :=
  [some "PAGE0", some "PAGE1", some "PAGE2", some "PAGE3",
   some "X", some "Y", some "Z", some "X", some "Y", some "Z",
   some "IXP->EXT", some "EXT->IXP", some "INH", some "rel8", some "rel16",
   some "imm8", some "imm16", some "X", some "Y", some "Z",
   some "EXT", some "EXT20", some "E_X", some "E_Y", some "E_Z", some "EXT->EXT"]

/-- The struct `optable_s`.  A null `mnemonic` or `operands` pointer is `none`. -/
structure op where
  opcode : Nat
  mnemonic : Option String
  mode : mode
  operands : Option operands
deriving DecidableEq

/-- A table slot without initializer: every field zero. -/
def op_zero : op := ⟨0, none, .PAGE0, none⟩

/-! ## The opcode table -/

/-- Initializer list of `opcodes[0]` (no prefix), in source order. -/
def opcodes_init0 : List op := [
  (op.mk 0x00 (some "com") .ind8x (some ff)),
  (op.mk 0x01 (some "dec") .ind8x (some ff)),
  (op.mk 0x02 (some "neg") .ind8x (some ff)),
  (op.mk 0x03 (some "inc") .ind8x (some ff)),
  (op.mk 0x04 (some "asl") .ind8x (some ff)),
  (op.mk 0x05 (some "clr") .ind8x (some ff)),
  (op.mk 0x06 (some "tst") .ind8x (some ff)),
  (op.mk 0x07 (some "unrecognized") .PAGE0 (some ii)),
  (op.mk 0x08 (some "bclr") .ind16x (some mmggggrrrr)),
  (op.mk 0x09 (some "bset") .ind16x (some mmggggrrrr)),
  (op.mk 0x0a (some "brclr") .ind16x (some mmggggrrrr)),
  (op.mk 0x0b (some "brset") .ind16x (some mmggggrrrr)),
  (op.mk 0x0c (some "rol") .ind8x (some ff)),
  (op.mk 0x0d (some "asr") .ind8x (some ff)),
  (op.mk 0x0e (some "ror") .ind8x (some ff)),
  (op.mk 0x0f (some "lsr") .ind8x (some ff)),
  (op.mk 0x10 (some "com") .ind8y (some ff)),
  (op.mk 0x11 (some "dec") .ind8y (some ff)),
  (op.mk 0x12 (some "neg") .ind8y (some ff)),
  (op.mk 0x13 (some "inc") .ind8y (some ff)),
  (op.mk 0x14 (some "asl") .ind8y (some ff)),
  (op.mk 0x15 (some "clr") .ind8y (some ff)),
  (op.mk 0x16 (some "tst") .ind8y (some ff)),
  (op.mk 0x17 (some "PREBYTE") .PAGE1 none),
  (op.mk 0x18 (some "bclr") .ind16y (some mmggggrrrr)),
  (op.mk 0x19 (some "bset") .ind16y (some mmggggrrrr)),
  (op.mk 0x1a (some "brclr") .ind16y (some mmggggrrrr)),
  (op.mk 0x1b (some "brset") .ind16y (some mmggggrrrr)),
  (op.mk 0x1c (some "rol") .ind8y (some ff)),
  (op.mk 0x1d (some "asr") .ind8y (some ff)),
  (op.mk 0x1e (some "ror") .ind8y (some ff)),
  (op.mk 0x1f (some "lsr") .ind8y (some ff)),
  (op.mk 0x20 (some "com") .ind8z (some ff)),
  (op.mk 0x21 (some "dec") .ind8z (some ff)),
  (op.mk 0x22 (some "neg") .ind8z (some ff)),
  (op.mk 0x23 (some "inc") .ind8z (some ff)),
  (op.mk 0x24 (some "asl") .ind8z (some ff)),
  (op.mk 0x25 (some "clr") .ind8z (some ff)),
  (op.mk 0x26 (some "tst") .ind8z (some ff)),
  (op.mk 0x27 (some "PREBYTE") .PAGE2 none),
  (op.mk 0x28 (some "bclr") .ind16z (some mmggggrrrr)),
  (op.mk 0x29 (some "bset") .ind16z (some mmggggrrrr)),
  (op.mk 0x2a (some "brclr") .ind16z (some mmggggrrrr)),
  (op.mk 0x2b (some "brset") .ind16z (some mmggggrrrr)),
  (op.mk 0x2c (some "rol") .ind8z (some ff)),
  (op.mk 0x2d (some "asr") .ind8z (some ff)),
  (op.mk 0x2e (some "ror") .ind8z (some ff)),
  (op.mk 0x2f (some "lsr") .ind8z (some ff)),
  (op.mk 0x30 (some "movb") .ixp2ext (some ffhhll)),
  (op.mk 0x31 (some "movw") .ixp2ext (some ffhhll)),
  (op.mk 0x32 (some "movb") .ext2ixp (some ffhhll)),
  (op.mk 0x33 (some "movw") .ext2ixp (some ffhhll)),
  (op.mk 0x34 (some "pshm") .inh (some ii)),
  (op.mk 0x35 (some "pulm") .inh (some ii)),
  (op.mk 0x36 (some "bsr") .rel8 (some rr)),
  (op.mk 0x37 (some "PREBYTE") .PAGE3 none),
  (op.mk 0x38 (some "bclr") .ext (some mmhhll)),
  (op.mk 0x39 (some "bset") .ext (some mmhhll)),
  (op.mk 0x3a (some "brclr") .ext (some mmhhllrrrr)),
  (op.mk 0x3b (some "brset") .ext (some mmhhllrrrr)),
  (op.mk 0x3c (some "aix") .imm8 (some ii)),
  (op.mk 0x3d (some "aiy") .imm8 (some ii)),
  (op.mk 0x3e (some "aiz") .imm8 (some ii)),
  (op.mk 0x3f (some "ais") .imm8 (some ii)),
  (op.mk 0x40 (some "suba") .ind8x (some ff)),
  (op.mk 0x41 (some "adda") .ind8x (some ff)),
  (op.mk 0x42 (some "sbca") .ind8x (some ff)),
  (op.mk 0x43 (some "adca") .ind8x (some ff)),
  (op.mk 0x44 (some "eora") .ind8x (some ff)),
  (op.mk 0x45 (some "ldaa") .ind8x (some ff)),
  (op.mk 0x46 (some "anda") .ind8x (some ff)),
  (op.mk 0x47 (some "oraa") .ind8x (some ff)),
  (op.mk 0x48 (some "cmpa") .ind8x (some ff)),
  (op.mk 0x49 (some "bita") .ind8x (some ff)),
  (op.mk 0x4a (some "staa") .ind8x (some ff)),
  (op.mk 0x4b (some "jmp") .ind20x (some zggggg)),
  (op.mk 0x4c (some "cpx") .ind8x (some ff)),
  (op.mk 0x4d (some "cpy") .ind8x (some ff)),
  (op.mk 0x4e (some "cpz") .ind8x (some ff)),
  (op.mk 0x4f (some "cps") .ind8x (some ff)),
  (op.mk 0x50 (some "suba") .ind8y (some ff)),
  (op.mk 0x51 (some "adda") .ind8y (some ff)),
  (op.mk 0x52 (some "sbca") .ind8y (some ff)),
  (op.mk 0x53 (some "adca") .ind8y (some ff)),
  (op.mk 0x54 (some "eora") .ind8y (some ff)),
  (op.mk 0x55 (some "ldaa") .ind8y (some ff)),
  (op.mk 0x56 (some "anda") .ind8y (some ff)),
  (op.mk 0x57 (some "oraa") .ind8y (some ff)),
  (op.mk 0x58 (some "cmpa") .ind8y (some ff)),
  (op.mk 0x59 (some "bita") .ind8y (some ff)),
  (op.mk 0x5a (some "staa") .ind8y (some ff)),
  (op.mk 0x5b (some "jmp") .ind20y (some zggggg)),
  (op.mk 0x5c (some "cpx") .ind8y (some ff)),
  (op.mk 0x5d (some "cpy") .ind8y (some ff)),
  (op.mk 0x5e (some "cpz") .ind8y (some ff)),
  (op.mk 0x5f (some "cps") .ind8y (some ff)),
  (op.mk 0x60 (some "suba") .ind8z (some ff)),
  (op.mk 0x61 (some "adda") .ind8z (some ff)),
  (op.mk 0x62 (some "sbca") .ind8z (some ff)),
  (op.mk 0x63 (some "adca") .ind8z (some ff)),
  (op.mk 0x64 (some "eora") .ind8z (some ff)),
  (op.mk 0x65 (some "ldaa") .ind8z (some ff)),
  (op.mk 0x66 (some "anda") .ind8z (some ff)),
  (op.mk 0x67 (some "oraa") .ind8z (some ff)),
  (op.mk 0x68 (some "cmpa") .ind8z (some ff)),
  (op.mk 0x69 (some "bita") .ind8z (some ff)),
  (op.mk 0x6a (some "staa") .ind8z (some ff)),
  (op.mk 0x6b (some "jmp") .ind20z (some zggggg)),
  (op.mk 0x6c (some "cpx") .ind8z (some ff)),
  (op.mk 0x6d (some "cpy") .ind8z (some ff)),
  (op.mk 0x6e (some "cpz") .ind8z (some ff)),
  (op.mk 0x6f (some "cps") .ind8z (some ff)),
  (op.mk 0x70 (some "suba") .imm8 (some ff)),
  (op.mk 0x71 (some "adda") .imm8 (some ff)),
  (op.mk 0x72 (some "sbca") .imm8 (some ff)),
  (op.mk 0x73 (some "adca") .imm8 (some ff)),
  (op.mk 0x74 (some "eora") .imm8 (some ff)),
  (op.mk 0x75 (some "ldaa") .imm8 (some ff)),
  (op.mk 0x76 (some "anda") .imm8 (some ff)),
  (op.mk 0x77 (some "oraa") .imm8 (some ff)),
  (op.mk 0x78 (some "cmpa") .imm8 (some ff)),
  (op.mk 0x79 (some "bita") .imm8 (some ff)),
  (op.mk 0x7a (some "jmp") .ext (some zbhhll)),
  (op.mk 0x7b (some "mac") .imm8 (some ff)),
  (op.mk 0x7c (some "adde") .imm8 (some ff)),
  (op.mk 0x7d (some "unrecognized") .imm8 (some ii)),
  (op.mk 0x7e (some "unrecognized") .imm8 (some ii)),
  (op.mk 0x7f (some "unrecognized") .imm8 (some ii)),
  (op.mk 0x80 (some "subd") .ind8x (some ff)),
  (op.mk 0x81 (some "addd") .ind8x (some ff)),
  (op.mk 0x82 (some "sbcd") .ind8x (some ff)),
  (op.mk 0x83 (some "adcd") .ind8x (some ff)),
  (op.mk 0x84 (some "eord") .ind8x (some ff)),
  (op.mk 0x85 (some "ldd") .ind8x (some ff)),
  (op.mk 0x86 (some "andd") .ind8x (some ff)),
  (op.mk 0x87 (some "ord") .ind8x (some ff)),
  (op.mk 0x88 (some "cmpd") .ind8x (some ff)),
  (op.mk 0x89 (some "jsr") .ind20x (some zggggg)),
  (op.mk 0x8a (some "std") .ind8x (some ff)),
  (op.mk 0x8b (some "brset") .ind8x (some ff)),
  (op.mk 0x8c (some "stx") .ind8x (some ff)),
  (op.mk 0x8d (some "sty") .ind8x (some ff)),
  (op.mk 0x8e (some "stz") .ind8x (some ff)),
  (op.mk 0x8f (some "sts") .ind8x (some ff)),
  (op.mk 0x90 (some "subd") .ind8y (some ff)),
  (op.mk 0x91 (some "addd") .ind8y (some ff)),
  (op.mk 0x92 (some "sbcd") .ind8y (some ff)),
  (op.mk 0x93 (some "adcd") .ind8y (some ff)),
  (op.mk 0x94 (some "eord") .ind8y (some ff)),
  (op.mk 0x95 (some "ldd") .ind8y (some ff)),
  (op.mk 0x96 (some "andd") .ind8y (some ff)),
  (op.mk 0x97 (some "ord") .ind8y (some ff)),
  (op.mk 0x98 (some "cmpd") .ind8y (some ff)),
  (op.mk 0x99 (some "jsr") .ind20x (some zggggg)),
  (op.mk 0x9a (some "std") .ind8y (some ff)),
  (op.mk 0x9b (some "brset") .ind8y (some ff)),
  (op.mk 0x9c (some "stx") .ind8y (some ff)),
  (op.mk 0x9d (some "sty") .ind8y (some ff)),
  (op.mk 0x9e (some "stz") .ind8y (some ff)),
  (op.mk 0x9f (some "sts") .ind8y (some ff)),
  (op.mk 0xa0 (some "subd") .ind8z (some ff)),
  (op.mk 0xa1 (some "addd") .ind8z (some ff)),
  (op.mk 0xa2 (some "sbcd") .ind8z (some ff)),
  (op.mk 0xa3 (some "adcd") .ind8z (some ff)),
  (op.mk 0xa4 (some "eord") .ind8z (some ff)),
  (op.mk 0xa5 (some "ldd") .ind8z (some ff)),
  (op.mk 0xa6 (some "andd") .ind8z (some ff)),
  (op.mk 0xa7 (some "ord") .ind8z (some ff)),
  (op.mk 0xa8 (some "cmpd") .ind8z (some ff)),
  (op.mk 0xa9 (some "jsr") .ind20x (some zggggg)),
  (op.mk 0xaa (some "std") .ind8z (some ff)),
  (op.mk 0xab (some "brset") .ind8z (some ff)),
  (op.mk 0xac (some "stx") .ind8z (some ff)),
  (op.mk 0xad (some "sty") .ind8z (some ff)),
  (op.mk 0xae (some "stz") .ind8z (some ff)),
  (op.mk 0xaf (some "sts") .ind8z (some ff)),
  (op.mk 0xb0 (some "bra") .rel8 (some rr)),
  (op.mk 0xb1 (some "brn") .rel8 (some rr)),
  (op.mk 0xb2 (some "bhi") .rel8 (some rr)),
  (op.mk 0xb3 (some "bls") .rel8 (some rr)),
  (op.mk 0xb4 (some "bcc") .rel8 (some rr)),
  (op.mk 0xb5 (some "bcs") .rel8 (some rr)),
  (op.mk 0xb6 (some "bne") .rel8 (some rr)),
  (op.mk 0xb7 (some "beq") .rel8 (some rr)),
  (op.mk 0xb8 (some "bvc") .rel8 (some rr)),
  (op.mk 0xb9 (some "bvs") .rel8 (some rr)),
  (op.mk 0xba (some "bpl") .rel8 (some rr)),
  (op.mk 0xbb (some "bmi") .rel8 (some rr)),
  (op.mk 0xbc (some "bge") .rel8 (some rr)),
  (op.mk 0xbd (some "blt") .rel8 (some rr)),
  (op.mk 0xbe (some "bgt") .rel8 (some rr)),
  (op.mk 0xbf (some "ble") .rel8 (some rr)),
  (op.mk 0xc0 (some "subb") .ind8x (some ff)),
  (op.mk 0xc1 (some "addb") .ind8x (some ff)),
  (op.mk 0xc2 (some "sbcb") .ind8x (some ff)),
  (op.mk 0xc3 (some "adcb") .ind8x (some ff)),
  (op.mk 0xc4 (some "eorb") .ind8x (some ff)),
  (op.mk 0xc5 (some "ldab") .ind8x (some ff)),
  (op.mk 0xc6 (some "andb") .ind8x (some ff)),
  (op.mk 0xc7 (some "orab") .ind8x (some ff)),
  (op.mk 0xc8 (some "cmpb") .ind8x (some ff)),
  (op.mk 0xc9 (some "bitb") .ind8x (some ff)),
  (op.mk 0xca (some "stab") .ind8x (some ff)),
  (op.mk 0xcb (some "brclr") .ind8x (some ff)),
  (op.mk 0xcc (some "ldx") .ind8x (some ff)),
  (op.mk 0xcd (some "ldy") .ind8x (some ff)),
  (op.mk 0xce (some "ldz") .ind8x (some ff)),
  (op.mk 0xcf (some "lds") .ind8x (some ff)),
  (op.mk 0xd0 (some "subb") .ind8y (some ff)),
  (op.mk 0xd1 (some "addb") .ind8y (some ff)),
  (op.mk 0xd2 (some "sbcb") .ind8y (some ff)),
  (op.mk 0xd3 (some "adcb") .ind8y (some ff)),
  (op.mk 0xd4 (some "eorb") .ind8y (some ff)),
  (op.mk 0xd5 (some "ldab") .ind8y (some ff)),
  (op.mk 0xd6 (some "andb") .ind8y (some ff)),
  (op.mk 0xd7 (some "orab") .ind8y (some ff)),
  (op.mk 0xd8 (some "cmpb") .ind8y (some ff)),
  (op.mk 0xd9 (some "bitb") .ind8y (some ff)),
  (op.mk 0xda (some "ldab") .ind8y (some ff)),
  (op.mk 0xdb (some "brclr") .ind8y (some ff)),
  (op.mk 0xdc (some "ldx") .ind8y (some ff)),
  (op.mk 0xdd (some "ldy") .ind8y (some ff)),
  (op.mk 0xde (some "ldz") .ind8y (some ff)),
  (op.mk 0xdf (some "lds") .ind8y (some ff)),
  (op.mk 0xe0 (some "subb") .ind8z (some ff)),
  (op.mk 0xe1 (some "addb") .ind8z (some ff)),
  (op.mk 0xe2 (some "sbcb") .ind8z (some ff)),
  (op.mk 0xe3 (some "adcb") .ind8z (some ff)),
  (op.mk 0xe4 (some "eorb") .ind8z (some ff)),
  (op.mk 0xe5 (some "ldab") .ind8z (some ff)),
  (op.mk 0xe6 (some "andb") .ind8z (some ff)),
  (op.mk 0xe7 (some "orab") .ind8z (some ff)),
  (op.mk 0xe8 (some "cmpb") .ind8z (some ff)),
  (op.mk 0xe9 (some "bitb") .ind8z (some ff)),
  (op.mk 0xea (some "ldab") .ind8z (some ff)),
  (op.mk 0xeb (some "brclr") .ind8z (some ff)),
  (op.mk 0xec (some "ldx") .ind8z (some ff)),
  (op.mk 0xed (some "ldy") .ind8z (some ff)),
  (op.mk 0xee (some "ldz") .ind8z (some ff)),
  (op.mk 0xef (some "lds") .ind8z (some ff)),
  (op.mk 0xf0 (some "subb") .imm8 (some ii)),
  (op.mk 0xf1 (some "addb") .imm8 (some ii)),
  (op.mk 0xf2 (some "sbcb") .imm8 (some ii)),
  (op.mk 0xf3 (some "adcb") .imm8 (some ii)),
  (op.mk 0xf4 (some "eorb") .imm8 (some ii)),
  (op.mk 0xf5 (some "ldab") .imm8 (some ii)),
  (op.mk 0xf6 (some "andb") .imm8 (some ii)),
  (op.mk 0xf7 (some "orab") .imm8 (some ii)),
  (op.mk 0xf8 (some "cmpb") .imm8 (some ii)),
  (op.mk 0xf9 (some "bitb") .imm8 (some ii)),
  (op.mk 0xfa (some "jsr") .ext20 (some zbhhll)),
  (op.mk 0xfb (some "rmac") .imm8 (some xoyo)),
  (op.mk 0xfc (some "addd") .imm8 (some ii)),
  (op.mk 0xfd (some "unrecognized") .imm8 (some ii)),
  (op.mk 0xfe (some "unrecognized") .imm8 (some ii)),
  (op.mk 0xff (some "unrecognized") .imm8 (some ii))
]

/-- Initializer list of `opcodes[1]` (prefix 0x17), in source order. -/
def opcodes_init1 : List op := [
  (op.mk 0x00 (some "com") .ind16x (some gggg)),
  (op.mk 0x01 (some "dec") .ind16x (some gggg)),
  (op.mk 0x02 (some "neg") .ind16x (some gggg)),
  (op.mk 0x03 (some "inc") .ind16x (some gggg)),
  (op.mk 0x04 (some "asl") .ind16x (some gggg)),
  (op.mk 0x05 (some "clr") .ind16x (some gggg)),
  (op.mk 0x06 (some "tst") .ind16x (some gggg)),
  (op.mk 0x07 (some "unrecognized") .PAGE1 (some ii)),
  (op.mk 0x08 (some "bclr") .ind8x (some mmgggg)),
  (op.mk 0x09 (some "bset") .ind8x (some mmgggg)),
  (op.mk 0x0a (some "unrecognized") .PAGE1 (some ii)),
  (op.mk 0x0b (some "unrecognized") .PAGE1 (some ii)),
  (op.mk 0x0c (some "rol") .ind16x (some gggg)),
  (op.mk 0x0d (some "asr") .ind16x (some gggg)),
  (op.mk 0x0e (some "ror") .ind16x (some gggg)),
  (op.mk 0x0f (some "lsr") .ind16x (some gggg)),
  (op.mk 0x10 (some "com") .ind16y (some gggg)),
  (op.mk 0x11 (some "dec") .ind16y (some gggg)),
  (op.mk 0x12 (some "neg") .ind16y (some gggg)),
  (op.mk 0x13 (some "inc") .ind16y (some gggg)),
  (op.mk 0x14 (some "asl") .ind16y (some gggg)),
  (op.mk 0x15 (some "clr") .ind16y (some gggg)),
  (op.mk 0x16 (some "tst") .ind16y (some gggg)),
  (op.mk 0x17 (some "unrecognized") .PAGE1 (some ii)),
  (op.mk 0x18 (some "bclr") .ind8x (some mmgggg)),
  (op.mk 0x19 (some "bset") .ind8x (some mmgggg)),
  (op.mk 0x1a (some "unrecognized") .PAGE1 (some ii)),
  (op.mk 0x1b (some "unrecognized") .PAGE1 (some ii)),
  (op.mk 0x1c (some "rol") .ind16y (some gggg)),
  (op.mk 0x1d (some "asr") .ind16y (some gggg)),
  (op.mk 0x1e (some "ror") .ind16y (some gggg)),
  (op.mk 0x1f (some "lsr") .ind16y (some gggg)),
  (op.mk 0x20 (some "com") .ind16z (some gggg)),
  (op.mk 0x21 (some "dec") .ind16z (some gggg)),
  (op.mk 0x22 (some "neg") .ind16z (some gggg)),
  (op.mk 0x23 (some "inc") .ind16z (some gggg)),
  (op.mk 0x24 (some "asl") .ind16z (some gggg)),
  (op.mk 0x25 (some "clr") .ind16z (some gggg)),
  (op.mk 0x26 (some "tst") .ind16z (some gggg)),
  (op.mk 0x27 (some "unrecognized") .imm8 (some ii)),
  (op.mk 0x28 (some "bclr") .ind8x (some mmgggg)),
  (op.mk 0x29 (some "bset") .ind8x (some mmgggg)),
  (op.mk 0x2a (some "unrecognized") .imm8 (some ii)),
  (op.mk 0x2b (some "unrecognized") .imm8 (some ii)),
  (op.mk 0x2c (some "rol") .ind16z (some gggg)),
  (op.mk 0x2d (some "asr") .ind16z (some gggg)),
  (op.mk 0x2e (some "ror") .ind16z (some gggg)),
  (op.mk 0x2f (some "lsr") .ind16z (some gggg)),
  (op.mk 0x30 (some "com") .ext (some hhll)),
  (op.mk 0x31 (some "dec") .ext (some hhll)),
  (op.mk 0x32 (some "neg") .ext (some hhll)),
  (op.mk 0x33 (some "inc") .ext (some hhll)),
  (op.mk 0x34 (some "asl") .ext (some hhll)),
  (op.mk 0x35 (some "clr") .ext (some hhll)),
  (op.mk 0x36 (some "tst") .ext (some hhll)),
  (op.mk 0x37 (some "unrecognized") .imm8 (some ii)),
  (op.mk 0x38 (some "unrecognized") .imm8 (some ii)),
  (op.mk 0x39 (some "unrecognized") .imm8 (some ii)),
  (op.mk 0x3a (some "unrecognized") .imm8 (some ii)),
  (op.mk 0x3b (some "unrecognized") .imm8 (some ii)),
  (op.mk 0x3c (some "rol") .ext (some hhll)),
  (op.mk 0x3d (some "asr") .ext (some hhll)),
  (op.mk 0x3e (some "ror") .ext (some hhll)),
  (op.mk 0x3f (some "lsr") .ext (some hhll)),
  (op.mk 0x40 (some "suba") .ind16x (some gggg)),
  (op.mk 0x41 (some "adda") .ind16x (some gggg)),
  (op.mk 0x42 (some "sbca") .ind16x (some gggg)),
  (op.mk 0x43 (some "adca") .ind16x (some gggg)),
  (op.mk 0x44 (some "eora") .ind16x (some gggg)),
  (op.mk 0x45 (some "ldaa") .ind16x (some gggg)),
  (op.mk 0x46 (some "anda") .ind16x (some gggg)),
  (op.mk 0x47 (some "oraa") .ind16x (some gggg)),
  (op.mk 0x48 (some "cmpa") .ind16x (some gggg)),
  (op.mk 0x49 (some "bita") .ind16x (some gggg)),
  (op.mk 0x4a (some "staa") .ind16x (some gggg)),
  (op.mk 0x4b (some "unrecognized") .imm8 (some ii)),
  (op.mk 0x4c (some "cpx") .ind16x (some gggg)),
  (op.mk 0x4d (some "cpy") .ind16x (some gggg)),
  (op.mk 0x4e (some "cpz") .ind16x (some gggg)),
  (op.mk 0x4f (some "cps") .ind16x (some gggg)),
  (op.mk 0x50 (some "suba") .ind16y (some gggg)),
  (op.mk 0x51 (some "adda") .ind16y (some gggg)),
  (op.mk 0x52 (some "sbca") .ind16y (some gggg)),
  (op.mk 0x53 (some "adca") .ind16y (some gggg)),
  (op.mk 0x54 (some "eora") .ind16y (some gggg)),
  (op.mk 0x55 (some "ldaa") .ind16y (some gggg)),
  (op.mk 0x56 (some "anda") .ind16y (some gggg)),
  (op.mk 0x57 (some "oraa") .ind16y (some gggg)),
  (op.mk 0x58 (some "cmpa") .ind16y (some gggg)),
  (op.mk 0x59 (some "bita") .ind16y (some gggg)),
  (op.mk 0x5a (some "staa") .ind16y (some gggg)),
  (op.mk 0x5b (some "unrecognized") .imm8 (some ii)),
  (op.mk 0x5c (some "cpx") .ind16y (some gggg)),
  (op.mk 0x5d (some "cpy") .ind16y (some gggg)),
  (op.mk 0x5e (some "cpz") .ind16y (some gggg)),
  (op.mk 0x5f (some "cps") .ind16y (some gggg)),
  (op.mk 0x60 (some "suba") .ind16z (some gggg)),
  (op.mk 0x61 (some "adda") .ind16z (some gggg)),
  (op.mk 0x62 (some "sbca") .ind16z (some gggg)),
  (op.mk 0x63 (some "adca") .ind16z (some gggg)),
  (op.mk 0x64 (some "eora") .ind16z (some gggg)),
  (op.mk 0x65 (some "ldaa") .ind16z (some gggg)),
  (op.mk 0x66 (some "anda") .ind16z (some gggg)),
  (op.mk 0x67 (some "oraa") .ind16z (some gggg)),
  (op.mk 0x68 (some "cmpa") .ind16z (some gggg)),
  (op.mk 0x69 (some "bita") .ind16z (some gggg)),
  (op.mk 0x6a (some "staa") .ind16z (some gggg)),
  (op.mk 0x6b (some "unrecognized") .imm8 (some ii)),
  (op.mk 0x6c (some "cpx") .ind16z (some gggg)),
  (op.mk 0x6d (some "cpy") .ind16z (some gggg)),
  (op.mk 0x6e (some "cpz") .ind16z (some gggg)),
  (op.mk 0x6f (some "cps") .ind16z (some gggg)),
  (op.mk 0x70 (some "suba") .ext (some hhll)),
  (op.mk 0x71 (some "adda") .ext (some hhll)),
  (op.mk 0x72 (some "sbca") .ext (some hhll)),
  (op.mk 0x73 (some "adca") .ext (some hhll)),
  (op.mk 0x74 (some "eora") .ext (some hhll)),
  (op.mk 0x75 (some "ldaa") .ext (some hhll)),
  (op.mk 0x76 (some "anda") .ext (some hhll)),
  (op.mk 0x77 (some "oraa") .ext (some hhll)),
  (op.mk 0x78 (some "cmpa") .ext (some hhll)),
  (op.mk 0x79 (some "bita") .ext (some hhll)),
  (op.mk 0x7a (some "staa") .ext (some hhll)),
  (op.mk 0x7b (some "unrecognized") .imm8 (some ii)),
  (op.mk 0x7c (some "cpx") .ext (some hhll)),
  (op.mk 0x7d (some "cpy") .ext (some hhll)),
  (op.mk 0x7e (some "cpz") .ext (some hhll)),
  (op.mk 0x7f (some "cps") .ext (some hhll)),
  (op.mk 0x80 (some "unrecognized") .imm8 (some ii)),
  (op.mk 0x81 (some "unrecognized") .imm8 (some ii)),
  (op.mk 0x82 (some "unrecognized") .imm8 (some ii)),
  (op.mk 0x83 (some "unrecognized") .imm8 (some ii)),
  (op.mk 0x84 (some "unrecognized") .imm8 (some ii)),
  (op.mk 0x85 (some "unrecognized") .imm8 (some ii)),
  (op.mk 0x86 (some "unrecognized") .imm8 (some ii)),
  (op.mk 0x87 (some "unrecognized") .imm8 (some ii)),
  (op.mk 0x88 (some "unrecognized") .imm8 (some ii)),
  (op.mk 0x89 (some "unrecognized") .imm8 (some ii)),
  (op.mk 0x8a (some "unrecognized") .imm8 (some ii)),
  (op.mk 0x8b (some "unrecognized") .imm8 (some ii)),
  (op.mk 0x8c (some "stx") .ind16x (some gggg)),
  (op.mk 0x8d (some "sty") .ind16x (some gggg)),
  (op.mk 0x8e (some "stz") .ind16x (some gggg)),
  (op.mk 0x8f (some "sts") .ind16x (some gggg)),
  (op.mk 0x90 (some "unrecognized") .imm8 (some ii)),
  (op.mk 0x91 (some "unrecognized") .imm8 (some ii)),
  (op.mk 0x92 (some "unrecognized") .imm8 (some ii)),
  (op.mk 0x93 (some "unrecognized") .imm8 (some ii)),
  (op.mk 0x94 (some "unrecognized") .imm8 (some ii)),
  (op.mk 0x95 (some "unrecognized") .imm8 (some ii)),
  (op.mk 0x96 (some "unrecognized") .imm8 (some ii)),
  (op.mk 0x97 (some "unrecognized") .imm8 (some ii)),
  (op.mk 0x98 (some "unrecognized") .imm8 (some ii)),
  (op.mk 0x99 (some "unrecognized") .imm8 (some ii)),
  (op.mk 0x9a (some "unrecognized") .imm8 (some ii)),
  (op.mk 0x9b (some "unrecognized") .imm8 (some ii)),
  (op.mk 0x9c (some "stx") .ind16y (some gggg)),
  (op.mk 0x9d (some "sty") .ind16y (some gggg)),
  (op.mk 0x9e (some "stz") .ind16y (some gggg)),
  (op.mk 0x9f (some "sts") .ind16y (some gggg)),
  (op.mk 0xa0 (some "unrecognized") .imm8 (some ii)),
  (op.mk 0xa1 (some "unrecognized") .imm8 (some ii)),
  (op.mk 0xa2 (some "unrecognized") .imm8 (some ii)),
  (op.mk 0xa3 (some "unrecognized") .imm8 (some ii)),
  (op.mk 0xa4 (some "unrecognized") .imm8 (some ii)),
  (op.mk 0xa5 (some "unrecognized") .imm8 (some ii)),
  (op.mk 0xa6 (some "unrecognized") .imm8 (some ii)),
  (op.mk 0xa7 (some "unrecognized") .imm8 (some ii)),
  (op.mk 0xa8 (some "unrecognized") .imm8 (some ii)),
  (op.mk 0xa9 (some "unrecognized") .imm8 (some ii)),
  (op.mk 0xaa (some "unrecognized") .imm8 (some ii)),
  (op.mk 0xab (some "unrecognized") .imm8 (some ii)),
  (op.mk 0xac (some "stx") .ind16z (some gggg)),
  (op.mk 0xad (some "sty") .ind16z (some gggg)),
  (op.mk 0xae (some "stz") .ind16z (some gggg)),
  (op.mk 0xaf (some "sts") .ind16z (some gggg)),
  (op.mk 0xb0 (some "unrecognized") .imm8 (some ii)),
  (op.mk 0xb1 (some "unrecognized") .imm8 (some ii)),
  (op.mk 0xb2 (some "unrecognized") .imm8 (some ii)),
  (op.mk 0xb3 (some "unrecognized") .imm8 (some ii)),
  (op.mk 0xb4 (some "unrecognized") .imm8 (some ii)),
  (op.mk 0xb5 (some "unrecognized") .imm8 (some ii)),
  (op.mk 0xb6 (some "unrecognized") .imm8 (some ii)),
  (op.mk 0xb7 (some "unrecognized") .imm8 (some ii)),
  (op.mk 0xb8 (some "unrecognized") .imm8 (some ii)),
  (op.mk 0xb9 (some "unrecognized") .imm8 (some ii)),
  (op.mk 0xba (some "unrecognized") .imm8 (some ii)),
  (op.mk 0xbb (some "unrecognized") .imm8 (some ii)),
  (op.mk 0xbc (some "stx") .ext (some hhll)),
  (op.mk 0xbd (some "sty") .ext (some hhll)),
  (op.mk 0xbe (some "stz") .ext (some hhll)),
  (op.mk 0xbf (some "sts") .ext (some hhll)),
  (op.mk 0xc0 (some "subb") .ind16x (some gggg)),
  (op.mk 0xc1 (some "addb") .ind16x (some gggg)),
  (op.mk 0xc2 (some "sbcb") .ind16x (some gggg)),
  (op.mk 0xc3 (some "adcb") .ind16x (some gggg)),
  (op.mk 0xc4 (some "eorb") .ind16x (some gggg)),
  (op.mk 0xc5 (some "ldab") .ind16x (some gggg)),
  (op.mk 0xc6 (some "andb") .ind16x (some gggg)),
  (op.mk 0xc7 (some "orab") .ind16x (some gggg)),
  (op.mk 0xc8 (some "cmpb") .ind16x (some gggg)),
  (op.mk 0xc9 (some "bitb") .ind16x (some gggg)),
  (op.mk 0xca (some "stab") .ind16x (some gggg)),
  (op.mk 0xcb (some "unrecognized") .imm8 (some ii)),
  (op.mk 0xcc (some "ldx") .ind16x (some gggg)),
  (op.mk 0xcd (some "ldy") .ind16x (some gggg)),
  (op.mk 0xce (some "ldz") .ind16x (some gggg)),
  (op.mk 0xcf (some "lds") .ind16x (some gggg)),
  (op.mk 0xd0 (some "subb") .ind16y (some gggg)),
  (op.mk 0xd1 (some "addb") .ind16y (some gggg)),
  (op.mk 0xd2 (some "sbcb") .ind16y (some gggg)),
  (op.mk 0xd3 (some "adcb") .ind16y (some gggg)),
  (op.mk 0xd4 (some "eorb") .ind16y (some gggg)),
  (op.mk 0xd5 (some "ldab") .ind16y (some gggg)),
  (op.mk 0xd6 (some "andb") .ind16y (some gggg)),
  (op.mk 0xd7 (some "orab") .ind16y (some gggg)),
  (op.mk 0xd8 (some "cmpb") .ind16y (some gggg)),
  (op.mk 0xd9 (some "bitb") .ind16y (some gggg)),
  (op.mk 0xda (some "stab") .ind16y (some gggg)),
  (op.mk 0xdb (some "unrecognized") .imm8 (some ii)),
  (op.mk 0xdc (some "ldx") .ind16y (some gggg)),
  (op.mk 0xdd (some "ldy") .ind16y (some gggg)),
  (op.mk 0xde (some "ldz") .ind16y (some gggg)),
  (op.mk 0xdf (some "lds") .ind16y (some gggg)),
  (op.mk 0xe0 (some "subb") .ind16z (some gggg)),
  (op.mk 0xe1 (some "addb") .ind16z (some gggg)),
  (op.mk 0xe2 (some "sbcb") .ind16z (some gggg)),
  (op.mk 0xe3 (some "adcb") .ind16z (some gggg)),
  (op.mk 0xe4 (some "eorb") .ind16z (some gggg)),
  (op.mk 0xe5 (some "ldab") .ind16z (some gggg)),
  (op.mk 0xe6 (some "andb") .ind16z (some gggg)),
  (op.mk 0xe7 (some "orab") .ind16z (some gggg)),
  (op.mk 0xe8 (some "cmpb") .ind16z (some gggg)),
  (op.mk 0xe9 (some "bitb") .ind16z (some gggg)),
  (op.mk 0xea (some "stab") .ind16z (some gggg)),
  (op.mk 0xeb (some "unrecognized") .imm8 (some ii)),
  (op.mk 0xec (some "ldx") .ind16z (some gggg)),
  (op.mk 0xed (some "ldy") .ind16z (some gggg)),
  (op.mk 0xee (some "ldz") .ind16z (some gggg)),
  (op.mk 0xef (some "lds") .ind16z (some gggg)),
  (op.mk 0xf0 (some "subb") .ext (some hhll)),
  (op.mk 0xf1 (some "addb") .ext (some hhll)),
  (op.mk 0xf2 (some "sbcb") .ext (some hhll)),
  (op.mk 0xf3 (some "adcb") .ext (some hhll)),
  (op.mk 0xf4 (some "eorb") .ext (some hhll)),
  (op.mk 0xf5 (some "ldab") .ext (some hhll)),
  (op.mk 0xf6 (some "andb") .ext (some hhll)),
  (op.mk 0xf7 (some "orab") .ext (some hhll)),
  (op.mk 0xf8 (some "cmpb") .ext (some hhll)),
  (op.mk 0xf9 (some "bitb") .ext (some hhll)),
  (op.mk 0xfa (some "stab") .ext (some hhll)),
  (op.mk 0xfb (some "unrecognized") .imm8 (some ii)),
  (op.mk 0xfc (some "ldx") .ext (some hhll)),
  (op.mk 0xfd (some "ldy") .ext (some hhll)),
  (op.mk 0xfe (some "ldz") .ext (some hhll)),
  (op.mk 0xff (some "lds") .ext (some hhll))
]

/-- Initializer list of `opcodes[2]` (prefix 0x27), in source order. -/
def opcodes_init2 : List op := [
  (op.mk 0x00 (some "comw") .ind16x (some ggggmmmm)),
  (op.mk 0x01 (some "decw") .ind16x (some ggggmmmm)),
  (op.mk 0x02 (some "negw") .ind16x (some ggggmmmm)),
  (op.mk 0x03 (some "incw") .ind16x (some ggggmmmm)),
  (op.mk 0x04 (some "aslw") .ind16x (some ggggmmmm)),
  (op.mk 0x05 (some "clrw") .ind16x (some ggggmmmm)),
  (op.mk 0x06 (some "tstw") .ind16x (some ggggmmmm)),
  (op.mk 0x07 (some "unrecognized") .PAGE2 none),
  (op.mk 0x08 (some "bclrw") .ind16x (some ggggmmmm)),
  (op.mk 0x09 (some "bsetw") .ind16x (some ggggmmmm)),
  (op.mk 0x0a (some "unrecognized") .PAGE2 none),
  (op.mk 0x0b (some "unrecognized") .PAGE2 none),
  (op.mk 0x0c (some "rolw") .ind16x (some ggggmmmm)),
  (op.mk 0x0d (some "asrw") .ind16x (some ggggmmmm)),
  (op.mk 0x0e (some "rorw") .ind16x (some ggggmmmm)),
  (op.mk 0x0f (some "lsrw") .ind16x (some ggggmmmm)),
  (op.mk 0x10 (some "comw") .ind16y (some ggggmmmm)),
  (op.mk 0x11 (some "decw") .ind16y (some ggggmmmm)),
  (op.mk 0x12 (some "negw") .ind16y (some ggggmmmm)),
  (op.mk 0x13 (some "incw") .ind16y (some ggggmmmm)),
  (op.mk 0x14 (some "aslw") .ind16y (some ggggmmmm)),
  (op.mk 0x15 (some "clrw") .ind16y (some ggggmmmm)),
  (op.mk 0x16 (some "tstw") .ind16y (some ggggmmmm)),
  (op.mk 0x17 (some "unrecognized") .PAGE2 none),
  (op.mk 0x18 (some "bclrw") .ind16y (some ggggmmmm)),
  (op.mk 0x19 (some "bsetw") .ind16y (some ggggmmmm)),
  (op.mk 0x1a (some "unrecognized") .PAGE2 none),
  (op.mk 0x1b (some "unrecognized") .PAGE2 none),
  (op.mk 0x1c (some "rolw") .ind16y (some ggggmmmm)),
  (op.mk 0x1d (some "asrw") .ind16y (some ggggmmmm)),
  (op.mk 0x1e (some "rorw") .ind16y (some ggggmmmm)),
  (op.mk 0x1f (some "lsrw") .ind16y (some ggggmmmm)),
  (op.mk 0x20 (some "comw") .ind16z (some ggggmmmm)),
  (op.mk 0x21 (some "decw") .ind16z (some ggggmmmm)),
  (op.mk 0x22 (some "negw") .ind16z (some ggggmmmm)),
  (op.mk 0x23 (some "incw") .ind16z (some ggggmmmm)),
  (op.mk 0x24 (some "aslw") .ind16z (some ggggmmmm)),
  (op.mk 0x25 (some "clrw") .ind16z (some ggggmmmm)),
  (op.mk 0x26 (some "tstw") .ind16z (some ggggmmmm)),
  (op.mk 0x27 (some "unrecognized") .PAGE2 none),
  (op.mk 0x28 (some "bclrw") .ind16z (some ggggmmmm)),
  (op.mk 0x29 (some "bsetw") .ind16z (some ggggmmmm)),
  (op.mk 0x2a (some "unrecognized") .PAGE2 none),
  (op.mk 0x2b (some "unrecognized") .PAGE2 none),
  (op.mk 0x2c (some "rolw") .ind16z (some ggggmmmm)),
  (op.mk 0x2d (some "asrw") .ind16z (some ggggmmmm)),
  (op.mk 0x2e (some "rorw") .ind16z (some ggggmmmm)),
  (op.mk 0x2f (some "lsrw") .ind16z (some ggggmmmm)),
  (op.mk 0x30 (some "comw") .ext (some hhllmmmm)),
  (op.mk 0x31 (some "decw") .ext (some hhllmmmm)),
  (op.mk 0x32 (some "negw") .ext (some hhllmmmm)),
  (op.mk 0x33 (some "incw") .ext (some hhllmmmm)),
  (op.mk 0x34 (some "aslw") .ext (some hhllmmmm)),
  (op.mk 0x35 (some "clrw") .ext (some hhllmmmm)),
  (op.mk 0x36 (some "tstw") .ext (some hhllmmmm)),
  (op.mk 0x37 (some "unrecognized") .PAGE2 none),
  (op.mk 0x38 (some "bclrw") .ext (some hhllmmmm)),
  (op.mk 0x39 (some "bsetw") .ext (some hhllmmmm)),
  (op.mk 0x3a (some "unrecognized") .PAGE2 none),
  (op.mk 0x3b (some "unrecognized") .PAGE2 none),
  (op.mk 0x3c (some "rolw") .ext (some hhllmmmm)),
  (op.mk 0x3d (some "asrw") .ext (some hhllmmmm)),
  (op.mk 0x3e (some "rorw") .ext (some hhllmmmm)),
  (op.mk 0x3f (some "lsrw") .ext (some hhllmmmm)),
  (op.mk 0x40 (some "suba") .ex none),
  (op.mk 0x41 (some "adda") .ex none),
  (op.mk 0x42 (some "sbca") .ex none),
  (op.mk 0x43 (some "adca") .ex none),
  (op.mk 0x44 (some "eora") .ex none),
  (op.mk 0x45 (some "ldaa") .ex none),
  (op.mk 0x46 (some "anda") .ex none),
  (op.mk 0x47 (some "oraa") .ex none),
  (op.mk 0x48 (some "cmpa") .ex none),
  (op.mk 0x49 (some "bita") .ex none),
  (op.mk 0x4a (some "staa") .ex none),
  (op.mk 0x4b (some "unrecognized") .PAGE2 none),
  (op.mk 0x4c (some "nop") .ex none),
  (op.mk 0x4d (some "tyx") .ex none),
  (op.mk 0x4e (some "tzx") .ex none),
  (op.mk 0x4f (some "tsx") .ex none),
  (op.mk 0x50 (some "suba") .ey none),
  (op.mk 0x51 (some "adda") .ey none),
  (op.mk 0x52 (some "sbca") .ey none),
  (op.mk 0x53 (some "adca") .ey none),
  (op.mk 0x54 (some "eora") .ey none),
  (op.mk 0x55 (some "ldaa") .ey none),
  (op.mk 0x56 (some "anda") .ey none),
  (op.mk 0x57 (some "oraa") .ey none),
  (op.mk 0x58 (some "cmpa") .ey none),
  (op.mk 0x59 (some "bita") .ey none),
  (op.mk 0x5a (some "staa") .ey none),
  (op.mk 0x5b (some "unrecognized") .PAGE2 none),
  (op.mk 0x5c (some "txy") .ey none),
  (op.mk 0x5d (some "unrecognized") .PAGE2 none),
  (op.mk 0x5e (some "tzy") .ey none),
  (op.mk 0x5f (some "tsy") .ey none),
  (op.mk 0x60 (some "suba") .ez none),
  (op.mk 0x61 (some "adda") .ez none),
  (op.mk 0x62 (some "sbca") .ez none),
  (op.mk 0x63 (some "adca") .ez none),
  (op.mk 0x64 (some "eora") .ez none),
  (op.mk 0x65 (some "ldaa") .ez none),
  (op.mk 0x66 (some "anda") .ez none),
  (op.mk 0x67 (some "oraa") .ez none),
  (op.mk 0x68 (some "cmpa") .ez none),
  (op.mk 0x69 (some "bita") .ez none),
  (op.mk 0x6a (some "staa") .ez none),
  (op.mk 0x6b (some "unrecognized") .PAGE2 none),
  (op.mk 0x6c (some "nxz") .ez none),
  (op.mk 0x6d (some "tyz") .ez none),
  (op.mk 0x6e (some "unrecognized") .PAGE2 none),
  (op.mk 0x6f (some "tsx") .ez none),
  (op.mk 0x70 (some "come") .inh none),
  (op.mk 0x71 (some "lded") .ext none),
  (op.mk 0x72 (some "nege") .inh none),
  (op.mk 0x73 (some "sted") .ext none),
  (op.mk 0x74 (some "asle") .inh none),
  (op.mk 0x75 (some "clre") .inh none),
  (op.mk 0x76 (some "tste") .inh none),
  (op.mk 0x77 (some "rti") .inh none),
  (op.mk 0x78 (some "ade") .inh none),
  (op.mk 0x79 (some "sde") .inh none),
  (op.mk 0x7a (some "xgde") .inh none),
  (op.mk 0x7b (some "tde") .inh none),
  (op.mk 0x7c (some "role") .inh none),
  (op.mk 0x7d (some "asre") .inh none),
  (op.mk 0x7e (some "rore") .inh none),
  (op.mk 0x7f (some "lsre") .inh none),
  (op.mk 0x80 (some "subd") .ex none),
  (op.mk 0x81 (some "addd") .ex none),
  (op.mk 0x82 (some "sbcd") .ex none),
  (op.mk 0x83 (some "adcd") .ex none),
  (op.mk 0x84 (some "eord") .ex none),
  (op.mk 0x85 (some "ldd") .ex none),
  (op.mk 0x86 (some "andd") .ex none),
  (op.mk 0x87 (some "ord") .ex none),
  (op.mk 0x88 (some "cpd") .ex none),
  (op.mk 0x89 (some "unrecognized") .PAGE2 none),
  (op.mk 0x8a (some "std") .ex none),
  (op.mk 0x8b (some "unrecognized") .PAGE2 none),
  (op.mk 0x8c (some "unrecognized") .PAGE2 none),
  (op.mk 0x8d (some "unrecognized") .PAGE2 none),
  (op.mk 0x8e (some "unrecognized") .PAGE2 none),
  (op.mk 0x8f (some "unrecognized") .PAGE2 none),
  (op.mk 0x90 (some "subd") .ey none),
  (op.mk 0x91 (some "addd") .ey none),
  (op.mk 0x92 (some "sbcd") .ey none),
  (op.mk 0x93 (some "adcd") .ey none),
  (op.mk 0x94 (some "eord") .ey none),
  (op.mk 0x95 (some "ldd") .ey none),
  (op.mk 0x96 (some "andd") .ey none),
  (op.mk 0x97 (some "ord") .ey none),
  (op.mk 0x98 (some "cpd") .ey none),
  (op.mk 0x99 (some "unrecognized") .PAGE2 none),
  (op.mk 0x9a (some "std") .ey none),
  (op.mk 0x9b (some "unrecognized") .PAGE2 none),
  (op.mk 0x9c (some "unrecognized") .PAGE2 none),
  (op.mk 0x9d (some "unrecognized") .PAGE2 none),
  (op.mk 0x9e (some "unrecognized") .PAGE2 none),
  (op.mk 0x9f (some "unrecognized") .PAGE2 none),
  (op.mk 0xa0 (some "subd") .ez none),
  (op.mk 0xa1 (some "addd") .ez none),
  (op.mk 0xa2 (some "sbcd") .ez none),
  (op.mk 0xa3 (some "adcd") .ez none),
  (op.mk 0xa4 (some "eord") .ez none),
  (op.mk 0xa5 (some "ldd") .ez none),
  (op.mk 0xa6 (some "andd") .ez none),
  (op.mk 0xa7 (some "ord") .ez none),
  (op.mk 0xa8 (some "cpd") .ez none),
  (op.mk 0xa9 (some "unrecognized") .PAGE2 none),
  (op.mk 0xaa (some "std") .ez none),
  (op.mk 0xab (some "unrecognized") .PAGE2 none),
  (op.mk 0xac (some "unrecognized") .PAGE2 none),
  (op.mk 0xad (some "unrecognized") .PAGE2 none),
  (op.mk 0xae (some "unrecognized") .PAGE2 none),
  (op.mk 0xaf (some "unrecognized") .PAGE2 none),
  (op.mk 0xb0 (some "ldhi") .ext none),
  (op.mk 0xb1 (some "tedm") .ext none),
  (op.mk 0xb2 (some "tem") .ext none),
  (op.mk 0xb3 (some "tmxed") .ext none),
  (op.mk 0xb4 (some "tmer") .ext none),
  (op.mk 0xb5 (some "tmet") .ext none),
  (op.mk 0xb6 (some "aslm") .ext none),
  (op.mk 0xb7 (some "pshmac") .ext none),
  (op.mk 0xb8 (some "pulmac") .ext none),
  (op.mk 0xb9 (some "asrm") .ext none),
  (op.mk 0xba (some "tekb") .ext none),
  (op.mk 0xbc (some "unrecognized") .PAGE2 none),
  (op.mk 0xbd (some "unrecognized") .PAGE2 none),
  (op.mk 0xbe (some "unrecognized") .PAGE2 none),
  (op.mk 0xbf (some "unrecognized") .PAGE2 none),
  (op.mk 0xc0 (some "subb") .ex none),
  (op.mk 0xc1 (some "addb") .ex none),
  (op.mk 0xc2 (some "sbcb") .ex none),
  (op.mk 0xc3 (some "adcb") .ex none),
  (op.mk 0xc4 (some "eorb") .ex none),
  (op.mk 0xc5 (some "ldab") .ex none),
  (op.mk 0xc6 (some "andb") .ex none),
  (op.mk 0xc7 (some "orab") .ex none),
  (op.mk 0xc8 (some "cmpb") .ex none),
  (op.mk 0xc9 (some "bitb") .ex none),
  (op.mk 0xca (some "stab") .ex none),
  (op.mk 0xcb (some "unrecognized") .PAGE2 none),
  (op.mk 0xcc (some "unrecognized") .PAGE2 none),
  (op.mk 0xcd (some "unrecognized") .PAGE2 none),
  (op.mk 0xce (some "unrecognized") .PAGE2 none),
  (op.mk 0xcf (some "unrecognized") .PAGE2 none),
  (op.mk 0xd0 (some "subb") .ey none),
  (op.mk 0xd1 (some "addb") .ey none),
  (op.mk 0xd2 (some "sbcb") .ey none),
  (op.mk 0xd3 (some "adcb") .ey none),
  (op.mk 0xd4 (some "eorb") .ey none),
  (op.mk 0xd5 (some "ldab") .ey none),
  (op.mk 0xd6 (some "andb") .ey none),
  (op.mk 0xd7 (some "orab") .ey none),
  (op.mk 0xd8 (some "cmpb") .ey none),
  (op.mk 0xd9 (some "bitb") .ey none),
  (op.mk 0xda (some "stab") .ey none),
  (op.mk 0xdb (some "unrecognized") .PAGE2 none),
  (op.mk 0xdc (some "unrecognized") .PAGE2 none),
  (op.mk 0xdd (some "unrecognized") .PAGE2 none),
  (op.mk 0xde (some "unrecognized") .PAGE2 none),
  (op.mk 0xdf (some "unrecognized") .PAGE2 none),
  (op.mk 0xe0 (some "subb") .ez none),
  (op.mk 0xe1 (some "addb") .ez none),
  (op.mk 0xe2 (some "sbcb") .ez none),
  (op.mk 0xe3 (some "adcb") .ez none),
  (op.mk 0xe4 (some "eorb") .ez none),
  (op.mk 0xe5 (some "ldab") .ez none),
  (op.mk 0xe6 (some "andb") .ez none),
  (op.mk 0xe7 (some "orab") .ez none),
  (op.mk 0xe8 (some "cmpb") .ez none),
  (op.mk 0xe9 (some "bitb") .ez none),
  (op.mk 0xea (some "stab") .ez none),
  (op.mk 0xeb (some "unrecognized") .PAGE2 none),
  (op.mk 0xec (some "unrecognized") .PAGE2 none),
  (op.mk 0xed (some "unrecognized") .PAGE2 none),
  (op.mk 0xee (some "unrecognized") .PAGE2 none),
  (op.mk 0xef (some "unrecognized") .PAGE2 none),
  (op.mk 0xf0 (some "comd") .inh none),
  (op.mk 0xf1 (some "ldstop") .ext none),
  (op.mk 0xf2 (some "negd") .inh none),
  (op.mk 0xf3 (some "wai") .ext none),
  (op.mk 0xf4 (some "asld") .inh none),
  (op.mk 0xf5 (some "clrd") .inh none),
  (op.mk 0xf6 (some "tstd") .inh none),
  (op.mk 0xf7 (some "rts") .inh none),
  (op.mk 0xf8 (some "sxt") .inh none),
  (op.mk 0xf9 (some "lbsr") .rel16 (some rrrr)),
  (op.mk 0xfa (some "tbek") .inh none),
  (op.mk 0xfb (some "ted") .inh none),
  (op.mk 0xfc (some "rold") .inh none),
  (op.mk 0xfd (some "asrd") .inh none),
  (op.mk 0xfe (some "rord") .inh none),
  (op.mk 0xff (some "lsrd") .inh none)
]

/-- Initializer list of `opcodes[3]` (prefix 0x37), in source order. -/
def opcodes_init3 : List op := [
  (op.mk 0x00 (some "coma") .inh none),
  (op.mk 0x01 (some "deca") .inh none),
  (op.mk 0x02 (some "nega") .inh none),
  (op.mk 0x03 (some "inca") .inh none),
  (op.mk 0x04 (some "asla") .inh none),
  (op.mk 0x05 (some "clra") .inh none),
  (op.mk 0x06 (some "tsta") .inh none),
  (op.mk 0x07 (some "tba") .inh none),
  (op.mk 0x08 (some "psha") .inh none),
  (op.mk 0x09 (some "pula") .inh none),
  (op.mk 0x0a (some "sba") .inh none),
  (op.mk 0x0b (some "aba") .inh none),
  (op.mk 0x0c (some "rola") .inh none),
  (op.mk 0x0d (some "asra") .inh none),
  (op.mk 0x0e (some "rora") .inh none),
  (op.mk 0x0f (some "lsra") .inh none),
  (op.mk 0x10 (some "comb") .inh none),
  (op.mk 0x11 (some "decb") .inh none),
  (op.mk 0x12 (some "negb") .inh none),
  (op.mk 0x13 (some "incb") .inh none),
  (op.mk 0x14 (some "aslb") .inh none),
  (op.mk 0x15 (some "clrb") .inh none),
  (op.mk 0x16 (some "tstb") .inh none),
  (op.mk 0x17 (some "tbb") .inh none),
  (op.mk 0x18 (some "pshb") .inh none),
  (op.mk 0x19 (some "pulb") .inh none),
  (op.mk 0x1a (some "sbb") .inh none),
  (op.mk 0x1b (some "abb") .inh none),
  (op.mk 0x1c (some "rolb") .inh none),
  (op.mk 0x1d (some "asrb") .inh none),
  (op.mk 0x1e (some "rorb") .inh none),
  (op.mk 0x1f (some "lsrb") .inh none),
  (op.mk 0x20 (some "swi") .inh none),
  (op.mk 0x21 (some "daa") .inh none),
  (op.mk 0x22 (some "ace") .inh none),
  (op.mk 0x23 (some "aced") .inh none),
  (op.mk 0x24 (some "mul") .inh none),
  (op.mk 0x25 (some "emul") .inh none),
  (op.mk 0x26 (some "emuls") .inh none),
  (op.mk 0x27 (some "fmuls") .inh none),
  (op.mk 0x28 (some "ediv") .inh none),
  (op.mk 0x29 (some "edivs") .inh none),
  (op.mk 0x2a (some "idiv") .inh none),
  (op.mk 0x2b (some "fdiv") .inh none),
  (op.mk 0x2c (some "tpd") .inh none),
  (op.mk 0x2d (some "tdp") .inh none),
  (op.mk 0x2e (some "unrecognized") .PAGE3 none),
  (op.mk 0x2f (some "tdmsk") .inh none),
  (op.mk 0x30 (some "sube") .imm16 (some jjkk)),
  (op.mk 0x31 (some "adde") .imm16 (some jjkk)),
  (op.mk 0x32 (some "sbce") .imm16 (some jjkk)),
  (op.mk 0x33 (some "adce") .imm16 (some jjkk)),
  (op.mk 0x34 (some "eore") .imm16 (some jjkk)),
  (op.mk 0x35 (some "lde") .imm16 (some jjkk)),
  (op.mk 0x36 (some "ande") .imm16 (some jjkk)),
  (op.mk 0x37 (some "ore") .imm16 (some jjkk)),
  (op.mk 0x38 (some "cpe") .imm16 (some jjkk)),
  (op.mk 0x39 (some "unrecognized") .PAGE3 none),
  (op.mk 0x3a (some "andp") .imm16 (some jjkk)),
  (op.mk 0x3b (some "orp") .imm16 (some jjkk)),
  (op.mk 0x3c (some "aix") .imm16 (some jjkk)),
  (op.mk 0x3d (some "aiy") .imm16 (some jjkk)),
  (op.mk 0x3e (some "aiz") .imm16 (some jjkk)),
  (op.mk 0x3f (some "ais") .imm16 (some jjkk)),
  (op.mk 0x40 (some "sube") .ind16x (some gggg)),
  (op.mk 0x41 (some "adde") .ind16x (some gggg)),
  (op.mk 0x42 (some "sbce") .ind16x (some gggg)),
  (op.mk 0x43 (some "adce") .ind16x (some gggg)),
  (op.mk 0x44 (some "eore") .ind16x (some gggg)),
  (op.mk 0x45 (some "lde") .ind16x (some gggg)),
  (op.mk 0x46 (some "ande") .ind16x (some gggg)),
  (op.mk 0x47 (some "ore") .ind16x (some gggg)),
  (op.mk 0x48 (some "cpe") .ind16x (some gggg)),
  (op.mk 0x49 (some "unrecognized") .PAGE3 none),
  (op.mk 0x4a (some "ste") .ind16x (some gggg)),
  (op.mk 0x4b (some "unrecognized") .PAGE3 none),
  (op.mk 0x4c (some "xgex") .inh none),
  (op.mk 0x4d (some "aex") .inh none),
  (op.mk 0x4e (some "txs") .inh none),
  (op.mk 0x4f (some "abx") .inh none),
  (op.mk 0x50 (some "sube") .ind16y (some gggg)),
  (op.mk 0x51 (some "adde") .ind16y (some gggg)),
  (op.mk 0x52 (some "sbce") .ind16y (some gggg)),
  (op.mk 0x53 (some "adce") .ind16y (some gggg)),
  (op.mk 0x54 (some "eore") .ind16y (some gggg)),
  (op.mk 0x55 (some "lde") .ind16y (some gggg)),
  (op.mk 0x56 (some "ande") .ind16y (some gggg)),
  (op.mk 0x57 (some "ore") .ind16y (some gggg)),
  (op.mk 0x58 (some "cpe") .ind16y (some gggg)),
  (op.mk 0x59 (some "unrecognized") .PAGE3 none),
  (op.mk 0x5a (some "ste") .ind16y (some gggg)),
  (op.mk 0x5b (some "unrecognized") .PAGE3 none),
  (op.mk 0x5c (some "xgey") .inh none),
  (op.mk 0x5d (some "aey") .inh none),
  (op.mk 0x5e (some "tys") .inh none),
  (op.mk 0x5f (some "aby") .inh none),
  (op.mk 0x60 (some "sube") .ind16z (some gggg)),
  (op.mk 0x61 (some "adde") .ind16z (some gggg)),
  (op.mk 0x62 (some "sbce") .ind16z (some gggg)),
  (op.mk 0x63 (some "adce") .ind16z (some gggg)),
  (op.mk 0x64 (some "eore") .ind16z (some gggg)),
  (op.mk 0x65 (some "lde") .ind16z (some gggg)),
  (op.mk 0x66 (some "ande") .ind16z (some gggg)),
  (op.mk 0x67 (some "ore") .ind16z (some gggg)),
  (op.mk 0x68 (some "cpe") .ind16z (some gggg)),
  (op.mk 0x69 (some "unrecognized") .PAGE3 none),
  (op.mk 0x6a (some "ste") .ind16z (some gggg)),
  (op.mk 0x6b (some "unrecognized") .PAGE3 none),
  (op.mk 0x6c (some "xgez") .inh none),
  (op.mk 0x6d (some "aez") .inh none),
  (op.mk 0x6e (some "tzs") .inh none),
  (op.mk 0x6f (some "abz") .inh none),
  (op.mk 0x70 (some "sube") .ext (some hhll)),
  (op.mk 0x71 (some "adde") .ext (some hhll)),
  (op.mk 0x72 (some "sbce") .ext (some hhll)),
  (op.mk 0x73 (some "adce") .ext (some hhll)),
  (op.mk 0x74 (some "eore") .ext (some hhll)),
  (op.mk 0x75 (some "lde") .ext (some hhll)),
  (op.mk 0x76 (some "ande") .ext (some hhll)),
  (op.mk 0x77 (some "ore") .ext (some hhll)),
  (op.mk 0x78 (some "cpe") .ext (some hhll)),
  (op.mk 0x79 (some "unrecognized") .PAGE3 none),
  (op.mk 0x7a (some "ste") .ext (some hhll)),
  (op.mk 0x7b (some "unrecognized") .PAGE3 none),
  (op.mk 0x7c (some "cpx") .imm16 (some jjkk)),
  (op.mk 0x7d (some "cpx") .imm16 (some jjkk)),
  (op.mk 0x7e (some "cpz") .imm16 (some jjkk)),
  (op.mk 0x7f (some "cps") .imm16 (some jjkk)),
  (op.mk 0x80 (some "lbra") .rel16 (some rrrr)),
  (op.mk 0x81 (some "lbrn") .rel16 (some rrrr)),
  (op.mk 0x82 (some "lbhi") .rel16 (some rrrr)),
  (op.mk 0x83 (some "lbls") .rel16 (some rrrr)),
  (op.mk 0x84 (some "lbcc") .rel16 (some rrrr)),
  (op.mk 0x85 (some "lbcs") .rel16 (some rrrr)),
  (op.mk 0x86 (some "lbne") .rel16 (some rrrr)),
  (op.mk 0x87 (some "lbeq") .rel16 (some rrrr)),
  (op.mk 0x88 (some "lbvc") .rel16 (some rrrr)),
  (op.mk 0x89 (some "lbvs") .rel16 (some rrrr)),
  (op.mk 0x8a (some "lbpl") .rel16 (some rrrr)),
  (op.mk 0x8b (some "lbmi") .rel16 (some rrrr)),
  (op.mk 0x8c (some "lbge") .rel16 (some rrrr)),
  (op.mk 0x8d (some "lblt") .rel16 (some rrrr)),
  (op.mk 0x8e (some "lbgt") .rel16 (some rrrr)),
  (op.mk 0x8f (some "lble") .rel16 (some rrrr)),
  (op.mk 0x90 (some "lbmv") .rel16 (some rrrr)),
  (op.mk 0x91 (some "lbev") .rel16 (some rrrr)),
  (op.mk 0x92 (some "unrecognized") .PAGE3 none),
  (op.mk 0x93 (some "unrecognized") .PAGE3 none),
  (op.mk 0x94 (some "unrecognized") .PAGE3 none),
  (op.mk 0x95 (some "unrecognized") .PAGE3 none),
  (op.mk 0x96 (some "unrecognized") .PAGE3 none),
  (op.mk 0x97 (some "unrecognized") .PAGE3 none),
  (op.mk 0x98 (some "unrecognized") .PAGE3 none),
  (op.mk 0x99 (some "unrecognized") .PAGE3 none),
  (op.mk 0x9a (some "unrecognized") .PAGE3 none),
  (op.mk 0x9b (some "unrecognized") .PAGE3 none),
  (op.mk 0x9c (some "tbxk") .inh none),
  (op.mk 0x9d (some "tbyk") .inh none),
  (op.mk 0x9e (some "tbzk") .inh none),
  (op.mk 0x9f (some "tbsk") .inh none),
  (op.mk 0xa0 (some "unrecognized") .PAGE3 none),
  (op.mk 0xa1 (some "unrecognized") .PAGE3 none),
  (op.mk 0xa2 (some "unrecognized") .PAGE3 none),
  (op.mk 0xa3 (some "unrecognized") .PAGE3 none),
  (op.mk 0xa4 (some "unrecognized") .PAGE3 none),
  (op.mk 0xa5 (some "unrecognized") .PAGE3 none),
  (op.mk 0xa6 (some "bgnd") .inh none),
  (op.mk 0xa7 (some "unrecognized") .PAGE3 none),
  (op.mk 0xa8 (some "unrecognized") .PAGE3 none),
  (op.mk 0xa9 (some "unrecognized") .PAGE3 none),
  (op.mk 0xaa (some "unrecognized") .PAGE3 none),
  (op.mk 0xab (some "unrecognized") .PAGE3 none),
  (op.mk 0xac (some "txkb") .inh none),
  (op.mk 0xad (some "tykb") .inh none),
  (op.mk 0xae (some "tzkb") .inh none),
  (op.mk 0xaf (some "tskb") .inh none),
  (op.mk 0xb0 (some "subd") .imm16 (some jjkk)),
  (op.mk 0xb1 (some "addd") .imm16 (some jjkk)),
  (op.mk 0xb2 (some "sbcd") .imm16 (some jjkk)),
  (op.mk 0xb3 (some "adcd") .imm16 (some jjkk)),
  (op.mk 0xb4 (some "eord") .imm16 (some jjkk)),
  (op.mk 0xb5 (some "ldd") .imm16 (some jjkk)),
  (op.mk 0xb6 (some "andd") .imm16 (some jjkk)),
  (op.mk 0xb7 (some "ord") .imm16 (some jjkk)),
  (op.mk 0xb8 (some "cpd") .imm16 (some jjkk)),
  (op.mk 0xb9 (some "unrecognized") .PAGE3 none),
  (op.mk 0xba (some "unrecognized") .PAGE3 none),
  (op.mk 0xbb (some "unrecognized") .PAGE3 none),
  (op.mk 0xbc (some "ldx") .imm16 (some jjkk)),
  (op.mk 0xbd (some "ldy") .imm16 (some jjkk)),
  (op.mk 0xbe (some "ldz") .imm16 (some jjkk)),
  (op.mk 0xbf (some "lds") .imm16 (some jjkk)),
  (op.mk 0xc0 (some "subd") .ind16x (some gggg)),
  (op.mk 0xc1 (some "addd") .ind16x (some gggg)),
  (op.mk 0xc2 (some "sbcd") .ind16x (some gggg)),
  (op.mk 0xc3 (some "adcd") .ind16x (some gggg)),
  (op.mk 0xc4 (some "eord") .ind16x (some gggg)),
  (op.mk 0xc5 (some "ldd") .ind16x (some gggg)),
  (op.mk 0xc6 (some "andd") .ind16x (some gggg)),
  (op.mk 0xc7 (some "ord") .ind16x (some gggg)),
  (op.mk 0xc8 (some "cpd") .ind16x (some gggg)),
  (op.mk 0xc9 (some "unrecognized") .PAGE3 none),
  (op.mk 0xca (some "std") .ind16x (some gggg)),
  (op.mk 0xcb (some "unrecognized") .PAGE3 none),
  (op.mk 0xcc (some "xgdx") .inh none),
  (op.mk 0xcd (some "adx") .inh none),
  (op.mk 0xce (some "unrecognized") .PAGE3 none),
  (op.mk 0xcf (some "unrecognized") .PAGE3 none),
  (op.mk 0xd0 (some "subd") .ind16y (some gggg)),
  (op.mk 0xd1 (some "addd") .ind16y (some gggg)),
  (op.mk 0xd2 (some "sbcd") .ind16y (some gggg)),
  (op.mk 0xd3 (some "adcd") .ind16y (some gggg)),
  (op.mk 0xd4 (some "eord") .ind16y (some gggg)),
  (op.mk 0xd5 (some "ldd") .ind16y (some gggg)),
  (op.mk 0xd6 (some "andd") .ind16y (some gggg)),
  (op.mk 0xd7 (some "ord") .ind16y (some gggg)),
  (op.mk 0xd8 (some "cpd") .ind16y (some gggg)),
  (op.mk 0xd9 (some "unrecognized") .PAGE3 none),
  (op.mk 0xda (some "std") .ind16y (some gggg)),
  (op.mk 0xdb (some "unrecognized") .PAGE3 none),
  (op.mk 0xdc (some "xgdy") .inh none),
  (op.mk 0xdd (some "ady") .inh none),
  (op.mk 0xde (some "unrecognized") .PAGE3 none),
  (op.mk 0xdf (some "unrecognized") .PAGE3 none),
  (op.mk 0xe0 (some "subd") .ind16z (some gggg)),
  (op.mk 0xe1 (some "addd") .ind16z (some gggg)),
  (op.mk 0xe2 (some "sbcd") .ind16z (some gggg)),
  (op.mk 0xe3 (some "adcd") .ind16z (some gggg)),
  (op.mk 0xe4 (some "eord") .ind16z (some gggg)),
  (op.mk 0xe5 (some "ldd") .ind16z (some gggg)),
  (op.mk 0xe6 (some "andd") .ind16z (some gggg)),
  (op.mk 0xe7 (some "ord") .ind16z (some gggg)),
  (op.mk 0xe8 (some "cpd") .ind16z (some gggg)),
  (op.mk 0xe9 (some "unrecognized") .PAGE3 none),
  (op.mk 0xea (some "std") .ind16z (some gggg)),
  (op.mk 0xeb (some "unrecognized") .PAGE3 none),
  (op.mk 0xec (some "xgdz") .inh none),
  (op.mk 0xed (some "adz") .inh none),
  (op.mk 0xee (some "unrecognized") .PAGE3 none),
  (op.mk 0xef (some "unrecognized") .PAGE3 none),
  (op.mk 0xf0 (some "subd") .ext none),
  (op.mk 0xf1 (some "addd") .ext none),
  (op.mk 0xf2 (some "sbcd") .ext none),
  (op.mk 0xf3 (some "adcd") .ext none),
  (op.mk 0xf4 (some "eord") .ext none),
  (op.mk 0xf5 (some "ldd") .ext none),
  (op.mk 0xf6 (some "andd") .ext none),
  (op.mk 0xf7 (some "ord") .ext none),
  (op.mk 0xf8 (some "cpd") .ext none),
  (op.mk 0xf9 (some "unrecognized") .PAGE3 none),
  (op.mk 0xfa (some "std") .ext none),
  (op.mk 0xfb (some "unrecognized") .PAGE3 none),
  (op.mk 0xfc (some "tpa") .inh none),
  (op.mk 0xfd (some "tap") .inh none),
  (op.mk 0xfe (some "movb") .ext2ext none),
  (op.mk 0xff (some "movw") .ext2ext none)
]
/-- The four initializer lists of `opcodes`, by page. -/
def opcodes_init : List (List op) :=
  [opcodes_init0, opcodes_init1, opcodes_init2, opcodes_init3]

/-- The table lookup `opcodes[page][opcode]`.  Initializers fill a page from
index 0 in the order they are written, whatever their `opcode` field says, and
slots after the last initializer are zero. -/
def opcodes (page opcode : Nat) : op :=
  (opcodes_init.getD page []).getD opcode op_zero

/-! ## Execution state -/

/-- Reduction of a `size_t` value modulo `2 ^ 64`. -/
def u64 (n : Nat) : Nat := n % 2 ^ 64

/-- What an execution of `disass` has done so far: the cursor `pos`, the text
written to standard output, the warnings written to standard error, and the
indices of `in` that were read, oldest first. -/
structure State where
  pos : Nat
  out : String
  err : List String
  reads : List Nat
deriving DecidableEq

/-- The ways an execution ends: `return v` from `disass`, `exit(status)`, a
fault (dereference of a null table pointer, or a store past `value[3]`), and
`fuel`, the bound of the embedding on the number of loop iterations. -/
inductive Halt where
  | ret (v : Int)
  | exit (status : Nat)
  | fault
  | fuel
deriving DecidableEq

/-- Result of running a piece of `disass`: it either goes on with a value or
ends the execution; both carry the state reached. -/
inductive Res (α : Type) where
  | ok (a : α) (s : State)
  | halt (h : Halt) (s : State)

/-- The value a piece of code went on with, if it did. -/
def Res.val? {α : Type} : Res α → Option α
  | .ok a _ => some a
  | .halt _ _ => none

/-- The state reached. -/
def Res.state {α : Type} : Res α → State
  | .ok _ s => s
  | .halt _ s => s

/-- A piece of `disass`, as a function of the state. -/
def M (α : Type) : Type := State → Res α

/-- Go on with the value `a`. -/
def M.pure {α : Type} (a : α) : M α := fun s => .ok a s

/-- Sequencing: run `m`, and unless it ended the execution, run `f` on its value. -/
def M.bind {α β : Type} (m : M α) (f : α → M β) : M β := fun s =>
  match m s with
  | .ok a s1 => f a s1
  | .halt h s1 => .halt h s1

instance : Monad M where
  pure := M.pure
  bind := M.bind

/-- End the execution. -/
def halt {α : Type} (h : Halt) : M α := fun s => .halt h s

/-- The current value of `pos`. -/
def getPos : M Nat
  | ⟨pos, out, err, reads⟩ => .ok pos ⟨pos, out, err, reads⟩

/-- The statement `pos += n` on a `size_t`. -/
def addPos (n : Nat) : M Unit
  | ⟨pos, out, err, reads⟩ => .ok () ⟨u64 (pos + n), out, err, reads⟩

/-- Text written to standard output. -/
def printf (t : String) : M Unit
  | ⟨pos, out, err, reads⟩ => .ok () ⟨pos, out ++ t, err, reads⟩

/-- A message of `warnx` on standard error. -/
def warnx (t : String) : M Unit
  | ⟨pos, out, err, reads⟩ => .ok () ⟨pos, out, err ++ [t], reads⟩

/-- A read of `in[i]`, converted to `uint8_t`; the index is recorded. -/
def readb (inp : Nat → Nat) (i : Nat) : M Nat
  | ⟨pos, out, err, reads⟩ => .ok (inp i % 256) ⟨pos, out, err, reads ++ [i]⟩

/-- The macro `getb(p)`: when `p > size` or `pos > size - p` it warns and makes
`disass` return -1, otherwise its value is `in[pos + p]`.  When the check
passes `pos + p ≤ size`, so the index does not wrap. -/
def getb (inp : Nat → Nat) (size p : Nat) : M Nat := do
  let pos ← getPos
  if p > size ∨ pos > size - p then do
    warnx "Invalid buffer access"
    halt (.ret (-1))
  else
    readb inp (pos + p)

/-! ## Formatting -/

/-- Lower-case hexadecimal digits of `n`, zero-padded on the left to at least
`width` characters: the conversions `%02hhx`, `%04hx` and `%08zx` once the
argument is reduced to its type. -/
def hex (width n : Nat) : String :=
  let ds := Nat.toDigits 16 n
  String.mk (List.replicate (width - ds.length) '0' ++ ds)

/-- The function `print_operand`: the operand objects are told apart by
address.  The argument `value` is the array `value[4]` of the caller. -/
def print_operand (arg : operand) (_m : mode) (value : List Nat) : M Unit :=
  if arg = op_b then pure ()
  else if arg = op_ff then printf ("0x" ++ hex 2 (value.getD 0 0 % 256))
  else if arg = op_gggg then
    printf ("0x" ++ hex 4 (value.getD 0 0 % 65536) ++ hex 4 (value.getD 1 0 % 65536))
  else if arg = op_hh then pure ()
  else if arg = op_ii then printf ("0x" ++ hex 2 (value.getD 0 0 % 256))
  else if arg = op_jj then pure ()
  else if arg = op_kk then pure ()
  else if arg = op_ll then pure ()
  else if arg = op_mm then printf ("(0x" ++ hex 2 (value.getD 0 0 % 256) ++ " & ")
  else if arg = op_mmmm then pure ()
  else if arg = op_rr then pure ()
  else if arg = op_rrrr then pure ()
  else if arg = op_xo then pure ()
  else if arg = op_yo then pure ()
  else if arg = op_z then pure ()
  else do
    warnx "Unknown operand"
    halt (.exit 6)

/-- Modelled from the spec: `spnprintf` of `util.h`, which is not part of the
sources at hand, is taken to write the formatted text at `next` and to return
the position after it.  Given the text so written into `buf`, this is what
`printf("%s ", buf)` shows after `memset(next, ' ', sz)`, the terminator stored
at the end of `buf` and the `" "` written at `buf + 25`: the first 25
characters of the text padded with blanks, and a blank. -/
def column (text : String) : String :=
  String.mk ((text.data ++ List.replicate 45 ' ').take 25 ++ [' '])

/-! ## The decode loop -/

/-- Lines 1275-1289 of `disass`: the switch on `in[pos]` that fetches the
prebyte and the opcode, the table lookup and the header length `bytes`.
Yields `(pfx, opcode, op, bytes)`, where `pfx` stands for the variable
`prefix`. -/
def resolve (inp : Nat → Nat) (size : Nat) : M (Nat × Nat × op × Nat) := do
  let pos ← getPos
  let c ← readb inp pos
  let (pfx, opcode) ←
    if c = 0x17 ∨ c = 0x27 ∨ c = 0x37 then do
      let p ← getb inp size 0
      let o ← getb inp size 1
      pure (p, o)
    else do
      let o ← getb inp size 0
      pure (0, o)
  let o := opcodes ((pfx >>> 4) &&& 3) opcode
  let bytes := if pfx ≠ 0 then 2 else 1
  pure (pfx, opcode, o, bytes)

/-- The loop `for (i = 0; operands && i < operands->num; i++) bits +=
operands->elements[i]->bits`, with `n` iterations left. -/
def bits_loop (ops : operands) : Nat → Nat → Nat → M Nat
  | 0, _, bits => pure bits
  | n + 1, i, bits =>
    match ops.elements.get? i with
    | none => halt .fault
    | some e => bits_loop ops n (i + 1) (bits + e.bits)

/-- The sum `bits` of the operand widths of a descriptor (lines 1291-1294). -/
def total_bits (o : op) : M Nat :=
  match o.operands with
  | none => pure 0
  | some ops => bits_loop ops ops.num 0 0

/-- The hex-dump loop of lines 1301-1311, at loop counter `i`: it appends the
masked bytes to the text of `buf` and counts them in `bytes`. -/
def dump_loop (inp : Nat → Nat) (size pfx bits : Nat) : Nat → String → Nat → M (String × Nat)
  | 0, text, bytes => pure (text, bytes)
  | i + 1, text, bytes => do
    let byte ← getb inp size (i + 1)
    let mask :=
      if i + 1 = (if pfx ≠ 0 then 2 else 1) ∧ bits % 8 ≠ 0 then ((1 <<< (bits % 8)) - 1) % 256
      else 0xff
    dump_loop inp size pfx bits i (text ++ hex 2 ((byte &&& mask) % 256)) (bytes + 1)

/-- The loop `for (k = 1; localbits > 8; k++)` of lines 1332-1335, with `n`
slots of `value` left after `value[k - 1]`; a store past the array is a fault. -/
def value_loop (inp : Nat → Nat) (size bytes : Nat) : Nat → Nat → Nat → List Nat → M (Nat × List Nat)
  | 0, _, localbits, value =>
    if localbits > 8 then halt .fault else pure (localbits, value)
  | n + 1, k, localbits, value =>
    if localbits > 8 then do
      let b ← getb inp size (bytes + k)
      value_loop inp size bytes n (k + 1)
        (localbits - (if localbits ≥ 8 then 8 else localbits)) (value.set k b)
    else pure (localbits, value)

/-- The loop `while (localbits > 8) { pos += 1; localbits -= 8; }` of lines
1357-1360; `n` bounds the iterations and `n = localbits` is enough. -/
def advance_loop : Nat → Nat → M Nat
  | 0, localbits => if localbits > 8 then halt .fuel else pure localbits
  | n + 1, localbits =>
    if localbits > 8 then do
      addPos 1
      advance_loop n (localbits - 8)
    else pure localbits

/-- The index-register marker printed by the switch on `op.mode` (lines
1337-1352). -/
def marker : mode → String
  | .ind8x | .ind16x => "[%x]+"
  | .ind8y | .ind16y => "[%y]+"
  | .ind8z | .ind16z => "[%z]+"
  | _ => ""

/-- The loop over the operands (lines 1325-1361), at index `j` with `n`
iterations left. -/
def operand_loop (inp : Nat → Nat) (size : Nat) (o : op) (ops : operands) (bytes : Nat) :
    Nat → Nat → M Unit
  | 0, _ => pure ()
  | n + 1, j => do
    let v0 ← getb inp size bytes
    match ops.elements.get? j with
    | none => halt .fault
    | some operand =>
      let (localbits, value) ← value_loop inp size bytes 3 1 operand.bits [v0, 0, 0, 0]
      let v1 ← getb inp size (bytes + 1)
      let value := value.set 1 v1
      printf (marker o.mode)
      print_operand operand o.mode value
      if j + 1 < ops.num then printf ", " else pure ()
      let localbits := localbits + operand.bits
      let _ ← advance_loop localbits localbits
      operand_loop inp size o ops bytes n (j + 1)

/-- One pass through the body of the loop of `disass` (lines 1265-1367). -/
def iteration (inp : Nat → Nat) (size : Nat) : M Unit := do
  let pos ← getPos
  let (pfx, opcode, o, bytes) ← resolve inp size
  let bits ← total_bits o
  let text := hex 8 pos ++ ": " ++ hex 2 ((if pfx ≠ 0 then pfx else opcode) % 256)
  let text := if pfx ≠ 0 then text ++ hex 2 (opcode % 256) else text
  let (text, bytes) ←
    dump_loop inp size pfx bits (bits / 8 + (if bits % 8 ≠ 0 then 1 else 0)) text bytes
  printf (column text ++ " ")
  printf (o.mnemonic.getD "(null)" ++ " ")
  match o.operands with
  | some ops => do
    operand_loop inp size o ops (if pfx ≠ 0 then 2 else 1) ops.num 0
    addPos 1
  | none => addPos bytes
  printf "\n\n"

/-- The loop `for (pos = 0; pos < size - 2; )` of `disass`, with `n` bounding
the number of iterations; `size - 2` is computed in `size_t`. -/
def disass_loop (inp : Nat → Nat) (size : Nat) : Nat → State → Halt × State
  | 0, s => (.fuel, s)
  | n + 1, s =>
    if s.pos < u64 (size + 2 ^ 64 - 2) then
      match iteration inp size s with
      | .ok _ s1 => disass_loop inp size n s1
      | .halt h s1 => (h, s1)
    else (.ret 0, s)

/-- The state in which `disass` starts. -/
def State.init : State := ⟨0, "", [], []⟩

/-- The function `disass(in, size)`: how the execution ends, and the final
state.  Every iteration that goes on moves the cursor forward and a cursor
past `size` fails the first `getb`, so `size + 2` iterations are enough. -/
def disass (inp : Nat → Nat) (size : Nat) : Halt × State :=
  disass_loop inp size (size + 2) State.init

/-! ## Pieces of the loop body

The body of the loop, cut at the places the statements below speak about: the
reads made for one operand, and the part of an iteration that comes before
anything is printed.  `operand_loop_succ` and `iteration_eq` show that
`operand_loop` and `iteration` are made of these pieces. -/

/-- The reads of lines 1330-1336 for one operand: `value[0] = getb(bytes)`,
the further bytes of a field wider than 8 bits, and `value[1] =
getb(bytes+1)`.  Yields `localbits` and the array `value` that is handed to
`print_operand`. -/
def extract (inp : Nat → Nat) (size bytes : Nat) (operand : operand) : M (Nat × List Nat) := do
  let v0 ← getb inp size bytes
  let (localbits, value) ← value_loop inp size bytes 3 1 operand.bits [v0, 0, 0, 0]
  let v1 ← getb inp size (bytes + 1)
  pure (localbits, value.set 1 v1)

/-- Lines 1275-1311 of an iteration: the fetch of prebyte and opcode, the sum
of the operand widths and the hex dump into `buf`.  Yields `(pfx, op, text,
bytes)`, `text` being what `buf` holds. -/
def fetch_dump (inp : Nat → Nat) (size : Nat) : M (Nat × op × String × Nat) := do
  let pos ← getPos
  let (pfx, opcode, o, bytes) ← resolve inp size
  let bits ← total_bits o
  let text := hex 8 pos ++ ": " ++ hex 2 ((if pfx ≠ 0 then pfx else opcode) % 256)
  let text := if pfx ≠ 0 then text ++ hex 2 (opcode % 256) else text
  let (text, bytes) ←
    dump_loop inp size pfx bits (bits / 8 + (if bits % 8 ≠ 0 then 1 else 0)) text bytes
  pure (pfx, o, text, bytes)

/-- Lines 1321-1367 of an iteration, after `buf` and the mnemonic have been
printed: the operands, the move of the cursor and the end of the line. -/
def print_operands (inp : Nat → Nat) (size pfx : Nat) (o : op) (bytes : Nat) : M Unit := do
  match o.operands with
  | some ops => do
    operand_loop inp size o ops (if pfx ≠ 0 then 2 else 1) ops.num 0
    addPos 1
  | none => addPos bytes
  printf "\n\n"

/-- Lines 1312-1367 of an iteration, given what `fetch_dump` yields: `buf` and
the mnemonic are printed, then the operands are read and printed. -/
def print_line (inp : Nat → Nat) (size : Nat) : Nat × op × String × Nat → M Unit
  | (pfx, o, text, bytes) => do
    printf (column text ++ " ")
    printf (o.mnemonic.getD "(null)" ++ " ")
    print_operands inp size pfx o bytes

/-- The memory seen through `in` when the buffer holds `bytes`: the bytes of
the buffer, and `beyond i` at an index `i` past its end. -/
def buffer (bytes : List Nat) (beyond : Nat → Nat) : Nat → Nat :=
  fun i => bytes.getD i (beyond i)

/-- Memory past the end of the buffer that holds zero bytes, as the padding
that `process_file` allocates with `calloc` does. -/
def zeros : Nat → Nat := fun _ => 0

/-- The number of bytes that `process_file` allocates with `calloc` for a file
of `st_size` bytes: `bufsize = st_size; bufsize += bufsize % 4 ? bufsize % 4 :
0`.  The file fills the first `st_size` of them and `disass` is called with
`size = st_size`. -/
def bufsize (st_size : Nat) : Nat :=
  u64 (st_size + (if st_size % 4 ≠ 0 then st_size % 4 else 0))

/-! ## The command line -/

/-- What the process has done when it exits from `usage` or `main`: the text
written to standard output and to standard error, and the exit status. -/
structure Exit where
  stdout : String
  stderr : String
  status : Nat
deriving DecidableEq

/-- The function `usage(status)`: it picks the stream from `status`, writes
the usage line to it (`putsf` of `util.h`, taken to write the text to the
stream) and calls `exit(1)`. -/
def usage (status : Nat) : Exit :=
  let text := "usage: hc16 <INFILE>\n"
  if status = 0 then ⟨text, "", 1⟩ else ⟨"", text, 1⟩

/-- The loop of `main` over `argv[1..]`.  `process_file a` is `some n` when
`process_file` ends the process with status `n` on the argument `a` and `none`
when it returns; what it prints is left out. -/
def main_loop (process_file : String → Option Nat) : List String → Exit
  | [] => ⟨"", "", 0⟩
  | a :: rest =>
    if a = "--help" ∨ a = "-h" ∨ a = "-?" ∨ a = "--usage" then usage 0
    else if a = "-d" ∨ a = "--debug" then main_loop process_file rest
    else
      match process_file a with
      | some n => ⟨"", "", n⟩
      | none => main_loop process_file rest

/-- The function `main`, as far as the exit of the process goes; `argv` holds
the program name and the arguments. -/
def main (process_file : String → Option Nat) (argv : List String) : Exit :=
  if argv.length < 2 then usage 1 else main_loop process_file (argv.drop 1)

/-! ## Reading of the specification used in the statements -/

/-- The page the specification assigns to the byte at the cursor: 1, 2, 3 for
the prebytes 0x17, 0x27, 0x37 and 0 for any other byte. -/
def spec_page (b : Nat) : Nat :=
  if b = 0x17 then 1 else if b = 0x27 then 2 else if b = 0x37 then 3 else 0

/-- The header length the specification assigns to the byte at the cursor: a
prebyte and an opcode, or an opcode alone. -/
def spec_header_length (b : Nat) : Nat :=
  if b = 0x17 ∨ b = 0x27 ∨ b = 0x37 then 2 else 1

/-- The sum of the widths of the operand fields of a descriptor, 0 without an
operand list. -/
def spec_operand_bits (o : op) : Nat :=
  match o.operands with
  | none => 0
  | some ops => (ops.elements.map operand.bits).sum

/-- The encoded length the specification assigns to an instruction whose
header (prebyte, if any, and opcode) is `header` bytes long: the header and the
operand bits rounded up to whole bytes. -/
def spec_length (header : Nat) (o : op) : Nat :=
  header + (spec_operand_bits o + 7) / 8

/-- The property claimed of a table entry named "unrecognized": it has exactly
one operand field, 8 bits wide. -/
def spec_one_byte_operand (o : op) : Prop :=
  o.operands.map (fun ops => (ops.num, ops.elements.map operand.bits)) = some (1, [8])

instance (o : op) : Decidable (spec_one_byte_operand o) := by
  unfold spec_one_byte_operand
  exact inferInstance

/-- The offset, from the start of the instruction, that the specification
assigns to the first byte of operand `j`: the header, and the whole bytes of
the running bit offset, which is the sum of the widths of the operands before
`j`. -/
def spec_operand_offset (header : Nat) (ops : operands) (j : Nat) : Nat :=
  header + ((ops.elements.take j).map operand.bits).sum / 8

/-- A value seen as a 32-bit `int` has every bit from bit `w` upwards set, as
the sign extension of a `w`-bit field with its top bit set has. -/
def spec_high_bits_set (w v : Nat) : Prop :=
  ∀ i < 32, w ≤ i → v.testBit i = true

instance (w v : Nat) : Decidable (spec_high_bits_set w v) := by
  unfold spec_high_bits_set
  exact inferInstance

/-- A piece of `disass` that leaves the cursor and the text written so far as
they are, whether it goes on or ends the execution. -/
def M.keeps {α : Type} (m : M α) : Prop :=
  ∀ s, (m s).state.pos = s.pos ∧ (m s).state.out = s.out

/-- A piece of `disass` that only adds to the text written so far. -/
def M.grows {α : Type} (m : M α) : Prop :=
  ∀ s, ∃ t, (m s).state.out = s.out ++ t

/-- A piece of `disass` that leaves the cursor where it is. -/
def M.still {α : Type} (m : M α) : Prop :=
  ∀ s, (m s).state.pos = s.pos

/-- A piece of `disass` that never stops for lack of iterations in the
embedding. -/
def M.fueled {α : Type} (m : M α) : Prop :=
  ∀ s s1, m s ≠ .halt .fuel s1

/-- The move of the cursor that the last lines of an iteration make for the
descriptor `o`, read off a run of `print_operands` at cursor 0 on a stream of
zero bytes that is long enough for every check of `getb` to pass; `none` when
that run ends the execution. -/
def cursor_advance (pfx : Nat) (o : op) : Option Nat :=
  match print_operands zeros 64 pfx o (if pfx ≠ 0 then 2 else 1) ⟨0, "", [], []⟩ with
  | .ok _ s => some s.pos
  | .halt _ _ => none

/-- The move of the cursor by whole bytes per operand: 1 and, for each operand
of the list, its width divided by 8 and rounded down; without an operand list,
the header length (2 after a prebyte, else 1). -/
def floor_advance (pfx : Nat) (o : op) : Nat :=
  match o.operands with
  | some ops => 1 + (ops.elements.map (fun e => e.bits / 8)).sum
  | none => if pfx ≠ 0 then 2 else 1

/-- The sum, over the `n` operands of the list from index `j` on, of the width
divided by 8 and rounded down, taken in the order of the loop over the
operands. -/
def floor_sum (ops : operands) : Nat → Nat → Nat
  | 0, _ => 0
  | n + 1, j =>
    (match ops.elements.get? j with
      | some e => e.bits / 8
      | none => 0) + floor_sum ops n (j + 1)

/-- The prebyte that selects a page: none (0) for page 0, and 0x17, 0x27, 0x37
for the pages 1, 2, 3. -/
def page_prebyte (page : Nat) : Nat :=
  if page = 0 then 0 else 16 * page + 7

/-- The text that `print_operand` writes to standard output for the operand
`arg`, read off a run that starts with nothing written. -/
def print_text (arg : operand) (m : mode) (value : List Nat) : String :=
  (print_operand arg m value State.init).state.out

/-- The index of the page that line 1288 computes from `prefix`, in
`opcodes[(prefix >> 4) & 3][opcode]`. -/
def page_index (pfx : Nat) : Nat :=
  (pfx >>> 4) &&& 3

set_option maxRecDepth 100000

/-! ## Basic facts on the pieces of `disass` -/

/-- The check of `getb(p)` passes exactly when `pos + p ≤ size`. -/
theorem getb_eq (inp : Nat → Nat) (size p : Nat) (s : State) :
    getb inp size p s =
      if s.pos + p ≤ size then
        Res.ok (inp (s.pos + p) % 256) { s with reads := s.reads ++ [s.pos + p] }
      else
        Res.halt (.ret (-1)) { s with err := s.err ++ ["Invalid buffer access"] } := by
  obtain ⟨pos, out, err, reads⟩ := s
  by_cases h : pos + p ≤ size
  · have h1 : ¬ (p > size ∨ pos > size - p) := by omega
    simp [getb, bind, M.bind, getPos, readb, h1, h]
  · have h1 : p > size ∨ pos > size - p := by omega
    simp [getb, bind, M.bind, getPos, warnx, halt, h1, h]

/-! ## Theorems -/

/-- C1: `resolve`, the first step of every iteration of `disass`, picks page
and opcode from the byte `b` at the cursor.  Unless a bounds check fails (the
header must satisfy `pos + header_length ≤ size + 1` for `getb`), a prebyte
0x17, 0x27 or 0x37 gives the descriptor of page 1, 2 or 3 at the following
byte with header length 2, and any other byte gives the descriptor of page 0
at that byte itself with header length 1. -/
theorem C1_resolve_page_and_opcode (inp : Nat → Nat) (size : Nat) (s : State) :
    (resolve inp size s).val? =
      if s.pos + spec_header_length (inp s.pos % 256) ≤ size + 1 then
        if inp s.pos % 256 = 0x17 ∨ inp s.pos % 256 = 0x27 ∨ inp s.pos % 256 = 0x37 then
          some (inp s.pos % 256, inp (s.pos + 1) % 256,
            opcodes (spec_page (inp s.pos % 256)) (inp (s.pos + 1) % 256), 2)
        else
          some (0, inp s.pos % 256, opcodes 0 (inp s.pos % 256), 1)
      else none := by
  have m1 : (1 : Nat) &&& 3 = 1 := by decide
  have m2 : (2 : Nat) &&& 3 = 2 := by decide
  have m3 : (3 : Nat) &&& 3 = 3 := by decide
  simp only [resolve, bind, M.bind, getPos, readb, pure, M.pure, spec_header_length, spec_page]
  by_cases h : inp s.pos % 256 = 0x17 ∨ inp s.pos % 256 = 0x27 ∨ inp s.pos % 256 = 0x37
  · simp only [h, if_true, M.bind, M.pure, getb_eq, Nat.add_zero]
    by_cases h1 : s.pos + 2 ≤ size + 1
    · have a0 : s.pos ≤ size := by omega
      have a1 : s.pos + 1 ≤ size := by omega
      simp only [a0, a1, h1, if_true]
      rcases h with h | h | h <;> simp [h, Res.val?, m1, m2, m3]
    · have a1 : ¬ s.pos + 1 ≤ size := by omega
      simp only [a1, h1, if_false]
      by_cases a0 : s.pos ≤ size <;> simp [a0, a1, Res.val?]
  · simp only [h, if_false, M.bind, M.pure, getb_eq, Nat.add_zero]
    have e : s.pos + 1 ≤ size + 1 ↔ s.pos ≤ size := by omega
    by_cases a0 : s.pos ≤ size
    · simp [a0, Res.val?]
    · simp [a0, Res.val?]

/-- C2: on the buffer 0x17, 0x00, 0x12, 0x34 the one iteration of `disass`
resolves page 1, opcode 0x00 (`com`, one 16-bit operand), whose specified
length is 4, yet it leaves the cursor at 3: the operand branch adds the operand
bytes and 1, and not the prebyte. -/
theorem C2_prefixed_com_advances_three :
    spec_length 2 (opcodes 1 0x00) = 4 ∧
    disass (buffer [0x17, 0x00, 0x12, 0x34] zeros) 4 =
      (.ret 0, ⟨3, "00000000: 17001200         com [%x]+0x00120034\n\n", [],
        [0, 0, 1, 2, 1, 2, 3, 3]⟩) := by
  decide

/-- C3: on the two-byte buffer 0x00, 0xAB the guard `pos < size - 2` is false
at once: `disass` returns 0 with the cursor still at 0, having read no byte and
written nothing, although `pos + 2 ≤ size` holds at `pos = 0`. -/
theorem C3_two_byte_buffer_not_decoded :
    disass (buffer [0x00, 0xAB] zeros) 2 = (.ret 0, State.init) ∧
    State.init.pos + 2 ≤ 2 := by
  decide

/-- C4: on the three-byte buffer 0x17, 0x00, 0x12 every check of `getb` passes
and `disass` returns 0, and the indices read include 3, the size of the buffer:
`getb(p)` passes when `pos + p = size`.  On the empty buffer the switch and
`getb(0)` both read index 0. -/
theorem C4_read_at_index_size :
    (disass (buffer [0x17, 0x00, 0x12] zeros) 3).1 = .ret 0 ∧
    (disass (buffer [0x17, 0x00, 0x12] zeros) 3).2.reads = [0, 0, 1, 2, 1, 2, 3, 3] ∧
    ¬ (∀ i ∈ (disass (buffer [0x17, 0x00, 0x12] zeros) 3).2.reads, i < 3) ∧
    (getb (buffer [0x17, 0x00, 0x12] zeros) 3 3 State.init).val? = some 0 ∧
    (disass (buffer [] zeros) 0).2.reads = [0, 0] := by
  decide

/-- C5: the three-byte buffer 0x17, 0x00, 0x12 holds fewer bytes than the
length 4 of the instruction it starts (prebyte, opcode, 16-bit operand), yet
`disass` warns of nothing and returns 0, with the cursor at 3. -/
theorem C5_short_buffer_returns_zero :
    (resolve (buffer [0x17, 0x00, 0x12] zeros) 3 State.init).val? =
      some (0x17, 0x00, opcodes 1 0x00, 2) ∧
    3 - State.init.pos < spec_length 2 (opcodes 1 0x00) ∧
    disass (buffer [0x17, 0x00, 0x12] zeros) 3 =
      (.ret 0, ⟨3, "00000000: 17001200         com [%x]+0x00120000\n\n", [],
        [0, 0, 1, 2, 1, 2, 3, 3]⟩) := by
  decide

/-- C6: on the one-byte buffer 0x07 `disass` returns -1, but only after it has
read index 1 twice (once for the hex dump, once as `value[0]`) and written the
start of the line. -/
theorem C6_one_byte_buffer_reads_index_one :
    disass (buffer [0x07] zeros) 1 =
      (.ret (-1), ⟨0, "00000000: 0700             unrecognized ",
        ["Invalid buffer access"], [0, 0, 1, 1]⟩) := by
  decide

/-- C7: on the one-byte buffer 0xFF, and on the empty buffer, `size - 2` wraps
and the loop body runs: `disass` reads `in[0]` (and, for the one-byte buffer,
index 1), attempts a decode and returns -1; for the one-byte buffer it has
written the start of a line by then. -/
theorem C7_short_buffers_enter_the_loop :
    u64 (1 + 2 ^ 64 - 2) = 2 ^ 64 - 1 ∧
    disass (buffer [0xFF] zeros) 1 =
      (.ret (-1), ⟨0, "00000000: ff00             unrecognized ",
        ["Invalid buffer access"], [0, 0, 1, 1]⟩) ∧
    disass (buffer [] zeros) 0 =
      (.ret (-1), ⟨0, "", ["Invalid buffer access"], [0, 0]⟩) := by
  decide

/-- C8: the initializer of page 2 lists 255 entries, so the last slot of the
page, `opcodes[2][0xff]`, has no initializer: every field is zero and the
mnemonic is null. -/
theorem C8_page2_last_slot_is_empty :
    opcodes_init2.length = 255 ∧ opcodes 2 0xff = op_zero ∧
    (opcodes 2 0xff).mnemonic = none := by
  decide

/-- C9: on page 2 the entry written for opcode 0xbb is missing, so the slot
0xbb holds the entry written for 0xbc; the slots whose `opcode` field differs
from their index are exactly the 69 slots 0xbb to 0xff. -/
theorem C9_page2_opcode_field_shifted :
    (opcodes 2 0xbb).opcode = 0xbc ∧
    (List.range 256).filter (fun b => decide ((opcodes 2 b).opcode ≠ b)) =
      List.range' 0xbb 69 := by
  decide

/-- C10, as stated, fails: `opcodes[3][0xfb]` is named "unrecognized" and has
no operand list. -/
theorem C10_counterexample_page3_fb :
    ¬ ((opcodes 3 0xfb).mnemonic = some "unrecognized" →
      spec_one_byte_operand (opcodes 3 0xfb)) := by
  decide

/-- C10, amended: a table entry named "unrecognized" has exactly one operand
field, 8 bits wide (the list `ii`), on pages 0 and 1, and no operand list on
pages 2 and 3. -/
theorem C10_unrecognized_operands (page b : Nat) (hp : page < 4) (hb : b < 256)
    (h : (opcodes page b).mnemonic = some "unrecognized") :
    (page < 2 → (opcodes page b).operands = some ii ∧ spec_one_byte_operand (opcodes page b)) ∧
    (2 ≤ page → (opcodes page b).operands = none) := by
  have key1 : ∀ page < 2, ∀ b < 256, (opcodes page b).mnemonic = some "unrecognized" →
      (opcodes page b).operands = some ii ∧ spec_one_byte_operand (opcodes page b) := by
    decide
  have key2 : ∀ page < 4, ∀ b < 256, (opcodes page b).mnemonic = some "unrecognized" →
      2 ≤ page → (opcodes page b).operands = none := by
    decide
  exact ⟨fun h2 => key1 page h2 b hb h, fun h2 => key2 page hp b hb h h2⟩

/-- C10, amended, at `opcodes[0][0x07]`. -/
theorem C10_unrecognized_operands_witness :
    (0 < 4 ∧ 0x07 < 256 ∧ (opcodes 0 0x07).mnemonic = some "unrecognized") ∧
    ((0 < 2 → (opcodes 0 0x07).operands = some ii ∧ spec_one_byte_operand (opcodes 0 0x07)) ∧
     (2 ≤ 0 → (opcodes 0 0x07).operands = none)) :=
  ⟨⟨by decide, by decide, by decide⟩,
   C10_unrecognized_operands 0 0x07 (by decide) (by decide) (by decide)⟩

/-! ## How the loop body is made of its pieces -/

/-- An iteration is `fetch_dump` followed by `print_line`. -/
theorem iteration_eq (inp : Nat → Nat) (size : Nat) (s : State) :
    iteration inp size s = M.bind (fetch_dump inp size) (print_line inp size) s := by
  obtain ⟨pos, out, err, reads⟩ := s
  simp only [iteration, fetch_dump, bind, M.bind, getPos, pure, M.pure]
  cases resolve inp size ⟨pos, out, err, reads⟩ with
  | halt h s1 => rfl
  | ok r s1 =>
    obtain ⟨pfx, opcode, o, bytes⟩ := r
    simp only []
    cases total_bits o s1 with
    | halt h s2 => rfl
    | ok bits s2 =>
      simp only []
      cases dump_loop inp size pfx bits (bits / 8 + (if bits % 8 ≠ 0 then 1 else 0))
          (if pfx ≠ 0 then
            hex 8 pos ++ ": " ++ hex 2 ((if pfx ≠ 0 then pfx else opcode) % 256) ++
              hex 2 (opcode % 256)
          else hex 8 pos ++ ": " ++ hex 2 ((if pfx ≠ 0 then pfx else opcode) % 256))
          bytes s2 with
      | halt h s3 => rfl
      | ok r3 s3 =>
        obtain ⟨text, bytes3⟩ := r3
        rfl

/-- One round of the loop over the operands is `extract` followed by the
printing of the operand and the move of the cursor. -/
theorem operand_loop_succ (inp : Nat → Nat) (size : Nat) (o : op) (ops : operands)
    (bytes n j : Nat) (operand : operand) (h : ops.elements.get? j = some operand)
    (s : State) :
    operand_loop inp size o ops bytes (n + 1) j s =
      M.bind (extract inp size bytes operand) (fun r => do
        printf (marker o.mode)
        print_operand operand o.mode r.2
        if j + 1 < ops.num then printf ", " else pure ()
        let _ ← advance_loop (r.1 + operand.bits) (r.1 + operand.bits)
        operand_loop inp size o ops bytes n (j + 1)) s := by
  simp only [operand_loop, extract, bind, M.bind, pure, M.pure, h]
  cases getb inp size bytes s with
  | halt h1 s1 => rfl
  | ok v0 s1 =>
    simp only []
    cases value_loop inp size bytes 3 1 operand.bits [v0, 0, 0, 0] s1 with
    | halt h2 s2 => rfl
    | ok r s2 =>
      obtain ⟨localbits, value⟩ := r
      simp only []
      cases getb inp size (bytes + 1) s2 with
      | halt h3 s3 => rfl
      | ok v1 s3 => rfl

/-! ## Pieces that neither move the cursor nor print -/

theorem keeps_pure {α : Type} (a : α) : (M.pure a).keeps :=
  fun _ => ⟨rfl, rfl⟩

theorem keeps_halt {α : Type} (h : Halt) : (halt h : M α).keeps :=
  fun _ => ⟨rfl, rfl⟩

theorem keeps_bind {α β : Type} {m : M α} {f : α → M β} (hm : m.keeps)
    (hf : ∀ a, (f a).keeps) : (M.bind m f).keeps := by
  intro s
  have h1 := hm s
  unfold M.bind
  cases h : m s with
  | halt e s1 =>
    rw [h] at h1
    exact h1
  | ok a s1 =>
    rw [h] at h1
    have h2 := hf a s1
    simp only [Res.state] at h1
    simp only []
    exact ⟨h2.1.trans h1.1, h2.2.trans h1.2⟩

theorem keeps_getPos : getPos.keeps :=
  fun ⟨_, _, _, _⟩ => ⟨rfl, rfl⟩

theorem keeps_readb (inp : Nat → Nat) (i : Nat) : (readb inp i).keeps :=
  fun ⟨_, _, _, _⟩ => ⟨rfl, rfl⟩

theorem keeps_warnx (t : String) : (warnx t).keeps :=
  fun ⟨_, _, _, _⟩ => ⟨rfl, rfl⟩

theorem keeps_getb (inp : Nat → Nat) (size p : Nat) : (getb inp size p).keeps := by
  unfold getb
  refine keeps_bind keeps_getPos (fun pos => ?_)
  split
  · exact keeps_bind (keeps_warnx _) (fun _ => keeps_halt _)
  · exact keeps_readb _ _

theorem keeps_resolve (inp : Nat → Nat) (size : Nat) : (resolve inp size).keeps := by
  unfold resolve
  refine keeps_bind keeps_getPos (fun pos => ?_)
  refine keeps_bind (keeps_readb _ _) (fun c => ?_)
  dsimp only
  split
  · exact keeps_bind (keeps_getb _ _ _) (fun _ =>
      keeps_bind (keeps_getb _ _ _) (fun _ => keeps_bind (keeps_pure _) (fun _ => keeps_pure _)))
  · exact keeps_bind (keeps_getb _ _ _) (fun _ =>
      keeps_bind (keeps_pure _) (fun _ => keeps_pure _))

theorem keeps_bits_loop (ops : operands) (n i bits : Nat) : (bits_loop ops n i bits).keeps := by
  induction n generalizing i bits with
  | zero => exact keeps_pure _
  | succ n ih =>
    unfold bits_loop
    split
    · exact keeps_halt _
    · exact ih _ _

theorem keeps_total_bits (o : op) : (total_bits o).keeps := by
  unfold total_bits
  split
  · exact keeps_pure _
  · exact keeps_bits_loop _ _ _ _

theorem keeps_dump_loop (inp : Nat → Nat) (size pfx bits i : Nat) (text : String)
    (bytes : Nat) : (dump_loop inp size pfx bits i text bytes).keeps := by
  induction i generalizing text bytes with
  | zero => exact keeps_pure _
  | succ i ih =>
    unfold dump_loop
    exact keeps_bind (keeps_getb _ _ _) (fun _ => ih _ _)

theorem keeps_value_loop (inp : Nat → Nat) (size bytes n k localbits : Nat)
    (value : List Nat) : (value_loop inp size bytes n k localbits value).keeps := by
  induction n generalizing k localbits value with
  | zero =>
    unfold value_loop
    split
    · exact keeps_halt _
    · exact keeps_pure _
  | succ n ih =>
    unfold value_loop
    split
    · exact keeps_bind (keeps_getb _ _ _) (fun _ => ih _ _ _)
    · exact keeps_pure _

theorem keeps_extract (inp : Nat → Nat) (size bytes : Nat) (operand : operand) :
    (extract inp size bytes operand).keeps := by
  unfold extract
  refine keeps_bind (keeps_getb _ _ _) (fun v0 => ?_)
  refine keeps_bind (keeps_value_loop _ _ _ _ _ _ _) (fun r => ?_)
  obtain ⟨localbits, value⟩ := r
  exact keeps_bind (keeps_getb _ _ _) (fun _ => keeps_pure _)

theorem keeps_fetch_dump (inp : Nat → Nat) (size : Nat) : (fetch_dump inp size).keeps := by
  unfold fetch_dump
  refine keeps_bind keeps_getPos (fun pos => ?_)
  refine keeps_bind (keeps_resolve _ _) (fun r => ?_)
  obtain ⟨pfx, opcode, o, bytes⟩ := r
  refine keeps_bind (keeps_total_bits _) (fun bits => ?_)
  refine keeps_bind (keeps_dump_loop _ _ _ _ _ _ _) (fun r => ?_)
  obtain ⟨text, bytes2⟩ := r
  exact keeps_pure _

/-! ## Pieces that only add to the output -/

theorem grows_of_keeps {α : Type} {m : M α} (hm : m.keeps) : m.grows :=
  fun s => ⟨"", by rw [(hm s).2, String.append_empty]⟩

theorem grows_bind {α β : Type} {m : M α} {f : α → M β} (hm : m.grows)
    (hf : ∀ a, (f a).grows) : (M.bind m f).grows := by
  intro s
  obtain ⟨t1, h1⟩ := hm s
  unfold M.bind
  cases h : m s with
  | halt e s1 =>
    rw [h] at h1
    exact ⟨t1, h1⟩
  | ok a s1 =>
    rw [h] at h1
    obtain ⟨t2, h2⟩ := hf a s1
    simp only [Res.state] at h1
    simp only []
    exact ⟨t1 ++ t2, by rw [h2, h1, String.append_assoc]⟩

theorem grows_printf (t : String) : (printf t).grows :=
  fun ⟨_, _, _, _⟩ => ⟨t, rfl⟩

theorem grows_addPos (n : Nat) : (addPos n).grows :=
  fun ⟨_, out, _, _⟩ => ⟨"", (String.append_empty out).symm⟩

theorem grows_ite {α : Type} (c : Prop) [Decidable c] {a b : M α} (ha : a.grows)
    (hb : b.grows) : (if c then a else b).grows := by
  split
  · exact ha
  · exact hb

theorem grows_print_operand (arg : operand) (m : mode) (value : List Nat) :
    (print_operand arg m value).grows := by
  unfold print_operand
  repeat' first
    | exact grows_of_keeps (keeps_pure _)
    | exact grows_printf _
    | exact grows_bind (grows_of_keeps (keeps_warnx _)) (fun _ => grows_of_keeps (keeps_halt _))
    | refine grows_ite _ ?_ ?_

theorem grows_advance_loop (n localbits : Nat) : (advance_loop n localbits).grows := by
  induction n generalizing localbits with
  | zero =>
    unfold advance_loop
    split
    · exact grows_of_keeps (keeps_halt _)
    · exact grows_of_keeps (keeps_pure _)
  | succ n ih =>
    unfold advance_loop
    split
    · exact grows_bind (grows_addPos _) (fun _ => ih _)
    · exact grows_of_keeps (keeps_pure _)

theorem grows_operand_loop (inp : Nat → Nat) (size : Nat) (o : op) (ops : operands)
    (bytes n j : Nat) : (operand_loop inp size o ops bytes n j).grows := by
  induction n generalizing j with
  | zero => exact grows_of_keeps (keeps_pure _)
  | succ n ih =>
    unfold operand_loop
    refine grows_bind (grows_of_keeps (keeps_getb _ _ _)) (fun v0 => ?_)
    split
    · exact grows_of_keeps (keeps_halt _)
    · refine grows_bind (grows_of_keeps (keeps_value_loop _ _ _ _ _ _ _)) (fun r => ?_)
      obtain ⟨localbits, value⟩ := r
      refine grows_bind (grows_of_keeps (keeps_getb _ _ _)) (fun v1 => ?_)
      refine grows_bind (grows_printf _) (fun _ => ?_)
      refine grows_bind (grows_print_operand _ _ _) (fun _ => ?_)
      dsimp only
      refine grows_ite _ ?_ ?_
      · exact grows_bind (grows_printf _) (fun _ =>
          grows_bind (grows_advance_loop _ _) (fun _ => ih _))
      · exact grows_bind (grows_of_keeps (keeps_pure _)) (fun _ =>
          grows_bind (grows_advance_loop _ _) (fun _ => ih _))

theorem grows_print_operands (inp : Nat → Nat) (size pfx : Nat) (o : op) (bytes : Nat) :
    (print_operands inp size pfx o bytes).grows := by
  unfold print_operands
  dsimp only
  split
  · exact grows_bind (grows_operand_loop _ _ _ _ _ _ _) (fun _ =>
      grows_bind (grows_addPos _) (fun _ => grows_printf _))
  · exact grows_bind (grows_addPos _) (fun _ => grows_printf _)

/-! ## The bytes read for one operand -/

/-- A passing `getb(p)` yields the byte at `pos + p` as an unsigned 8-bit
value and leaves the cursor where it is. -/
theorem getb_ok {inp : Nat → Nat} {size p v : Nat} {s s1 : State}
    (h : getb inp size p s = .ok v s1) :
    v = inp (s.pos + p) % 256 ∧ v < 256 ∧ s1.pos = s.pos := by
  rw [getb_eq] at h
  split at h
  · simp only [Res.ok.injEq] at h
    obtain ⟨rfl, rfl⟩ := h
    exact ⟨rfl, Nat.mod_lt _ (by decide), rfl⟩
  · exact absurd h (by simp)

/-- The loop that fills `value[k]` for a field wider than 8 bits stores bytes
only, in slots from `k` on, and leaves the cursor where it is. -/
theorem value_loop_ok (inp : Nat → Nat) (size bytes n : Nat) :
    ∀ (k localbits : Nat) (value : List Nat) (s : State) (lb1 : Nat) (value1 : List Nat)
      (s1 : State), 0 < k →
      value_loop inp size bytes n k localbits value s = .ok (lb1, value1) s1 →
      s1.pos = s.pos ∧ value1.length = value.length ∧ value1.getD 0 0 = value.getD 0 0 ∧
      ((∀ v ∈ value, v < 256) → ∀ v ∈ value1, v < 256) := by
  induction n with
  | zero =>
    intro k localbits value s lb1 value1 s1 _ h
    unfold value_loop at h
    split at h
    · exact absurd h (by simp [halt])
    · simp only [pure, M.pure, Res.ok.injEq, Prod.mk.injEq] at h
      obtain ⟨⟨_, rfl⟩, rfl⟩ := h
      exact ⟨rfl, rfl, rfl, fun hv => hv⟩
  | succ n ih =>
    intro k localbits value s lb1 value1 s1 hk h
    unfold value_loop at h
    split at h
    · simp only [bind, M.bind] at h
      cases hg : getb inp size (bytes + k) s with
      | halt e s2 =>
        rw [hg] at h
        exact absurd h (by simp)
      | ok b s2 =>
        rw [hg] at h
        obtain ⟨_, hb, hp⟩ := getb_ok hg
        obtain ⟨h1, h2, h3, h4⟩ := ih (k + 1) _ (value.set k b) s2 lb1 value1 s1
          (Nat.succ_pos k) h
        refine ⟨h1.trans hp, by rw [h2, List.length_set], ?_, ?_⟩
        · rw [h3]
          simp only [List.getD_eq_getElem?_getD]
          rw [List.getElem?_set_ne (by omega)]
        · intro hv
          apply h4
          intro v hmem
          rcases List.mem_or_eq_of_mem_set hmem with hm | rfl
          · exact hv v hm
          · exact hb
    · simp only [pure, M.pure, Res.ok.injEq, Prod.mk.injEq] at h
      obtain ⟨⟨_, rfl⟩, rfl⟩ := h
      exact ⟨rfl, rfl, rfl, fun hv => hv⟩

/-- C11: the table flags the fields `gggg`, `zg`, `ii` and `rrrr` sign-extend,
and `disass` never reads the flag.  On 0x3c, 0xAB (`aix`, operand `ii`) the
operand byte 0xAB has bit 7 set, and the value produced for it is 0xAB, with no
bit above bit 7 set, printed as `0xab`; on 0x17, 0x00, 0x92, 0x34 (`com`,
operand `gggg`) the 16-bit field has bit 15 set, and the values produced are
the bytes 0x92 and 0x34, printed as `0x00920034`. -/
theorem C11_sign_extend_flag_is_ignored :
    (op_gggg.sext = 1 ∧ op_zg.sext = 1 ∧ op_ii.sext = 1 ∧ op_rrrr.sext = 1) ∧
    (opcodes 0 0x3c).operands = some ii ∧ ii.elements = [op_ii] ∧ op_ii.bits = 8 ∧
    Nat.testBit 0xAB 7 = true ∧
    (extract (buffer [0x3c, 0xAB, 0x00, 0x00] zeros) 4 1 op_ii State.init).val? =
      some (8, [0xAB, 0, 0, 0]) ∧
    ¬ spec_high_bits_set 8 0xAB ∧
    disass (buffer [0x3c, 0xAB, 0x00, 0x00] zeros) 4 =
      (.ret 0, ⟨2, "00000000: 3cab             aix 0xab\n\n", [], [0, 0, 1, 1, 2]⟩) ∧
    Nat.testBit 0x9234 15 = true ∧
    (extract (buffer [0x17, 0x00, 0x92, 0x34] zeros) 4 2 op_gggg State.init).val? =
      some (8, [0x92, 0x34, 0, 0]) ∧
    disass (buffer [0x17, 0x00, 0x92, 0x34] zeros) 4 =
      (.ret 0, ⟨3, "00000000: 17009200         com [%x]+0x00920034\n\n", [],
        [0, 0, 1, 2, 1, 2, 3, 3]⟩) := by
  decide

/-- Whatever the flags and the width of the field, the array `value` that the
reads of lines 1330-1336 produce for an operand holds four unsigned 8-bit
values, `value[0]` being the byte at `pos + bytes` and `value[1]` the byte at
`pos + bytes + 1`, as they stand in the stream. -/
theorem extract_raw_bytes (inp : Nat → Nat) (size bytes : Nat) (operand : operand)
    (s s1 : State) (localbits : Nat) (value : List Nat)
    (h : extract inp size bytes operand s = .ok (localbits, value) s1) :
    value.length = 4 ∧ (∀ v ∈ value, v < 256) ∧
    value.getD 0 0 = inp (s.pos + bytes) % 256 ∧
    value.getD 1 0 = inp (s.pos + bytes + 1) % 256 := by
  simp only [extract, bind, M.bind, pure, M.pure] at h
  cases hg : getb inp size bytes s with
  | halt e s2 =>
    rw [hg] at h
    exact absurd h (by simp)
  | ok v0 s2 =>
    rw [hg] at h
    simp only at h
    obtain ⟨hv0, hb0, hp0⟩ := getb_ok hg
    cases hl : value_loop inp size bytes 3 1 operand.bits [v0, 0, 0, 0] s2 with
    | halt e s3 =>
      rw [hl] at h
      exact absurd h (by simp)
    | ok r s3 =>
      rw [hl] at h
      obtain ⟨lb, val⟩ := r
      simp only at h
      obtain ⟨hp1, hlen, hz, hlt⟩ := value_loop_ok inp size bytes 3 1 operand.bits
        [v0, 0, 0, 0] s2 lb val s3 (by decide) hl
      cases hg1 : getb inp size (bytes + 1) s3 with
      | halt e s4 =>
        rw [hg1] at h
        exact absurd h (by simp)
      | ok v1 s4 =>
        rw [hg1] at h
        simp only [Res.ok.injEq, Prod.mk.injEq] at h
        obtain ⟨⟨_, rfl⟩, _⟩ := h
        obtain ⟨hv1, hb1, _⟩ := getb_ok hg1
        have hlen4 : val.length = 4 := by simpa using hlen
        refine ⟨by rw [List.length_set, hlen4], ?_, ?_, ?_⟩
        · intro v hmem
          rcases List.mem_or_eq_of_mem_set hmem with hm | rfl
          · refine hlt ?_ v hm
            intro w hw
            simp only [List.mem_cons, List.mem_singleton, List.not_mem_nil, or_false] at hw
            rcases hw with rfl | rfl | rfl | rfl
            · exact hb0
            all_goals decide
          · exact hb1
        · simp only [List.getD_eq_getElem?_getD]
          rw [List.getElem?_set_ne (by decide)]
          simp only [List.getD_eq_getElem?_getD] at hz
          rw [hz, hv0]
          rfl
        · simp only [List.getD_eq_getElem?_getD]
          rw [List.getElem?_set_self (by omega), hv1, hp1, hp0, Nat.add_assoc]
          rfl

/-- When an iteration of `disass` ends the execution, either the stop came
while the prebyte and opcode were fetched or the hex dump was built, and then
nothing has been printed in that iteration, or it came in the loop over the
operands, and then the offset and hex column of the instruction and its
mnemonic (and what the operands before the stop print) have already been
written. -/
theorem iteration_halt_out (inp : Nat → Nat) (size : Nat) (s s1 : State) (h : Halt)
    (hi : iteration inp size s = .halt h s1) :
    (fetch_dump inp size s = .halt h s1 ∧ s1.out = s.out) ∨
    (∃ pfx o text bytes s0 t, fetch_dump inp size s = .ok (pfx, o, text, bytes) s0 ∧
      s0.out = s.out ∧
      s1.out = s.out ++ (column text ++ " ") ++ (o.mnemonic.getD "(null)" ++ " ") ++ t) := by
  rw [iteration_eq] at hi
  unfold M.bind at hi
  have hk := keeps_fetch_dump inp size s
  cases hf : fetch_dump inp size s with
  | halt e s2 =>
    rw [hf] at hi hk
    simp only [Res.halt.injEq] at hi
    obtain ⟨rfl, rfl⟩ := hi
    exact Or.inl ⟨rfl, hk.2⟩
  | ok r s0 =>
    rw [hf] at hi hk
    obtain ⟨pfx, o, text, bytes⟩ := r
    simp only [Res.state] at hk
    refine Or.inr ⟨pfx, o, text, bytes, s0, ?_⟩
    obtain ⟨pos0, out0, err0, reads0⟩ := s0
    simp only [print_line, bind, M.bind, printf] at hi
    obtain ⟨t, ht⟩ := grows_print_operands inp size pfx o bytes
      ⟨pos0, out0 ++ (column text ++ " ") ++ (o.mnemonic.getD "(null)" ++ " "), err0, reads0⟩
    rw [hi] at ht
    simp only [Res.state] at ht
    simp only at hk
    exact ⟨t, rfl, hk.2, by rw [ht, hk.2]⟩

/-- C15: on the three-byte buffer 0x30, 0x11, 0x22 (`movb`, three 8-bit
operands, an instruction of 4 bytes) the hex dump passes, its `getb(3)` having
read the index 3 = `size`, the start of the line is printed, and `disass`
returns -1 from the loop over the operands: a bounds check has failed and a
part of the line of that instruction has been written. -/
theorem C15_partial_line_before_failure :
    spec_length 1 (opcodes 0 0x30) = 4 ∧
    fetch_dump (buffer [0x30, 0x11, 0x22] zeros) 3 State.init =
      .ok (0, opcodes 0 0x30, "00000000: 30002211", 4) ⟨0, "", [], [0, 0, 3, 2, 1]⟩ ∧
    disass (buffer [0x30, 0x11, 0x22] zeros) 3 =
      (.ret (-1), ⟨2, "00000000: 30002211         movb 0x11, , ",
        ["Invalid buffer access"], [0, 0, 3, 2, 1, 1, 2, 2, 3, 3]⟩) ∧
    ¬ ((disass (buffer [0x30, 0x11, 0x22] zeros) 3).1 = .ret (-1) →
      (disass (buffer [0x30, 0x11, 0x22] zeros) 3).2.out = "") := by
  refine ⟨by decide, rfl, by decide, by decide⟩

/-- C12: the field `z` is 4 bits wide and zero-extended, `b` is 4 bits wide,
and `jmp` (opcode 0x7a) takes `z b hhll`.  On 0x7a, 0xAB, 0xCD, 0xEF the reads
for `z` give `value[0] = 0xAB`, the whole byte, which is not below 16; the
cursor does not move after `z`, so `b` gets the same whole byte. -/
theorem C12_four_bit_field_gets_whole_byte :
    (opcodes 0 0x7a).operands = some zbhhll ∧
    zbhhll.elements = [op_z, op_b, op_hh, op_ll] ∧
    (op_z.bits = 4 ∧ op_z.zext = 1 ∧ op_b.bits = 4 ∧ op_b.sext = 0) ∧
    (extract (buffer [0x7a, 0xAB, 0xCD, 0xEF, 0x00] zeros) 5 1 op_z State.init).val? =
      some (4, [0xAB, 0xCD, 0, 0]) ∧
    (extract (buffer [0x7a, 0xAB, 0xCD, 0xEF, 0x00] zeros) 5 1 op_z State.init).state.pos
      = 0 ∧
    (extract (buffer [0x7a, 0xAB, 0xCD, 0xEF, 0x00] zeros) 5 1 op_b State.init).val? =
      some (4, [0xAB, 0xCD, 0, 0]) ∧
    ¬ (0xAB < 2 ^ 4) ∧
    (operand_loop (buffer [0x7a, 0xAB, 0xCD, 0xEF, 0x00] zeros) 5 (opcodes 0 0x7a) zbhhll
      1 4 0 State.init).state.reads = [1, 2, 1, 2, 1, 2, 2, 3] := by
  decide

/-- C13: `jmp` (opcode 0x7a) takes `z b hhll`, of widths 4, 4, 8, 8, so the
operands start at offsets 1, 1, 2, 3 of the instruction.  On 0x7a, 0xAB, 0xCD,
0xEF `disass` makes two reads per operand, at the indices 1, 2 for `z`, 1, 2
for `b`, 1, 2 for `hh` and 2, 3 for `ll`: the first byte read for `hh` is at
offset 1 and the one for `ll` at offset 2, since a 4-bit field moves the cursor
by no byte. -/
theorem C13_zbhhll_operand_offsets :
    (opcodes 0 0x7a).operands = some zbhhll ∧
    zbhhll.elements.map operand.bits = [4, 4, 8, 8] ∧
    (List.range 4).map (spec_operand_offset 1 zbhhll) = [1, 1, 2, 3] ∧
    (operand_loop (buffer [0x7a, 0xAB, 0xCD, 0xEF, 0x00] zeros) 5 (opcodes 0 0x7a) zbhhll
      1 4 0 State.init).state.reads = [1, 2, 1, 2, 1, 2, 2, 3] ∧
    disass (buffer [0x7a, 0xAB, 0xCD, 0xEF, 0x00] zeros) 5 =
      (.ret 0, ⟨3, "00000000: 7aefcdab         jmp , , , \n\n", [],
        [0, 0, 3, 2, 1, 1, 2, 1, 2, 1, 2, 2, 3]⟩) := by
  decide

/-- C14: for the 8-bit operand `ff` of `com` (opcode 0x00) on 0x00, 0xAB, 0xCD
the reads for the operand are at the indices 1 and 2, two bytes where the field
covers one: `value[1] = getb(bytes+1)` is read whatever the width.  For the
16-bit operand `gggg` the reads are three, of two bytes. -/
theorem C14_byte_operand_reads_two_bytes :
    op_ff.bits = 8 ∧ (op_ff.bits + 7) / 8 = 1 ∧
    (extract (buffer [0x00, 0xAB, 0xCD] zeros) 3 1 op_ff State.init).state.reads = [1, 2] ∧
    (extract (buffer [0x17, 0x00, 0x12, 0x34] zeros) 4 2 op_gggg State.init).state.reads =
      [2, 3, 3] ∧
    disass (buffer [0x00, 0xAB, 0xCD] zeros) 3 =
      (.ret 0, ⟨2, "00000000: 00ab             com [%x]+0xab\n\n", [], [0, 0, 1, 1, 2]⟩) := by
  decide

/-- C16: the table entries of the known vectors.  `opcodes[0][0x00]` is `com`
with mode `ind8x`, labelled X, and the one 8-bit operand `ff`; `opcodes[1][0x00]`
is `com` with mode `ind16x` and the one 16-bit operand `gggg`;
`opcodes[0][0x07]` is "unrecognized" with the one 8-bit operand `ii`; and on a
stream that begins 0x17, 0x00, 0x12, 0x34 page 1, opcode 0x00 is resolved and
the operand bytes read are 0x12 into `value[0]` and 0x34 into `value[1]`. -/
theorem C16_known_vectors :
    (opcodes 0 0x00 = op.mk 0x00 (some "com") .ind8x (some ff) ∧
      ff.num = 1 ∧ ff.elements.map operand.bits = [8] ∧
      modenames.getD mode.ind8x.toNat none = some "X" ∧ marker .ind8x = "[%x]+") ∧
    (opcodes 1 0x00 = op.mk 0x00 (some "com") .ind16x (some gggg) ∧
      gggg.num = 1 ∧ gggg.elements.map operand.bits = [16]) ∧
    (opcodes 0 0x07 = op.mk 0x07 (some "unrecognized") .PAGE0 (some ii) ∧
      ii.num = 1 ∧ ii.elements.map operand.bits = [8]) ∧
    (resolve (buffer [0x17, 0x00, 0x12, 0x34] zeros) 4 State.init).val? =
      some (0x17, 0x00, opcodes 1 0x00, 2) ∧
    (extract (buffer [0x17, 0x00, 0x12, 0x34] zeros) 4 2 op_gggg State.init).val? =
      some (8, [0x12, 0x34, 0, 0]) := by
  decide

/-- C17: every operand field of the program is 1 to 32 bits wide and has at
most one of `sext` and `zext` set; every operand list has 1 to 4 fields, `num`
of them, each one of the sixteen operand fields; and every one of the 4 x 256
table entries has a mode of value 0 to 25, an operand list (if any) that is one
of the twenty lists, and operand widths whose sum, which the loop of `disass`
computes, is at most 40. -/
theorem C17_table_invariants :
    (∀ e ∈ all_operand_objects, 1 ≤ e.bits ∧ e.bits ≤ 32 ∧ ¬ (e.sext ≠ 0 ∧ e.zext ≠ 0)) ∧
    (∀ l ∈ all_operand_lists, 1 ≤ l.num ∧ l.num ≤ 4 ∧ l.num = l.elements.length ∧
      ∀ e ∈ l.elements, e ∈ all_operand_objects) ∧
    (∀ page < 4, ∀ b < 256,
      spec_operand_bits (opcodes page b) ≤ 40 ∧
      (total_bits (opcodes page b) State.init).val? = some (spec_operand_bits (opcodes page b)) ∧
      (opcodes page b).mode.toNat ≤ 25 ∧
      ∀ l ∈ (opcodes page b).operands, l ∈ all_operand_lists) := by
  refine ⟨by decide, by decide, ?_⟩
  decide

/-- C17 at `opcodes[0][0x7a]`, whose operand widths sum to 24. -/
theorem C17_table_invariants_witness :
    (0 < 4 ∧ 0x7a < 256) ∧
    (spec_operand_bits (opcodes 0 0x7a) ≤ 40 ∧
      (total_bits (opcodes 0 0x7a) State.init).val? = some (spec_operand_bits (opcodes 0 0x7a)) ∧
      (opcodes 0 0x7a).mode.toNat ≤ 25 ∧
      ∀ l ∈ (opcodes 0 0x7a).operands, l ∈ all_operand_lists) :=
  ⟨⟨by decide, by decide⟩, C17_table_invariants.2.2 0 (by decide) 0x7a (by decide)⟩

/-! ## What an iteration resolves -/

/-- The value of `resolve`, for every buffer and state. -/
theorem resolve_val (inp : Nat → Nat) (size : Nat) (s : State) :
    (resolve inp size s).val? =
      if s.pos + spec_header_length (inp s.pos % 256) ≤ size + 1 then
        if inp s.pos % 256 = 0x17 ∨ inp s.pos % 256 = 0x27 ∨ inp s.pos % 256 = 0x37 then
          some (inp s.pos % 256, inp (s.pos + 1) % 256,
            opcodes (spec_page (inp s.pos % 256)) (inp (s.pos + 1) % 256), 2)
        else
          some (0, inp s.pos % 256, opcodes 0 (inp s.pos % 256), 1)
      else none := by
  have m1 : (1 : Nat) &&& 3 = 1 := by decide
  have m2 : (2 : Nat) &&& 3 = 2 := by decide
  have m3 : (3 : Nat) &&& 3 = 3 := by decide
  simp only [resolve, bind, M.bind, getPos, readb, pure, M.pure, spec_header_length, spec_page]
  by_cases h : inp s.pos % 256 = 0x17 ∨ inp s.pos % 256 = 0x27 ∨ inp s.pos % 256 = 0x37
  · simp only [h, if_true, M.bind, M.pure, getb_eq, Nat.add_zero]
    by_cases h1 : s.pos + 2 ≤ size + 1
    · have a0 : s.pos ≤ size := by omega
      have a1 : s.pos + 1 ≤ size := by omega
      simp only [a0, a1, h1, if_true]
      rcases h with h | h | h <;> simp [h, Res.val?, m1, m2, m3]
    · have a1 : ¬ s.pos + 1 ≤ size := by omega
      simp only [a1, h1, if_false]
      by_cases a0 : s.pos ≤ size <;> simp [a0, a1, Res.val?]
  · simp only [h, if_false, M.bind, M.pure, getb_eq, Nat.add_zero]
    have e : s.pos + 1 ≤ size + 1 ↔ s.pos ≤ size := by omega
    by_cases a0 : s.pos ≤ size
    · simp [a0, Res.val?]
    · simp [a0, Res.val?]

/-- The two ways `resolve` goes on: with a prebyte and the opcode after it, or
with an opcode that is no prebyte. -/
theorem resolve_cases {inp : Nat → Nat} {size : Nat} {s : State} {pfx opcode : Nat} {o : op}
    {bytes : Nat} (h : (resolve inp size s).val? = some (pfx, opcode, o, bytes)) :
    opcode < 256 ∧
    ((pfx = 0x17 ∨ pfx = 0x27 ∨ pfx = 0x37) ∧ o = opcodes (spec_page pfx) opcode ∧
        bytes = 2 ∨
      (opcode ≠ 0x17 ∧ opcode ≠ 0x27 ∧ opcode ≠ 0x37) ∧ pfx = 0 ∧ o = opcodes 0 opcode ∧
        bytes = 1) := by
  rw [resolve_val] at h
  split at h
  · split at h
    · rename_i hp
      simp only [Option.some.injEq, Prod.mk.injEq] at h
      obtain ⟨rfl, rfl, rfl, rfl⟩ := h
      exact ⟨Nat.mod_lt _ (by decide), Or.inl ⟨hp, rfl, rfl⟩⟩
    · rename_i hp
      simp only [Option.some.injEq, Prod.mk.injEq] at h
      obtain ⟨rfl, rfl, rfl, rfl⟩ := h
      refine ⟨Nat.mod_lt _ (by decide), Or.inr ⟨?_, rfl, rfl, rfl⟩⟩
      exact ⟨fun e => hp (Or.inl e), fun e => hp (Or.inr (Or.inl e)),
        fun e => hp (Or.inr (Or.inr e))⟩
  · exact absurd h (by simp)

/-- The descriptor that `fetch_dump` yields is the one `resolve` yields. -/
theorem fetch_dump_resolve {inp : Nat → Nat} {size : Nat} {s s1 : State} {pfx : Nat} {o : op}
    {text : String} {bytes : Nat} (h : fetch_dump inp size s = .ok (pfx, o, text, bytes) s1) :
    ∃ opcode bytes0, (resolve inp size s).val? = some (pfx, opcode, o, bytes0) := by
  obtain ⟨pos, out, err, reads⟩ := s
  simp only [fetch_dump, bind, M.bind, getPos, pure, M.pure] at h
  cases hr : resolve inp size ⟨pos, out, err, reads⟩ with
  | halt e s2 =>
    rw [hr] at h
    exact absurd h (by simp)
  | ok r s2 =>
    rw [hr] at h
    obtain ⟨pfx0, opcode, o0, bytes0⟩ := r
    simp only at h
    cases ht : total_bits o0 s2 with
    | halt e s3 =>
      rw [ht] at h
      exact absurd h (by simp)
    | ok bits s3 =>
      rw [ht] at h
      simp only at h
      split at h
      · rename_i r3 s4 hd
        obtain ⟨text3, bytes3⟩ := r3
        simp only [Res.ok.injEq, Prod.mk.injEq] at h
        obtain ⟨⟨rfl, rfl, _, _⟩, _⟩ := h
        exact ⟨opcode, bytes0, rfl⟩
      · exact absurd h (by simp)

/-- Every page-0 entry other than the three prebytes has an operand list whose
widths sum to at least 8 bits. -/
theorem page0_has_operand_byte :
    ∀ b < 256, (b = 0x17 ∨ b = 0x27 ∨ b = 0x37) ∨
      ((opcodes 0 b).operands ≠ none ∧ 8 ≤ spec_operand_bits (opcodes 0 b)) := by
  decide

/-- No entry of the table other than the three page-0 prebyte entries is named
PREBYTE. -/
theorem prebyte_only_on_page0 :
    ∀ page < 4, ∀ b < 256, (page = 0 → b ≠ 0x17 ∧ b ≠ 0x27 ∧ b ≠ 0x37) →
      (opcodes page b).mnemonic ≠ some "PREBYTE" := by
  decide

/-- C18: every page-0 entry other than the prebytes 0x17, 0x27, 0x37 has an
operand list whose widths sum to at least 8 bits, and whatever descriptor an
iteration of `disass` resolves, with header length `bytes` (1 without prebyte, 2
with one), its encoded length `bytes + ceil(bits / 8)` is at least 2. -/
theorem C18_minimum_instruction_size :
    (∀ b < 256, b ≠ 0x17 → b ≠ 0x27 → b ≠ 0x37 →
      (opcodes 0 b).operands ≠ none ∧ 8 ≤ spec_operand_bits (opcodes 0 b) ∧
      2 ≤ spec_length 1 (opcodes 0 b)) ∧
    (∀ (inp : Nat → Nat) (size : Nat) (s : State) (pfx opcode : Nat) (o : op) (bytes : Nat),
      (resolve inp size s).val? = some (pfx, opcode, o, bytes) →
      bytes = (if pfx ≠ 0 then 2 else 1) ∧ 2 ≤ spec_length bytes o) := by
  have key : ∀ b < 256, b ≠ 0x17 → b ≠ 0x27 → b ≠ 0x37 →
      (opcodes 0 b).operands ≠ none ∧ 8 ≤ spec_operand_bits (opcodes 0 b) ∧
      2 ≤ spec_length 1 (opcodes 0 b) := by
    intro b hb h1 h2 h3
    rcases page0_has_operand_byte b hb with hp | ⟨ha, hw⟩
    · rcases hp with e | e | e
      · exact absurd e h1
      · exact absurd e h2
      · exact absurd e h3
    refine ⟨ha, hw, ?_⟩
    unfold spec_length
    omega
  refine ⟨key, ?_⟩
  intro inp size s pfx opcode o bytes h
  obtain ⟨hlt, hc⟩ := resolve_cases h
  rcases hc with ⟨hp, _, rfl⟩ | ⟨⟨h1, h2, h3⟩, rfl, rfl, rfl⟩
  · refine ⟨?_, ?_⟩
    · rcases hp with rfl | rfl | rfl <;> rfl
    · unfold spec_length
      omega
  · exact ⟨rfl, (key opcode hlt h1 h2 h3).2.2⟩

/-- C18 at `opcodes[0][0x00]` and at the first iteration on 0x17, 0x00, 0x12,
0x34. -/
theorem C18_minimum_instruction_size_witness :
    ((0x00 < 256 ∧ 0x00 ≠ 0x17 ∧ 0x00 ≠ 0x27 ∧ 0x00 ≠ 0x37) ∧
      (opcodes 0 0x00).operands ≠ none ∧ 8 ≤ spec_operand_bits (opcodes 0 0x00) ∧
      2 ≤ spec_length 1 (opcodes 0 0x00)) ∧
    ((resolve (buffer [0x17, 0x00, 0x12, 0x34] zeros) 4 State.init).val? =
        some (0x17, 0x00, opcodes 1 0x00, 2) ∧
      (2 = (if 0x17 ≠ 0 then 2 else 1) ∧ 2 ≤ spec_length 2 (opcodes 1 0x00))) :=
  ⟨⟨⟨by decide, by decide, by decide, by decide⟩,
      C18_minimum_instruction_size.1 0x00 (by decide) (by decide) (by decide) (by decide)⟩,
    ⟨by decide,
      C18_minimum_instruction_size.2 (buffer [0x17, 0x00, 0x12, 0x34] zeros) 4 State.init
        0x17 0x00 (opcodes 1 0x00) 2 (by decide)⟩⟩

/-- C19: whatever the buffer and the cursor, the descriptor that an iteration
of `disass` resolves is none of the three page-0 PREBYTE entries and is not
named PREBYTE; the same holds of the descriptor whose mnemonic the iteration
prints, which is the resolved one. -/
theorem C19_prebyte_never_resolved (inp : Nat → Nat) (size : Nat) (s : State) :
    (∀ (pfx opcode : Nat) (o : op) (bytes : Nat),
      (resolve inp size s).val? = some (pfx, opcode, o, bytes) →
      o.mnemonic ≠ some "PREBYTE" ∧
      o ≠ opcodes 0 0x17 ∧ o ≠ opcodes 0 0x27 ∧ o ≠ opcodes 0 0x37) ∧
    (∀ (pfx : Nat) (o : op) (text : String) (bytes : Nat) (s1 : State),
      fetch_dump inp size s = .ok (pfx, o, text, bytes) s1 →
      o.mnemonic ≠ some "PREBYTE") := by
  have key : ∀ (pfx opcode : Nat) (o : op) (bytes : Nat),
      (resolve inp size s).val? = some (pfx, opcode, o, bytes) →
      o.mnemonic ≠ some "PREBYTE" := by
    intro pfx opcode o bytes h
    obtain ⟨hlt, hc⟩ := resolve_cases h
    rcases hc with ⟨hp, rfl, _⟩ | ⟨hn, _, rfl, _⟩
    · rcases hp with rfl | rfl | rfl
      · exact prebyte_only_on_page0 1 (by decide) opcode hlt
          (fun e => absurd e (by decide))
      · exact prebyte_only_on_page0 2 (by decide) opcode hlt
          (fun e => absurd e (by decide))
      · exact prebyte_only_on_page0 3 (by decide) opcode hlt
          (fun e => absurd e (by decide))
    · exact prebyte_only_on_page0 0 (by decide) opcode hlt (fun _ => hn)
  constructor
  · intro pfx opcode o bytes h
    have hm := key pfx opcode o bytes h
    refine ⟨hm, ?_, ?_, ?_⟩ <;>
    · intro e
      rw [e] at hm
      exact hm (by decide)
  · intro pfx o text bytes s1 h
    obtain ⟨opcode, bytes0, hr⟩ := fetch_dump_resolve h
    exact key pfx opcode o bytes0 hr

/-- C19 at the first iteration on 0x17, 0x17, 0x12, 0x34, where the byte after
the prebyte is 0x17 again: the entry resolved is `opcodes[1][0x17]`. -/
theorem C19_prebyte_never_resolved_witness :
    (resolve (buffer [0x17, 0x17, 0x12, 0x34] zeros) 4 State.init).val? =
      some (0x17, 0x17, opcodes 1 0x17, 2) ∧
    ((opcodes 1 0x17).mnemonic ≠ some "PREBYTE" ∧
      opcodes 1 0x17 ≠ opcodes 0 0x17 ∧ opcodes 1 0x17 ≠ opcodes 0 0x27 ∧
      opcodes 1 0x17 ≠ opcodes 0 0x37) :=
  ⟨by decide,
    (C19_prebyte_never_resolved (buffer [0x17, 0x17, 0x12, 0x34] zeros) 4 State.init).1
      0x17 0x17 (opcodes 1 0x17) 2 (by decide)⟩

/-- C20: for the 16-bit operand `gggg` with the bytes 0x12, 0x34,
`print_operand` writes `0x00120034`: each byte goes through `%04hx`, so the
text has 8 digits after `0x` where the width of the field asks for 4. -/
theorem C20_gggg_prints_eight_digits :
    op_gggg.bits = 16 ∧ 2 * ((op_gggg.bits + 7) / 8) = 4 ∧
    (print_operand op_gggg .ind16x [0x12, 0x34, 0, 0] State.init).state.out = "0x00120034" ∧
    ("0x00120034").length = 2 + 8 ∧
    (disass (buffer [0x17, 0x00, 0x12, 0x34] zeros) 4).2.out =
      "00000000: 17001200         com [%x]+0x00120034\n\n" := by
  decide

/-! ## Rendering, the command line and the dependence on the buffer -/

/-- C21: the switch on the mode prints a marker for `ind8x/y/z` and
`ind16x/y/z` only.  `jmp` (opcode 0x4b) has the indexed mode `ind20x`, for
which the marker is the empty text: on 0x4b, 0x01, ... nothing is written
between the mnemonic and the operand. -/
theorem C21_no_marker_for_ind20 :
    (marker .ind20x = "" ∧ marker .ind20y = "" ∧ marker .ind20z = "") ∧
    (marker .ind8x = "[%x]+" ∧ marker .ind16x = "[%x]+") ∧
    (opcodes 0 0x4b = op.mk 0x4b (some "jmp") .ind20x (some zggggg) ∧
      modenames.getD mode.ind20x.toNat none = some "X") ∧
    (operand_loop (buffer [0x4b, 0x01, 0x02, 0x03, 0x04, 0x05] zeros) 6 (opcodes 0 0x4b)
      zggggg 1 2 0 State.init).state.out = "" ∧
    (disass (buffer [0x4b, 0x01, 0x02, 0x03, 0x04, 0x05] zeros) 6).2.out =
      "00000000: 4b030201         jmp " := by
  decide

/-- C22: the hex-dump loop appends `getb(i)` for `i` from the number of
operand bytes down to 1, offsets counted from the cursor.  The stream 0x17,
0x00, 0x12, 0x34 is dumped as `17001200` (the opcode a second time, the last
operand byte never), and the unprefixed 0x30, 0x11, 0x22, 0x33 as `30332211`
(the operand bytes in reverse order). -/
theorem C22_hex_column_not_in_stream_order :
    (fetch_dump (buffer [0x17, 0x00, 0x12, 0x34] zeros) 4 State.init).val?.map
        (fun r => r.2.2.1) = some "00000000: 17001200" ∧
    spec_length 2 (opcodes 1 0x00) = 4 ∧
    (fetch_dump (buffer [0x30, 0x11, 0x22, 0x33, 0x00] zeros) 5 State.init).val?.map
        (fun r => r.2.2.1) = some "00000000: 30332211" ∧
    spec_length 1 (opcodes 0 0x30) = 4 ∧
    (fetch_dump (buffer [0x30, 0x11, 0x22, 0x33, 0x00] zeros) 5 State.init).state.reads =
      [0, 0, 3, 2, 1] := by
  decide

/-- C23: `usage` ends the process with status 1 whatever its argument: for the
help flags `main` calls `usage(0)`, which writes the usage line to standard
output and exits with status 1. -/
theorem C23_usage_always_exits_one (process_file : String → Option Nat) :
    usage 0 = ⟨"usage: hc16 <INFILE>\n", "", 1⟩ ∧
    usage 1 = ⟨"", "usage: hc16 <INFILE>\n", 1⟩ ∧
    main process_file ["hc16dis", "--help"] = usage 0 ∧
    (main process_file ["hc16dis", "--help"]).status = 1 ∧
    (main process_file ["hc16dis", "-h"]).status = 1 ∧
    (main process_file ["hc16dis", "-?"]).status = 1 ∧
    (main process_file ["hc16dis", "--usage"]).status = 1 ∧
    main process_file ["hc16dis"] = usage 1 := by
  refine ⟨rfl, rfl, rfl, rfl, rfl, rfl, rfl, rfl⟩

/-- C24: for a file of 4 bytes `process_file` allocates 4 bytes, so the index
4 = `size` lies past the allocation.  The memories `0x27, 0x00, 0x12, 0x34 |
0x00 ...` and `0x27, 0x00, 0x12, 0x34 | 0x56 ...` agree on the indices 0..3 of
a buffer of size 4 and differ at index 4; `disass` reads index 4 in the hex
dump and prints the column `270000341200` on the one and `270056341200` on the
other.  The same holds at the end of a file of 8 bytes, where index 8 is read. -/
theorem C24_output_depends_on_byte_past_the_end :
    (bufsize 4 = 4 ∧ bufsize 8 = 8) ∧
    (∀ i < 4, buffer [0x27, 0x00, 0x12, 0x34] zeros i =
      buffer [0x27, 0x00, 0x12, 0x34] (fun _ => 0x56) i) ∧
    disass (buffer [0x27, 0x00, 0x12, 0x34] zeros) 4 =
      (.ret (-1), ⟨2, "00000000: 270000341200     comw [%x]+0x00120034, ",
        ["Invalid buffer access"], [0, 0, 1, 4, 3, 2, 1, 2, 3, 3, 4]⟩) ∧
    disass (buffer [0x27, 0x00, 0x12, 0x34] (fun _ => 0x56)) 4 =
      (.ret (-1), ⟨2, "00000000: 270056341200     comw [%x]+0x00120034, ",
        ["Invalid buffer access"], [0, 0, 1, 4, 3, 2, 1, 2, 3, 3, 4]⟩) ∧
    disass (buffer [0x27, 0x00, 0x12, 0x34] zeros) 4 ≠
      disass (buffer [0x27, 0x00, 0x12, 0x34] (fun _ => 0x56)) 4 ∧
    (∀ i < 8, buffer [0x00, 0xAB, 0x00, 0xCD, 0x27, 0x00, 0x12, 0x34] zeros i =
      buffer [0x00, 0xAB, 0x00, 0xCD, 0x27, 0x00, 0x12, 0x34] (fun _ => 0x56) i) ∧
    (disass (buffer [0x00, 0xAB, 0x00, 0xCD, 0x27, 0x00, 0x12, 0x34] zeros) 8).2.out =
      "00000000: 00ab             com [%x]+0xab\n\n" ++
      "00000002: 00cd             com [%x]+0xcd\n\n" ++
      "00000004: 270000341200     comw [%x]+0x00120034, " ∧
    (disass (buffer [0x00, 0xAB, 0x00, 0xCD, 0x27, 0x00, 0x12, 0x34]
        (fun _ => 0x56)) 8).2.out =
      "00000000: 00ab             com [%x]+0xab\n\n" ++
      "00000002: 00cd             com [%x]+0xcd\n\n" ++
      "00000004: 270056341200     comw [%x]+0x00120034, " ∧
    8 ∈ (disass (buffer [0x00, 0xAB, 0x00, 0xCD, 0x27, 0x00, 0x12, 0x34] zeros) 8).2.reads := by
  decide

/-- C25: `modenames` has 26 entries, one for each value of `mode`, none of them
null, and the nine indexed modes are labelled X, Y, Z after their index
register. -/
theorem C25_every_mode_has_a_label :
    modenames.length = 26 ∧
    (∀ m : mode, m.toNat < 26 ∧ ∃ label, modenames.getD m.toNat none = some label) ∧
    (∀ m : mode, m = .ind8x ∨ m = .ind16x ∨ m = .ind20x →
      modenames.getD m.toNat none = some "X") ∧
    (∀ m : mode, m = .ind8y ∨ m = .ind16y ∨ m = .ind20y →
      modenames.getD m.toNat none = some "Y") ∧
    (∀ m : mode, m = .ind8z ∨ m = .ind16z ∨ m = .ind20z →
      modenames.getD m.toNat none = some "Z") := by
  refine ⟨by decide, ?_, ?_, ?_, ?_⟩
  · intro m
    cases m <;> exact ⟨by decide, _, rfl⟩
  · rintro m (rfl | rfl | rfl) <;> rfl
  · rintro m (rfl | rfl | rfl) <;> rfl
  · rintro m (rfl | rfl | rfl) <;> rfl

/-- C25 at the mode `ind20x`. -/
theorem C25_every_mode_has_a_label_witness :
    (mode.ind20x = .ind8x ∨ mode.ind20x = .ind16x ∨ mode.ind20x = .ind20x) ∧
    modenames.getD mode.ind20x.toNat none = some "X" :=
  ⟨by decide, C25_every_mode_has_a_label.2.2.1 .ind20x (by decide)⟩

/-- C26: `jmp` (opcode 0x4b) takes `zg gggg`.  On 0x4b, 0x01, 0x02, 0x03, 0x04,
0x05 no check of `getb` fails, and the iteration moves the cursor by nothing:
`print_operand` has no branch for `zg` and ends the process with status 6
before any `pos += 1`, where 1 + 0 + 2 = 3 bytes are the move described. -/
theorem C26_zg_operand_stops_before_the_cursor_moves :
    (opcodes 0 0x4b).operands = some zggggg ∧
    floor_advance 0 (opcodes 0 0x4b) = 3 ∧
    cursor_advance 0 (opcodes 0 0x4b) = none ∧
    disass (buffer [0x4b, 0x01, 0x02, 0x03, 0x04, 0x05] zeros) 6 =
      (.exit 6, ⟨0, "00000000: 4b030201         jmp ", ["Unknown operand"],
        [0, 0, 3, 2, 1, 1, 2]⟩) := by
  decide

/-- C28: on 0x5b, 0x01, 0x02, 0x03, 0x04, 0x05 (`jmp` with `zg gggg`) the one
iteration of `disass` neither returns -1 nor moves the cursor: it ends the
process with status 6 from `print_operand`, the cursor still at 0. -/
theorem C28_iteration_may_exit_with_status_six :
    (opcodes 0 0x5b).operands = some zggggg ∧
    iteration (buffer [0x5b, 0x01, 0x02, 0x03, 0x04, 0x05] zeros) 6 State.init =
      .halt (.exit 6) ⟨0, "00000000: 5b030201         jmp ", ["Unknown operand"],
        [0, 0, 3, 2, 1, 1, 2]⟩ ∧
    (disass (buffer [0x5b, 0x01, 0x02, 0x03, 0x04, 0x05] zeros) 6).1 = .exit 6 ∧
    (disass (buffer [0x5b, 0x01, 0x02, 0x03, 0x04, 0x05] zeros) 6).2.pos = 0 := by
  refine ⟨by decide, rfl, by decide, by decide⟩

/-- C29: the operand `zg` occurs in the list `zg gggg` of six page-0 entries
(0x4b, 0x5b, 0x6b, 0x89, 0x99, 0xa9), and `print_operand` has no branch for it:
it warns of an unknown operand and ends the process with status 6, as the run
of `disass` on 0x6b, 0x01, ... does. -/
theorem C29_zg_is_an_unknown_operand :
    zggggg.elements = [op_zg, op_gggg] ∧
    (List.range 256).filter (fun b => decide ((opcodes 0 b).operands = some zggggg)) =
      [0x4b, 0x5b, 0x6b, 0x89, 0x99, 0xa9] ∧
    (print_operand op_zg .ind20z [0x01, 0x02, 0, 0] State.init).val? = none ∧
    (print_operand op_zg .ind20z [0x01, 0x02, 0, 0] State.init).state.err =
      ["Unknown operand"] ∧
    disass (buffer [0x6b, 0x01, 0x02, 0x03, 0x04, 0x05] zeros) 6 =
      (.exit 6, ⟨0, "00000000: 6b030201         jmp ", ["Unknown operand"],
        [0, 0, 3, 2, 1, 1, 2]⟩) := by
  decide

/-- C30: `getb` never rejects an access inside the buffer.  When `pos + p <
size` the check of `getb(p)` passes, the index `pos + p` is read, and the value
is the byte `in[pos + p]` (as an unsigned 8-bit value). -/
theorem C30_getb_accepts_in_range (inp : Nat → Nat) (size p : Nat) (s : State)
    (h : s.pos + p < size) :
    getb inp size p s =
      .ok (inp (s.pos + p) % 256) ⟨s.pos, s.out, s.err, s.reads ++ [s.pos + p]⟩ ∧
    (inp (s.pos + p) < 256 → (getb inp size p s).val? = some (inp (s.pos + p))) := by
  have e : getb inp size p s =
      .ok (inp (s.pos + p) % 256) ⟨s.pos, s.out, s.err, s.reads ++ [s.pos + p]⟩ := by
    rw [getb_eq, if_pos (Nat.le_of_lt h)]
  refine ⟨e, fun hb => ?_⟩
  rw [e, Res.val?, Nat.mod_eq_of_lt hb]

/-- C30 on the buffer 0x00, 0xAB, 0xCD at the cursor 0 with `p = 2`. -/
theorem C30_getb_accepts_in_range_witness :
    State.init.pos + 2 < 3 ∧
    (getb (buffer [0x00, 0xAB, 0xCD] zeros) 3 2 State.init =
      .ok (buffer [0x00, 0xAB, 0xCD] zeros (State.init.pos + 2) % 256)
        ⟨State.init.pos, State.init.out, State.init.err,
          State.init.reads ++ [State.init.pos + 2]⟩ ∧
     (buffer [0x00, 0xAB, 0xCD] zeros (State.init.pos + 2) < 256 →
      (getb (buffer [0x00, 0xAB, 0xCD] zeros) 3 2 State.init).val? =
        some (buffer [0x00, 0xAB, 0xCD] zeros (State.init.pos + 2)))) :=
  ⟨by decide, C30_getb_accepts_in_range (buffer [0x00, 0xAB, 0xCD] zeros) 3 2 State.init
    (by decide)⟩

/-! ## The move of the cursor in one iteration -/

/-- A sequence that goes on went on in both of its parts. -/
theorem bind_ok {α β : Type} {m : M α} {f : α → M β} {s s1 : State} {b : β}
    (h : M.bind m f s = .ok b s1) : ∃ a s0, m s = .ok a s0 ∧ f a s0 = .ok b s1 := by
  unfold M.bind at h
  cases hm : m s with
  | halt e s0 =>
    rw [hm] at h
    exact absurd h (by simp)
  | ok a s0 =>
    rw [hm] at h
    exact ⟨a, s0, rfl, h⟩

theorem still_of_keeps {α : Type} {m : M α} (hm : m.keeps) : m.still :=
  fun s => (hm s).1

theorem still_bind {α β : Type} {m : M α} {f : α → M β} (hm : m.still)
    (hf : ∀ a, (f a).still) : (M.bind m f).still := by
  intro s
  have h1 := hm s
  unfold M.bind
  cases h : m s with
  | halt e s1 =>
    rw [h] at h1
    exact h1
  | ok a s1 =>
    rw [h] at h1
    have h2 := hf a s1
    simp only [Res.state] at h1
    simp only []
    exact h2.trans h1

theorem still_printf (t : String) : (printf t).still :=
  fun ⟨_, _, _, _⟩ => rfl

theorem still_ite {α : Type} (c : Prop) [Decidable c] {a b : M α} (ha : a.still)
    (hb : b.still) : (if c then a else b).still := by
  split
  · exact ha
  · exact hb

theorem still_print_operand (arg : operand) (m : mode) (value : List Nat) :
    (print_operand arg m value).still := by
  unfold print_operand
  repeat' first
    | exact still_of_keeps (keeps_pure _)
    | exact still_printf _
    | exact still_bind (still_of_keeps (keeps_warnx _)) (fun _ => still_of_keeps (keeps_halt _))
    | refine still_ite _ ?_ ?_

/-- Where a piece that leaves the cursor alone goes on, the cursor is where it
was. -/
theorem still_ok {α : Type} {m : M α} (hm : m.still) {s s1 : State} {a : α}
    (h : m s = .ok a s1) : s1.pos = s.pos := by
  have := hm s
  rw [h] at this
  exact this

/-- A passing `getb(p)` found `pos + p ≤ size`. -/
theorem getb_ok_le {inp : Nat → Nat} {size p v : Nat} {s s1 : State}
    (h : getb inp size p s = .ok v s1) : s.pos + p ≤ size := by
  rw [getb_eq] at h
  split at h
  · assumption
  · exact absurd h (by simp)

/-- The loop `while (localbits > 8)` moves the cursor by the number of bytes
that `localbits` exceeds a byte by. -/
theorem advance_loop_pos (n : Nat) :
    ∀ (localbits : Nat) (s s1 : State) (r : Nat),
      advance_loop n localbits s = .ok r s1 →
      s.pos + (localbits - 1) / 8 < 2 ^ 64 →
      s1.pos = s.pos + (localbits - 1) / 8 := by
  induction n with
  | zero =>
    intro localbits s s1 r h _
    unfold advance_loop at h
    split at h
    · exact absurd h (by simp [halt])
    · simp only [pure, M.pure, Res.ok.injEq] at h
      obtain ⟨_, rfl⟩ := h
      omega
  | succ n ih =>
    intro localbits s s1 r h hw
    unfold advance_loop at h
    split at h
    · rename_i hgt
      obtain ⟨_, s0, h0, h1⟩ := bind_ok h
      obtain ⟨pos, out, err, reads⟩ := s
      simp only [addPos, Res.ok.injEq] at h0
      obtain ⟨_, rfl⟩ := h0
      simp only at hw
      have hu : u64 (pos + 1) = pos + 1 := Nat.mod_eq_of_lt (by omega)
      have := ih (localbits - 8) _ s1 r h1 (by simp only [hu]; omega)
      simp only [hu] at this
      simp only
      omega
    · simp only [pure, M.pure, Res.ok.injEq] at h
      obtain ⟨_, rfl⟩ := h
      omega

/-- The value of `localbits` after the loop that fills `value`, for a field of
at most 8 bits and for a field of 16 bits. -/
theorem value_loop_localbits {inp : Nat → Nat} {size bytes w lb : Nat}
    {value val : List Nat} {s s1 : State}
    (h : value_loop inp size bytes 3 1 w value s = .ok (lb, val) s1) :
    (w ≤ 8 → lb = w) ∧ (w = 16 → lb = 8) := by
  constructor
  · intro hw
    unfold value_loop at h
    rw [if_neg (by omega)] at h
    simp only [pure, M.pure, Res.ok.injEq, Prod.mk.injEq] at h
    exact h.1.1.symm
  · intro hw
    subst hw
    unfold value_loop at h
    rw [if_pos (by decide)] at h
    obtain ⟨b, s0, _, h1⟩ := bind_ok h
    unfold value_loop at h1
    simp only [ge_iff_le, show (8 : Nat) ≤ 16 from by decide, if_true,
      show ¬ (16 - 8 > 8) from by decide, if_false, pure, M.pure, Res.ok.injEq,
      Prod.mk.injEq] at h1
    exact h1.1.1.symm

/-- The reads for one operand of 4, 8 or 16 bits leave the cursor alone, need
`pos + bytes + 1 ≤ size`, and leave `localbits` such that the loop `while
(localbits > 8)` then moves the cursor by the width divided by 8. -/
theorem extract_ok {inp : Nat → Nat} {size bytes lb : Nat} {e : operand} {val : List Nat}
    {s s1 : State} (h : extract inp size bytes e s = .ok (lb, val) s1)
    (hb : e.bits = 4 ∨ e.bits = 8 ∨ e.bits = 16) :
    s1.pos = s.pos ∧ s.pos + bytes + 1 ≤ size ∧ (lb + e.bits - 1) / 8 = e.bits / 8 := by
  have hp := still_ok (still_of_keeps (keeps_extract inp size bytes e)) h
  simp only [extract, bind] at h
  obtain ⟨v0, s0, h0, h⟩ := bind_ok h
  obtain ⟨r, s2, h2, h⟩ := bind_ok h
  obtain ⟨lb0, val0⟩ := r
  simp only at h
  obtain ⟨v1, s3, h3, h⟩ := bind_ok h
  simp only [pure, M.pure, Res.ok.injEq, Prod.mk.injEq] at h
  obtain ⟨⟨rfl, _⟩, _⟩ := h
  have p0 := still_ok (still_of_keeps (keeps_getb inp size bytes)) h0
  have p2 := still_ok (still_of_keeps (keeps_value_loop inp size bytes 3 1 e.bits _)) h2
  have hle := getb_ok_le h3
  obtain ⟨l1, l2⟩ := value_loop_localbits h2
  refine ⟨hp, by omega, ?_⟩
  rcases hb with hb | hb | hb
  · have := l1 (by omega)
    omega
  · have := l1 (by omega)
    omega
  · have := l2 hb
    omega

/-- One round of the loop over the operands, for an operand of 4, 8 or 16
bits: it needs `pos + bytes + 1 ≤ size` and moves the cursor by the width
divided by 8. -/
theorem operand_round {inp : Nat → Nat} {size : Nat} {o : op} {ops : operands}
    {bytes n j : Nat} {e : operand} {s s1 : State}
    (he : ops.elements.get? j = some e) (hb : e.bits = 4 ∨ e.bits = 8 ∨ e.bits = 16)
    (hsize : size < 2 ^ 64 - 1) (hbytes : 1 ≤ bytes)
    (h : operand_loop inp size o ops bytes (n + 1) j s = .ok () s1) :
    ∃ s2, operand_loop inp size o ops bytes n (j + 1) s2 = .ok () s1 ∧
      s2.pos = s.pos + e.bits / 8 ∧ s.pos + bytes + 1 ≤ size := by
  rw [operand_loop_succ inp size o ops bytes n j e he] at h
  obtain ⟨r, s0, h0, h⟩ := bind_ok h
  obtain ⟨lb, val⟩ := r
  obtain ⟨p0, hle, hdiv⟩ := extract_ok h0 hb
  simp only [bind] at h
  obtain ⟨_, s3, h3, h⟩ := bind_ok h
  have p3 := still_ok (still_printf _) h3
  obtain ⟨_, s4, h4, h⟩ := bind_ok h
  have p4 := still_ok (still_print_operand _ _ _) h4
  have key : ∀ s5, s5.pos = s4.pos →
      M.bind (advance_loop (lb + e.bits) (lb + e.bits))
        (fun _ => operand_loop inp size o ops bytes n (j + 1)) s5 = .ok () s1 →
      ∃ s2, operand_loop inp size o ops bytes n (j + 1) s2 = .ok () s1 ∧
        s2.pos = s.pos + e.bits / 8 ∧ s.pos + bytes + 1 ≤ size := by
    intro s5 p5 h5
    obtain ⟨r6, s6, h6, h7⟩ := bind_ok h5
    have hbits : e.bits / 8 ≤ 2 := by omega
    have p6 := advance_loop_pos _ _ _ _ _ h6 (by omega)
    exact ⟨s6, h7, by omega, hle⟩
  split at h
  · obtain ⟨_, s5, h5, h⟩ := bind_ok h
    exact key s5 (still_ok (still_printf _) h5) h
  · obtain ⟨_, s5, h5, h⟩ := bind_ok h
    exact key s5 (still_ok (still_of_keeps (keeps_pure _)) h5) h

/-- The loop over the operands moves the cursor by the sum of the widths
divided by 8, and after a round the cursor is not past `size`. -/
theorem operand_loop_pos {inp : Nat → Nat} {size : Nat} {o : op} {ops : operands}
    {bytes : Nat} (hb : ∀ e ∈ ops.elements, e.bits = 4 ∨ e.bits = 8 ∨ e.bits = 16)
    (hsize : size < 2 ^ 64 - 1) (hbytes : 1 ≤ bytes) (n : Nat) :
    ∀ (j : Nat) (s s1 : State), j + n ≤ ops.elements.length →
      operand_loop inp size o ops bytes n j s = .ok () s1 →
      s1.pos = s.pos + floor_sum ops n j ∧ (0 < n → s1.pos ≤ size) := by
  induction n with
  | zero =>
    intro j s s1 _ h
    unfold operand_loop at h
    simp only [pure, M.pure, Res.ok.injEq] at h
    obtain ⟨_, rfl⟩ := h
    exact ⟨rfl, fun h0 => absurd h0 (by decide)⟩
  | succ n ih =>
    intro j s s1 hj h
    have hlt : j < ops.elements.length := by omega
    have he : ops.elements.get? j = some (ops.elements.get ⟨j, hlt⟩) := List.get?_eq_get hlt
    have hbe := hb _ (List.get_mem ops.elements j hlt)
    obtain ⟨s2, h2, p2, hle⟩ := operand_round he hbe hsize hbytes h
    obtain ⟨q1, q2⟩ := ih (j + 1) s2 s1 (by omega) h2
    have hf : floor_sum ops (n + 1) j =
        (ops.elements.get ⟨j, hlt⟩).bits / 8 + floor_sum ops n (j + 1) := by
      simp only [floor_sum, he]
    refine ⟨by omega, fun _ => ?_⟩
    rcases Nat.eq_zero_or_pos n with hn | hn
    · subst hn
      simp only [floor_sum] at q1
      omega
    · exact q2 hn

/-- Every operand list of a table entry is one of the twenty lists. -/
theorem table_lists :
    ∀ page < 4, ∀ b < 256, ∀ l ∈ (opcodes page b).operands, l ∈ all_operand_lists := by
  decide

/-- The twenty lists hold `num` operands of 4, 8 or 16 bits, whose widths
divided by 8 sum to at most 5. -/
theorem lists_wf :
    ∀ l ∈ all_operand_lists, l.num = l.elements.length ∧
      (∀ e ∈ l.elements, e.bits = 4 ∨ e.bits = 8 ∨ e.bits = 16) ∧
      floor_sum l l.num 0 = (l.elements.map (fun e => e.bits / 8)).sum ∧
      (l.elements.map (fun e => e.bits / 8)).sum ≤ 5 := by
  decide

/-- The statement `pos += n`. -/
theorem addPos_ok {n : Nat} {s s1 : State} (h : addPos n s = .ok () s1) :
    s1.pos = u64 (s.pos + n) := by
  obtain ⟨pos, out, err, reads⟩ := s
  simp only [addPos, Res.ok.injEq, true_and] at h
  subst h
  rfl

/-- Where `resolve` goes on, the header lies within `size + 1`. -/
theorem resolve_le {inp : Nat → Nat} {size : Nat} {s : State} {pfx opcode : Nat} {o : op}
    {bytes : Nat} (h : (resolve inp size s).val? = some (pfx, opcode, o, bytes)) :
    s.pos + bytes ≤ size + 1 := by
  rw [resolve_val] at h
  split at h
  · rename_i hc
    split at h
    · rename_i hp
      simp only [Option.some.injEq, Prod.mk.injEq] at h
      obtain ⟨_, _, _, rfl⟩ := h
      simpa [spec_header_length, hp] using hc
    · rename_i hp
      simp only [Option.some.injEq, Prod.mk.injEq] at h
      obtain ⟨_, _, _, rfl⟩ := h
      simpa [spec_header_length, hp] using hc
  · exact absurd h (by simp)

/-- What `fetch_dump` yields: the prebyte and descriptor of `resolve`, and,
without an operand list, its header length. -/
theorem fetch_dump_ok {inp : Nat → Nat} {size : Nat} {s s1 : State} {pfx : Nat} {o : op}
    {text : String} {bytes : Nat} (h : fetch_dump inp size s = .ok (pfx, o, text, bytes) s1) :
    ∃ opcode bytes0, (resolve inp size s).val? = some (pfx, opcode, o, bytes0) ∧
      (o.operands = none → bytes = bytes0) := by
  obtain ⟨pos, out, err, reads⟩ := s
  simp only [fetch_dump, bind, getPos] at h
  obtain ⟨p, s0, h0, h⟩ := bind_ok h
  simp only [getPos, Res.ok.injEq] at h0
  obtain ⟨rfl, rfl⟩ := h0
  obtain ⟨r, s2, hr, h⟩ := bind_ok h
  obtain ⟨pfx0, opcode, o0, bytes0⟩ := r
  obtain ⟨bits, s3, ht, h⟩ := bind_ok h
  obtain ⟨r3, s4, hd, h⟩ := bind_ok h
  obtain ⟨text3, bytes3⟩ := r3
  simp only [pure, M.pure, Res.ok.injEq, Prod.mk.injEq] at h
  obtain ⟨⟨rfl, rfl, _, rfl⟩, _⟩ := h
  refine ⟨opcode, bytes0, by rw [hr]; rfl, fun hn => ?_⟩
  simp only [total_bits, hn, pure, M.pure, Res.ok.injEq] at ht
  obtain ⟨rfl, _⟩ := ht
  simp only [Nat.zero_div, Nat.zero_mod, ne_eq, not_true_eq_false, if_false, Nat.add_zero,
    dump_loop, pure, M.pure, Res.ok.injEq, Prod.mk.injEq] at hd
  exact hd.1.2.symm

/-- The descriptor that `resolve` yields is a table entry of a page 0 to 3 at
an opcode byte, and its prebyte is 0 or one of the three prebytes. -/
theorem resolve_table {inp : Nat → Nat} {size : Nat} {s : State} {pfx opcode : Nat} {o : op}
    {bytes : Nat} (h : (resolve inp size s).val? = some (pfx, opcode, o, bytes)) :
    ∃ page, page < 4 ∧ opcode < 256 ∧ o = opcodes page opcode ∧ pfx = page_prebyte page ∧
      bytes = (if pfx ≠ 0 then 2 else 1) := by
  obtain ⟨hlt, hc⟩ := resolve_cases h
  rcases hc with ⟨hp, ho, hb⟩ | ⟨_, hp, ho, hb⟩
  · rcases hp with rfl | rfl | rfl
    · exact ⟨1, by decide, hlt, ho, by decide, hb⟩
    · exact ⟨2, by decide, hlt, ho, by decide, hb⟩
    · exact ⟨3, by decide, hlt, ho, by decide, hb⟩
  · subst hp
    exact ⟨0, by decide, hlt, ho, by decide, hb⟩

/-- The operand `zg` has no branch in `print_operand`: the process ends. -/
theorem print_operand_zg (m : mode) (value : List Nat) (s : State) :
    print_operand op_zg m value s =
      .halt (.exit 6) ⟨s.pos, s.out, s.err ++ ["Unknown operand"], s.reads⟩ := by
  obtain ⟨pos, out, err, reads⟩ := s
  rfl

/-- The loop over the operands does not get past the operand `zg` of the list
`zg gggg`. -/
theorem operand_loop_zg {inp : Nat → Nat} {size : Nat} {o : op} {bytes n : Nat}
    {s s1 : State} (h : operand_loop inp size o zggggg bytes (n + 1) 0 s = .ok () s1) :
    False := by
  rw [operand_loop_succ inp size o zggggg bytes n 0 op_zg rfl] at h
  obtain ⟨r, s0, _, h⟩ := bind_ok h
  simp only [bind] at h
  obtain ⟨_, s3, _, h⟩ := bind_ok h
  obtain ⟨_, s4, h4, _⟩ := bind_ok h
  rw [print_operand_zg] at h4
  exact absurd h4 (by simp)

/-- An iteration that goes on has resolved a descriptor with the cursor within
the buffer, and has moved the cursor by 1 and the widths of the operands
divided by 8, or by the header length when there is no operand list: by 1 to 6
bytes.  The operand list of the descriptor is not `zg gggg`. -/
theorem iteration_ok_pos {inp : Nat → Nat} {size : Nat} {s s1 : State}
    (hsize : size < 2 ^ 64 - 1) (h : iteration inp size s = .ok () s1) :
    ∃ pfx opcode o bytes, (resolve inp size s).val? = some (pfx, opcode, o, bytes) ∧
      s1.pos = s.pos + floor_advance pfx o ∧ s.pos ≤ size ∧
      1 ≤ floor_advance pfx o ∧ floor_advance pfx o ≤ 6 ∧ o.operands ≠ some zggggg := by
  rw [iteration_eq] at h
  obtain ⟨r, s0, hf, h⟩ := bind_ok h
  obtain ⟨pfx, o, text, bytes⟩ := r
  have p0 := still_ok (still_of_keeps (keeps_fetch_dump inp size)) hf
  obtain ⟨opcode, bytes0, hr, hnone⟩ := fetch_dump_ok hf
  obtain ⟨page, hpage, hop, ho, hpfx, hb0⟩ := resolve_table hr
  have hle := resolve_le hr
  have hb1 : 1 ≤ bytes0 ∧ bytes0 ≤ 2 := by
    rw [hb0]
    split <;> decide
  refine ⟨pfx, opcode, o, bytes0, hr, ?_⟩
  simp only [print_line, bind] at h
  obtain ⟨_, s2, h2, h⟩ := bind_ok h
  have p2 := still_ok (still_printf _) h2
  obtain ⟨_, s3, h3, h⟩ := bind_ok h
  have p3 := still_ok (still_printf _) h3
  simp only [print_operands, bind] at h
  cases hops : o.operands with
  | none =>
    simp only [hops] at h
    obtain ⟨_, s4, h4, h⟩ := bind_ok h
    have p5 := still_ok (still_printf _) h
    have p4 := addPos_ok h4
    have hu : u64 (s3.pos + bytes) = s3.pos + bytes := Nat.mod_eq_of_lt (by
      have := hnone hops
      omega)
    have hb := hnone hops
    simp only [floor_advance, hops]
    rw [← hb0]
    refine ⟨by omega, by omega, by omega, by omega, by simp⟩
  | some ops =>
    simp only [hops] at h
    obtain ⟨_, s4, h4, h⟩ := bind_ok h
    obtain ⟨_, s5, h5, h⟩ := bind_ok h
    have p6 := still_ok (still_printf _) h
    have p5 := addPos_ok h5
    have hl : ops ∈ all_operand_lists := by
      have := table_lists page hpage opcode hop ops
      rw [← ho, hops] at this
      exact this rfl
    obtain ⟨hnum, hbits, hsum, hmax⟩ := lists_wf ops hl
    have hbytes : 1 ≤ (if pfx ≠ 0 then 2 else 1) := by
      split <;> decide
    obtain ⟨q1, q2⟩ := operand_loop_pos hbits hsize hbytes ops.num 0 s3 s4 (by omega) h4
    have hs4 : s4.pos ≤ size := by
      rcases Nat.eq_zero_or_pos ops.num with hz | hz
      · rw [hz] at q1
        simp only [floor_sum] at q1
        omega
      · exact q2 hz
    have hu : u64 (s4.pos + 1) = s4.pos + 1 := Nat.mod_eq_of_lt (by omega)
    have hzg : ops ≠ zggggg := by
      intro e
      rw [e] at h4
      exact operand_loop_zg h4
    simp only [floor_advance, hops]
    exact ⟨by omega, by omega, by omega, by omega, fun e => hzg (Option.some.inj e)⟩

/-! ## The bound on the iterations is never reached -/

theorem fueled_of_keeps_ok {α : Type} {m : M α} (hm : ∀ s, ∃ a s1, m s = .ok a s1) :
    m.fueled := by
  intro s s1 h
  obtain ⟨a, s0, h0⟩ := hm s
  rw [h0] at h
  exact absurd h (by simp)

theorem fueled_pure {α : Type} (a : α) : (M.pure a).fueled :=
  fun _ _ h => absurd h (by simp [M.pure])

theorem fueled_halt {α : Type} {e : Halt} (he : e ≠ .fuel) : (halt e : M α).fueled := by
  intro s s1 h
  simp only [halt, Res.halt.injEq] at h
  exact he h.1

theorem fueled_bind {α β : Type} {m : M α} {f : α → M β} (hm : m.fueled)
    (hf : ∀ a, (f a).fueled) : (M.bind m f).fueled := by
  intro s s1 h
  unfold M.bind at h
  cases h0 : m s with
  | halt e s0 =>
    rw [h0] at h
    simp only [Res.halt.injEq] at h
    obtain ⟨rfl, rfl⟩ := h
    exact hm s s0 h0
  | ok a s0 =>
    rw [h0] at h
    exact hf a s0 s1 h

theorem fueled_ite {α : Type} (c : Prop) [Decidable c] {a b : M α} (ha : a.fueled)
    (hb : b.fueled) : (if c then a else b).fueled := by
  split
  · exact ha
  · exact hb

theorem fueled_getPos : getPos.fueled :=
  fun ⟨_, _, _, _⟩ _ h => absurd h (by simp [getPos])

theorem fueled_addPos (n : Nat) : (addPos n).fueled :=
  fun ⟨_, _, _, _⟩ _ h => absurd h (by simp [addPos])

theorem fueled_printf (t : String) : (printf t).fueled :=
  fun ⟨_, _, _, _⟩ _ h => absurd h (by simp [printf])

theorem fueled_warnx (t : String) : (warnx t).fueled :=
  fun ⟨_, _, _, _⟩ _ h => absurd h (by simp [warnx])

theorem fueled_readb (inp : Nat → Nat) (i : Nat) : (readb inp i).fueled :=
  fun ⟨_, _, _, _⟩ _ h => absurd h (by simp [readb])

theorem fueled_getb (inp : Nat → Nat) (size p : Nat) : (getb inp size p).fueled := by
  unfold getb
  refine fueled_bind fueled_getPos (fun pos => ?_)
  refine fueled_ite _ ?_ (fueled_readb _ _)
  exact fueled_bind (fueled_warnx _) (fun _ => fueled_halt (by decide))

theorem fueled_resolve (inp : Nat → Nat) (size : Nat) : (resolve inp size).fueled := by
  unfold resolve
  refine fueled_bind fueled_getPos (fun pos => ?_)
  refine fueled_bind (fueled_readb _ _) (fun c => ?_)
  dsimp only
  refine fueled_ite _ ?_ ?_
  · exact fueled_bind (fueled_getb _ _ _) (fun _ =>
      fueled_bind (fueled_getb _ _ _) (fun _ => fueled_bind (fueled_pure _) (fun _ =>
        fueled_pure _)))
  · exact fueled_bind (fueled_getb _ _ _) (fun _ =>
      fueled_bind (fueled_pure _) (fun _ => fueled_pure _))

theorem fueled_bits_loop (ops : operands) (n i bits : Nat) :
    (bits_loop ops n i bits).fueled := by
  induction n generalizing i bits with
  | zero => exact fueled_pure _
  | succ n ih =>
    unfold bits_loop
    split
    · exact fueled_halt (by decide)
    · exact ih _ _

theorem fueled_total_bits (o : op) : (total_bits o).fueled := by
  unfold total_bits
  split
  · exact fueled_pure _
  · exact fueled_bits_loop _ _ _ _

theorem fueled_dump_loop (inp : Nat → Nat) (size pfx bits i : Nat) (text : String)
    (bytes : Nat) : (dump_loop inp size pfx bits i text bytes).fueled := by
  induction i generalizing text bytes with
  | zero => exact fueled_pure _
  | succ i ih =>
    unfold dump_loop
    exact fueled_bind (fueled_getb _ _ _) (fun _ => ih _ _)

theorem fueled_value_loop (inp : Nat → Nat) (size bytes n k localbits : Nat)
    (value : List Nat) : (value_loop inp size bytes n k localbits value).fueled := by
  induction n generalizing k localbits value with
  | zero =>
    unfold value_loop
    exact fueled_ite _ (fueled_halt (by decide)) (fueled_pure _)
  | succ n ih =>
    unfold value_loop
    exact fueled_ite _ (fueled_bind (fueled_getb _ _ _) (fun _ => ih _ _ _)) (fueled_pure _)

theorem fueled_print_operand (arg : operand) (m : mode) (value : List Nat) :
    (print_operand arg m value).fueled := by
  unfold print_operand
  repeat' first
    | exact fueled_pure _
    | exact fueled_printf _
    | exact fueled_bind (fueled_warnx _) (fun _ => fueled_halt (by decide))
    | refine fueled_ite _ ?_ ?_

/-- With `n` at least `localbits`, the loop `while (localbits > 8)` ends by its
own condition. -/
theorem fueled_advance_loop (n : Nat) :
    ∀ localbits, localbits ≤ n → (advance_loop n localbits).fueled := by
  induction n with
  | zero =>
    intro localbits h
    unfold advance_loop
    rw [if_neg (by omega)]
    exact fueled_pure _
  | succ n ih =>
    intro localbits h
    unfold advance_loop
    exact fueled_ite _ (fueled_bind (fueled_addPos _) (fun _ => ih _ (by omega)))
      (fueled_pure _)

theorem fueled_operand_loop (inp : Nat → Nat) (size : Nat) (o : op) (ops : operands)
    (bytes n j : Nat) : (operand_loop inp size o ops bytes n j).fueled := by
  induction n generalizing j with
  | zero => exact fueled_pure _
  | succ n ih =>
    unfold operand_loop
    refine fueled_bind (fueled_getb _ _ _) (fun v0 => ?_)
    split
    · exact fueled_halt (by decide)
    · refine fueled_bind (fueled_value_loop _ _ _ _ _ _ _) (fun r => ?_)
      obtain ⟨localbits, value⟩ := r
      refine fueled_bind (fueled_getb _ _ _) (fun v1 => ?_)
      refine fueled_bind (fueled_printf _) (fun _ => ?_)
      refine fueled_bind (fueled_print_operand _ _ _) (fun _ => ?_)
      dsimp only
      refine fueled_ite _ ?_ ?_
      · exact fueled_bind (fueled_printf _) (fun _ =>
          fueled_bind (fueled_advance_loop _ _ (Nat.le_refl _)) (fun _ => ih _))
      · exact fueled_bind (fueled_pure _) (fun _ =>
          fueled_bind (fueled_advance_loop _ _ (Nat.le_refl _)) (fun _ => ih _))

theorem fueled_print_operands (inp : Nat → Nat) (size pfx : Nat) (o : op) (bytes : Nat) :
    (print_operands inp size pfx o bytes).fueled := by
  unfold print_operands
  dsimp only
  split
  · exact fueled_bind (fueled_operand_loop _ _ _ _ _ _ _) (fun _ =>
      fueled_bind (fueled_addPos _) (fun _ => fueled_printf _))
  · exact fueled_bind (fueled_addPos _) (fun _ => fueled_printf _)

theorem fueled_fetch_dump (inp : Nat → Nat) (size : Nat) : (fetch_dump inp size).fueled := by
  unfold fetch_dump
  refine fueled_bind fueled_getPos (fun pos => ?_)
  refine fueled_bind (fueled_resolve _ _) (fun r => ?_)
  obtain ⟨pfx, opcode, o, bytes⟩ := r
  refine fueled_bind (fueled_total_bits _) (fun bits => ?_)
  refine fueled_bind (fueled_dump_loop _ _ _ _ _ _ _) (fun r => ?_)
  obtain ⟨text, bytes2⟩ := r
  exact fueled_pure _

theorem fueled_print_line (inp : Nat → Nat) (size : Nat) (r : Nat × op × String × Nat) :
    (print_line inp size r).fueled := by
  obtain ⟨pfx, o, text, bytes⟩ := r
  unfold print_line
  exact fueled_bind (fueled_printf _) (fun _ =>
    fueled_bind (fueled_printf _) (fun _ => fueled_print_operands _ _ _ _ _))

/-- An iteration never stops for lack of iterations of its inner loops. -/
theorem fueled_iteration (inp : Nat → Nat) (size : Nat) : (iteration inp size).fueled := by
  intro s s1 h
  rw [iteration_eq] at h
  exact fueled_bind (fueled_fetch_dump inp size) (fueled_print_line inp size) s s1 h

/-- With `n` iterations allowed, `n ≥ 1` and `n + pos ≥ size + 2`, the loop of
`disass` ends by a return or an exit, not by the bound `n`. -/
theorem disass_loop_ends (inp : Nat → Nat) (size : Nat) (hsize : size < 2 ^ 64 - 1)
    (n : Nat) : ∀ s : State, 1 ≤ n → size + 2 ≤ n + s.pos →
      (disass_loop inp size n s).1 ≠ .fuel := by
  induction n with
  | zero =>
    intro s h1 _
    exact absurd h1 (by decide)
  | succ n ih =>
    intro s _ h2
    rw [disass_loop]
    by_cases hg : s.pos < u64 (size + 2 ^ 64 - 2)
    · rw [if_pos hg]
      cases hi : iteration inp size s with
      | halt e s1 =>
        intro he
        exact fueled_iteration inp size s s1 (he ▸ hi)
      | ok u s1 =>
        obtain ⟨pfx, opcode, o, bytes, _, hp, hle, hlo, _, _⟩ := iteration_ok_pos hsize hi
        exact ih s1 (by omega) (by omega)
    · rw [if_neg hg]
      intro he
      exact Halt.noConfusion he

/-- The function `disass` ends by a return or an exit on every buffer: the
bound of `size + 2` iterations of the embedding is never what stops it.  (A
buffer in memory has `size < 2 ^ 64 - 1`.) -/
theorem disass_terminates (inp : Nat → Nat) (size : Nat) (hsize : size < 2 ^ 64 - 1) :
    (disass inp size).1 ≠ .fuel :=
  disass_loop_ends inp size hsize (size + 2) State.init (by omega) (by
    show size + 2 ≤ size + 2 + 0
    omega)

/-- Except for the list `zg gggg`, the run that `cursor_advance` reads the
move of the cursor from goes on, and the move is the one of `floor_advance`. -/
theorem cursor_advance_table :
    ∀ page < 4, ∀ b < 256,
      (opcodes page b).operands = some zggggg ∨
      cursor_advance (page_prebyte page) (opcodes page b) =
        some (floor_advance (page_prebyte page) (opcodes page b)) := by
  decide

/-- C27: for every table entry, the move of the cursor that `disass` makes for
it is the specified length `prefix_bytes + 1 + ceil(bits / 8)` exactly when the
entry has no operand list, or is on page 0 and has operand widths that are all
multiples of 8.  The move is the same in every iteration that resolves the
entry and goes on: the cursor ends `cursor_advance` bytes further. -/
theorem C27_advance_equals_length_iff :
    (∀ page < 4, ∀ b < 256,
      (cursor_advance (page_prebyte page) (opcodes page b) =
          some (spec_length (if page = 0 then 1 else 2) (opcodes page b)) ↔
        ((opcodes page b).operands = none ∨
          (page = 0 ∧ ∀ ops ∈ (opcodes page b).operands, ∀ e ∈ ops.elements,
            e.bits % 8 = 0)))) ∧
    (∀ (inp : Nat → Nat) (size : Nat) (s s1 : State), size < 2 ^ 64 - 1 →
      iteration inp size s = .ok () s1 →
      ∃ pfx opcode o bytes a, (resolve inp size s).val? = some (pfx, opcode, o, bytes) ∧
        cursor_advance pfx o = some a ∧ s1.pos = s.pos + a) := by
  constructor
  · decide
  · intro inp size s s1 hsize h
    obtain ⟨pfx, opcode, o, bytes, hr, hp, _, _, _, hzg⟩ := iteration_ok_pos hsize h
    obtain ⟨page, hpage, hop, ho, hpfx, _⟩ := resolve_table hr
    refine ⟨pfx, opcode, o, bytes, floor_advance pfx o, hr, ?_, hp⟩
    rcases cursor_advance_table page hpage opcode hop with hc | hc
    · rw [← ho] at hc
      exact absurd hc hzg
    · rw [← ho, ← hpfx] at hc
      exact hc

/-- C27 at `opcodes[0][0x00]` and at the first iteration on 0x00, 0xAB, 0xCD. -/
theorem C27_advance_equals_length_iff_witness :
    ((0 < 4 ∧ 0x00 < 256) ∧
      (cursor_advance (page_prebyte 0) (opcodes 0 0x00) =
          some (spec_length (if 0 = 0 then 1 else 2) (opcodes 0 0x00)) ↔
        ((opcodes 0 0x00).operands = none ∨
          (0 = 0 ∧ ∀ ops ∈ (opcodes 0 0x00).operands, ∀ e ∈ ops.elements,
            e.bits % 8 = 0)))) ∧
    ((3 < 2 ^ 64 - 1 ∧
        iteration (buffer [0x00, 0xAB, 0xCD] zeros) 3 State.init =
          .ok () ⟨2, "00000000: 00ab             com [%x]+0xab\n\n", [], [0, 0, 1, 1, 2]⟩) ∧
      ∃ pfx opcode o bytes a,
        (resolve (buffer [0x00, 0xAB, 0xCD] zeros) 3 State.init).val? =
          some (pfx, opcode, o, bytes) ∧
        cursor_advance pfx o = some a ∧ 2 = State.init.pos + a) :=
  ⟨⟨⟨by decide, by decide⟩, C27_advance_equals_length_iff.1 0 (by decide) 0x00 (by decide)⟩,
    ⟨⟨by decide, rfl⟩,
      C27_advance_equals_length_iff.2 (buffer [0x00, 0xAB, 0xCD] zeros) 3 State.init
        ⟨2, "00000000: 00ab             com [%x]+0xab\n\n", [], [0, 0, 1, 1, 2]⟩
        (by decide) rfl⟩⟩

/-- The digits that `hex` writes for a byte hold no parenthesis. -/
theorem hex_no_paren :
    ∀ b < 256, (∀ c ∈ (hex 2 b).data, c ≠ '(' ∧ c ≠ ')') ∧
      (∀ c ∈ (hex 4 b).data, c ≠ '(' ∧ c ≠ ')') := by
  decide

/-- C31: what `print_operand` writes, kind by kind, for an array `value` of
bytes.  For `ff` and `ii` it writes `0x` and `value[0]` in 2 hex digits, for
`gggg` it writes `0x` and hex digits of `value[0]` and `value[1]`; for `b`,
`hh`, `jj`, `kk`, `ll`, `mmmm`, `rr`, `rrrr`, `xo`, `yo` and `z` it writes
nothing and changes nothing; for `mm` it writes `(0x`, `value[0]` in 2 hex
digits and ` & `, a text with an opening parenthesis and no closing one; and of
the sixteen operand kinds `mm` is the only one whose text holds an opening
parenthesis. -/
theorem C31_print_operand_by_kind (m : mode) (value : List Nat)
    (hv : ∀ v ∈ value, v < 256) :
    (∀ s : State, print_operand op_ff m value s =
      .ok () ⟨s.pos, s.out ++ ("0x" ++ hex 2 (value.getD 0 0 % 256)), s.err, s.reads⟩) ∧
    (∀ s : State, print_operand op_ii m value s =
      .ok () ⟨s.pos, s.out ++ ("0x" ++ hex 2 (value.getD 0 0 % 256)), s.err, s.reads⟩) ∧
    (∀ s : State, print_operand op_gggg m value s =
      .ok () ⟨s.pos, s.out ++ ("0x" ++ hex 4 (value.getD 0 0 % 65536) ++
        hex 4 (value.getD 1 0 % 65536)), s.err, s.reads⟩) ∧
    (∀ e ∈ [op_b, op_hh, op_jj, op_kk, op_ll, op_mmmm, op_rr, op_rrrr, op_xo, op_yo, op_z],
      ∀ s : State, print_operand e m value s = .ok () s) ∧
    (∀ s : State, print_operand op_mm m value s =
      .ok () ⟨s.pos, s.out ++ ("(0x" ++ hex 2 (value.getD 0 0 % 256) ++ " & "), s.err,
        s.reads⟩) ∧
    ('(' ∈ (print_text op_mm m value).data ∧ ')' ∉ (print_text op_mm m value).data) ∧
    (∀ e ∈ all_operand_objects, e ≠ op_mm → '(' ∉ (print_text e m value).data) := by
  have h0 : value.getD 0 0 < 256 := by
    rw [List.getD_eq_getElem?_getD]
    cases hg : value[0]? with
    | none => decide
    | some v => exact hv v (List.getElem?_mem hg)
  have h1 : value.getD 1 0 < 256 := by
    rw [List.getD_eq_getElem?_getD]
    cases hg : value[1]? with
    | none => decide
    | some v => exact hv v (List.getElem?_mem hg)
  have m0 : value.getD 0 0 % 256 = value.getD 0 0 := Nat.mod_eq_of_lt h0
  have n0 : value.getD 0 0 % 65536 = value.getD 0 0 := Nat.mod_eq_of_lt (by omega)
  have n1 : value.getD 1 0 % 65536 = value.getD 1 0 := Nat.mod_eq_of_lt (by omega)
  have tff : print_text op_ff m value = "0x" ++ hex 2 (value.getD 0 0 % 256) := by
    show "" ++ _ = _
    rw [String.empty_append]
  have tii : print_text op_ii m value = "0x" ++ hex 2 (value.getD 0 0 % 256) := by
    show "" ++ _ = _
    rw [String.empty_append]
  have tgg : print_text op_gggg m value =
      "0x" ++ hex 4 (value.getD 0 0 % 65536) ++ hex 4 (value.getD 1 0 % 65536) := by
    show "" ++ _ = _
    rw [String.empty_append]
  have tmm : print_text op_mm m value = "(0x" ++ hex 2 (value.getD 0 0 % 256) ++ " & " := by
    show "" ++ _ = _
    rw [String.empty_append]
  refine ⟨fun ⟨_, _, _, _⟩ => rfl, fun ⟨_, _, _, _⟩ => rfl, fun ⟨_, _, _, _⟩ => rfl, ?_,
    fun ⟨_, _, _, _⟩ => rfl, ?_, ?_⟩
  · intro e he
    simp only [List.mem_cons, List.mem_singleton, List.not_mem_nil, or_false] at he
    rcases he with rfl | rfl | rfl | rfl | rfl | rfl | rfl | rfl | rfl | rfl | rfl <;>
      exact fun _ => rfl
  · rw [tmm, m0]
    simp only [String.data_append, List.mem_append]
    constructor
    · exact Or.inl (Or.inl (by decide))
    · rintro ((h | h) | h)
      · exact absurd h (by decide)
      · exact ((hex_no_paren _ h0).1 _ h).2 rfl
      · exact absurd h (by decide)
  · intro e he hne
    simp only [all_operand_objects, List.mem_cons, List.mem_singleton, List.not_mem_nil,
      or_false] at he
    rcases he with rfl | rfl | rfl | rfl | rfl | rfl | rfl | rfl | rfl | rfl | rfl | rfl |
      rfl | rfl | rfl | rfl
    case inr.inr.inr.inr.inr.inr.inr.inr.inr.inl => exact absurd rfl hne
    case inr.inl =>
      rw [tff, m0]
      simp only [String.data_append, List.mem_append]
      rintro (h | h)
      · exact absurd h (by decide)
      · exact ((hex_no_paren _ h0).1 _ h).1 rfl
    case inr.inr.inr.inr.inr.inl =>
      rw [tii, m0]
      simp only [String.data_append, List.mem_append]
      rintro (h | h)
      · exact absurd h (by decide)
      · exact ((hex_no_paren _ h0).1 _ h).1 rfl
    case inr.inr.inl =>
      rw [tgg, n0, n1]
      simp only [String.data_append, List.mem_append]
      rintro ((h | h) | h)
      · exact absurd h (by decide)
      · exact ((hex_no_paren _ h0).2 _ h).1 rfl
      · exact ((hex_no_paren _ h1).2 _ h).1 rfl
    all_goals
      intro h
      exact absurd (show '(' ∈ ("" : String).data from h) (by decide)

/-- Witness for C31, at the array `value` = 0x12, 0x34, 0, 0: the operand `mm`
is written as `(0x12 & `. -/
theorem C31_print_operand_by_kind_witness :
    (∀ v ∈ [0x12, 0x34, 0, 0], v < 256) ∧
    (print_operand op_mm .imm8 [0x12, 0x34, 0, 0] State.init =
      .ok () ⟨0, "(0x12 & ", [], []⟩) ∧
    (print_operand op_gggg .ind16x [0x12, 0x34, 0, 0] State.init =
      .ok () ⟨0, "0x00120034", [], []⟩) :=
  ⟨by decide,
    (C31_print_operand_by_kind .imm8 [0x12, 0x34, 0, 0] (by decide)).2.2.2.2.1 State.init,
    (C31_print_operand_by_kind .ind16x [0x12, 0x34, 0, 0] (by decide)).2.2.1 State.init⟩

/-- The descriptor that `resolve` yields is the entry of the table at the page
index computed from the prebyte, and the prebyte is 0 or one of 0x17, 0x27,
0x37. -/
theorem resolve_page_index {inp : Nat → Nat} {size : Nat} {s : State} {pfx opcode : Nat}
    {o : op} {bytes : Nat} (h : (resolve inp size s).val? = some (pfx, opcode, o, bytes)) :
    (pfx = 0 ∨ pfx = 0x17 ∨ pfx = 0x27 ∨ pfx = 0x37) ∧ o = opcodes (page_index pfx) opcode := by
  obtain ⟨_, hc⟩ := resolve_cases h
  rcases hc with ⟨hp, ho, _⟩ | ⟨_, hp, ho, _⟩
  · rcases hp with rfl | rfl | rfl
    · exact ⟨by decide, ho⟩
    · exact ⟨by decide, ho⟩
    · exact ⟨by decide, ho⟩
  · subst hp
    exact ⟨by decide, ho⟩

/-- C33: the table and the page index agree on the prebytes.  For each `b` of
0x17, 0x27, 0x37 the entry `opcodes[0][b]` has the mnemonic PREBYTE, no operand
list, and a mode whose value is `(b >> 4) & 3`, which is the page 1, 2, 3 of
that prebyte; for `prefix` = 0 the index is 0; and the descriptor that
`resolve` yields is always the entry at the index `(prefix >> 4) & 3`, with
`prefix` 0 or one of the three prebytes. -/
theorem C33_prebyte_rows_match_page_index :
    (∀ b ∈ [0x17, 0x27, 0x37],
      (opcodes 0 b).mnemonic = some "PREBYTE" ∧ (opcodes 0 b).operands = none ∧
      (opcodes 0 b).mode.toNat = page_index b ∧ page_index b = spec_page b) ∧
    ((opcodes 0 0x17).mode = .PAGE1 ∧ (opcodes 0 0x27).mode = .PAGE2 ∧
      (opcodes 0 0x37).mode = .PAGE3) ∧
    page_index 0 = 0 ∧
    (∀ (inp : Nat → Nat) (size : Nat) (s : State) (pfx opcode : Nat) (o : op) (bytes : Nat),
      (resolve inp size s).val? = some (pfx, opcode, o, bytes) →
      (pfx = 0 ∨ pfx = 0x17 ∨ pfx = 0x27 ∨ pfx = 0x37) ∧
        o = opcodes (page_index pfx) opcode) :=
  ⟨by decide, by decide, by decide, fun _ _ _ _ _ _ _ h => resolve_page_index h⟩

/-- Witness for C33, on the stream 0x17, 0x00, 0x12, 0x34: the prebyte 0x17
is resolved to the entry at index (0x17 >> 4) & 3 = 1. -/
theorem C33_prebyte_rows_match_page_index_witness :
    (resolve (buffer [0x17, 0x00, 0x12, 0x34] zeros) 4 State.init).val? =
      some (0x17, 0x00, opcodes 1 0x00, 2) ∧
    0x17 ∈ [0x17, 0x27, 0x37] ∧
    (opcodes 0 0x17).mode.toNat = page_index 0x17 ∧
    opcodes 1 0x00 = opcodes (page_index 0x17) 0x00 :=
  ⟨by decide, by decide,
    (C33_prebyte_rows_match_page_index.1 0x17 (by decide)).2.2.1,
    (C33_prebyte_rows_match_page_index.2.2.2 (buffer [0x17, 0x00, 0x12, 0x34] zeros) 4
      State.init 0x17 0x00 (opcodes 1 0x00) 2 (by decide)).2⟩

end Hc16
